import Mathlib

/-!
stm32bootloader: a shallow embedding of `Src/bootloader.c`.

The file has three parts: the definitions (the embedding of the C code, the reference CRC,
the vocabulary of the statements and the worked examples), the lemmas, and one section per
claim `C1`, `C2`, ... of the specification.

The C translation unit keeps its whole session in file-scope variables.  Here they are the
fields of one record `Session`; every C function becomes a function on that record.

Conventions of the embedding

* Machine integers are `Nat` (unsigned) or `Int` (signed).  A reduction `% 2 ^ w` is written
  at every C expression whose value can leave the range of the type it is stored in; every
  field of a `Session` is meant to hold a value of its C type.
* `transmitBuffer` is a `List Nat` of bytes.  Reading an index uses `List.getD _ _ 0` and a
  store uses `List.set`; both are only meaningful for an index inside the array.
* The target (STM32L0, Cortex-M0+) is little-endian with integers in twos-complement
  form; this is used where the C code reinterprets an integer as bytes (`encrypt`, `decrypt`).
* The flash driver (`flash.c`), the C library generator (`srand`/`rand`) and the HAL are not
  part of the translation unit.  They are the fields of `Board`, over an abstract world `W`
  (the contents of flash).  Calls that leave the translation unit are recorded, in order, in
  `Session.trace`.
* An interrupt handler runs atomically between two statements of the main loop; `sendData`
  spins until the transmit-completed interrupt clears its flag, so it is modelled as the
  transmit request followed by `bootloaderTxCompletedCallback`.
-/

namespace Bootloader

/-! ## Constants of `bootloader.c`, `bootloader.h` and `flash.h` -/

/-- The constant `SEED_OFFSET` is `96U`.  `encrypt` and `decrypt` add it to, and subtract it
from, an `int32_t` and store the result in an `int32_t`: the operation is done modulo
`2 ^ 32` and converted back, which gives the signed sum or difference whenever that lies in
the range of `int32_t`, as it does for every value the two functions can meet. -/
def SEED_OFFSET : Int := 96
def RX_TIMEOUT_MS : Nat := 100
def RX_BUFFER_SIZE : Nat := 280
def CRC_LENGTH : Nat := 2
def COMMAND_LENGHT : Nat := 1
def COMMAND_ADDRESS_LENGTH : Nat := 4
def COMMAND_LENGTH_LENGHT : Nat := 1
def EXTERASE_MODE_LENGTH : Nat := 2
def EXTERASE_PAGE_LENGTH : Nat := 2
def ENCRYPTED_RANDOM_VALUE_LENGTH : Nat := 8
def CALCULATE_CRC_FLAG : Nat := 0x01
def INIT_CRC_FLAG : Nat := 0x02
def CRC_INIT_VALUE : Nat := 0x0000
def ACK : Nat := 0x79
def NACK : Nat := 0x1F
def READ_BOOTLOADER_COMMAND : Nat := 0x11
def WRITE_BOOTLOADER_COMMAND : Nat := 0x31
def READ_UNPROTECT_BOOTLOADER_COMMAND : Nat := 0x92
def WRITE_UNPROTECT_BOOTLOADER_COMMAND : Nat := 0x73
def GO_BOOTLOADER_COMMAND : Nat := 0x21
def GETID_BOOTLOADER_COMMAND : Nat := 0x02
def GET_BOOTLOADER_COMMAND : Nat := 0x00
def EXTERASE_BOOTLOADER_COMMAND : Nat := 0x44
def RANDOMIZE_BOOTLOADER_COMMAND : Nat := 0x93
def AUTHORIZE_HOST_COMMAND : Nat := 0xFE
def VALID_FIRMWARE_VALUE : Nat := 0x55555555
def JUMP_FROM_APPLICATION_TAG_VALUE : Nat := 0xAABBCCDD
def BOOTLOADER_VERSION : Nat := 0x10
def DEVICE_ID : Nat := 0x3344
def BOOTLOADER_TIMEOUT_MS : Nat := 60000
def FLASH_APP_START_ADDRESS : Nat := 0x08003200
def FLASH_STATUS_OK : Nat := 0x00
def UINT32_MAX : Nat := 4294967295
def cryptoKeyBmsN : Int := 2651
def cryptoKeyBmsE : Int := 7
def cryptoKeyHostN : Int := 1243
def cryptoKeyHostD : Int := 1867

/-- Subtraction of two `uint32_t` values. -/
def sub32 (a b : Nat) : Nat := (a + 4294967296 - b) % 4294967296

/-- Addition of two `uint32_t` values. -/
def add32 (a b : Nat) : Nat := (a + b) % 4294967296

inductive PROTOCOL_STATE
  | WAIT_FOR_COMMAND_PROTOCOL_STATE
  | WRITE_COMMAND_RECEIVE_ADDRESS_PROTOCOL_STATE
  | WRITE_COMMAND_RECEIVE_LENGTH_PROTOCOL_STATE
  | WRITE_COMMAND_RECEIVE_DATA_PROTOCOL_STATE
  | READ_COMMAND_RECEIVE_ADDRESS_PROTOCOL_STATE
  | READ_COMMAND_RECEIVE_LENGTH_PROTOCOL_STATE
  | ERASE_COMMAND_RECEIVE_MODE_PROTOCOL_STATE
  | ERASE_COMMAND_RECEIVE_PAGES_NUMBERS
  | ERASE_COMMAND_RECEIVE_CRC
  | GO_COMMAND_RECEIVE_ADDRESS_PROTOCOL_STATE
  | RANDOMIZE_COMMAND_RECEIVE_ENCRYPTED_RANDOM_VALUE_STATE
  deriving DecidableEq, Repr

inductive RECEIVED_DATA_TYPE
  | NO_RECEIVED_DATA_TYPE
  | VALID_RECEIVED_DATA_TYPE
  | INVALID_RECEIVED_DATA_TYPE
  | TIMEOUT_RECEIVED_DATA_TYPE
  deriving DecidableEq, Repr

inductive RECEIVE_STATE
  | INIT_RECEIVE_STATE
  | WAIT_FOR_DATA_RECEIVE_STATE
  deriving DecidableEq, Repr

/-- A call that leaves the translation unit, or a store to the boot tag in RAM. -/
inductive Event
  | flashErase (address : Nat)
  | flashWrite (address : Nat) (data : List Nat) (length : Nat)
  | flashRead (address : Nat) (length : Nat)
  | transmit (bytes : List Nat)
  | receiveArm
  | bootTagStore (value : Nat)
  | quiesce
  | jump
  deriving DecidableEq, Repr

/-- The collaborators `bootloader.c` calls and the two device constants it takes from the HAL
headers.  `W` is the state of the outside world (flash contents).

* `flash_erase w a` and `flash_write w a data n` give the returned `flash_status` and the new
  world; `flash_read w a data n` gives the buffer of the caller after the call.
* `load32 w p` is the 32-bit word read through the pointer `p` (used for
  `*validApplicationTag`).
* `rand seed k` is the value of the `k`-th call of `rand()` after `srand(seed)`; in
  `rand() + (((uint32_t)rand()) << 16) + 1` the left operand is taken as call 0 (C leaves the
  order of the two calls open, and nothing proved here depends on it).
* `jumpReturns w` tells whether `flash_jump_to_app()` comes back to its caller. -/
structure Board (W : Type) where
  FLASH_END : Nat
  FLASH_PAGE_SIZE : Nat
  flash_erase : W → Nat → Nat × W
  flash_write : W → Nat → List Nat → Nat → Nat × W
  flash_read : W → Nat → List Nat → Nat → List Nat
  load32 : W → Nat → Nat
  rand : Nat → Nat → Nat
  jumpReturns : W → Bool

/-- The macro `FLASH_APP_END_ADDRESS` of `flash.h`: `((uint32_t)FLASH_END-0x10u)`. -/
def FLASH_APP_END_ADDRESS {W : Type} (env : Board W) : Nat := sub32 env.FLASH_END 0x10

/-- The file-scope variables of `bootloader.c` (with the function-local `static`
`receiveState` of `receiveData`), the word `*bootloaderTag`, and the bookkeeping of the
embedding: `world`, `trace`, `rxArmed` (a one-byte `HAL_UART_Receive_IT` is pending) and
`running` (control has not left the bootloader through `flash_jump_to_app`). -/
structure Session (W : Type) where
  hostAuthorized : Bool
  bootloaderTag : Nat
  validApplicationTag : Nat
  randomValue : Nat
  receivedRandomValue : Nat
  rxCharacter : Nat
  rxPointer : Nat
  rxDataReady : Bool
  txDataInProgress : Bool
  transmitBuffer : List Nat
  expectedDataLength : Nat
  rxFrameTimeout : Nat
  bootloaderExitTimeout : Nat
  randomValueSeed : Nat
  receivedDataCRC : Nat
  protocolState : PROTOCOL_STATE
  segmentDataLength : Nat
  memoryAddress : Nat
  externalEraseMode : Nat
  externalErasePageNumber : Nat
  receiveState : RECEIVE_STATE
  world : W
  trace : List Event
  rxArmed : Bool
  running : Bool

/-! ## `crcCalculation` -/

/-- The body of the `for` loop of `crcCalculation`. -/
def crcShift (crc : Nat) : Nat :=
  if crc &&& 0x01 ≠ 0 then (crc >>> 1) ^^^ 0xA001 else crc >>> 1

/-- The `for` loop of `crcCalculation`, with the number of iterations still to run. -/
def crcLoop : Nat → Nat → Nat
  | 0, crc => crc
  | i + 1, crc => crcLoop i (crcShift crc)

def crcCalculation (crc byte : Nat) : Nat :=
  crcLoop 8 (crc ^^^ byte)

/-! ## `encrypt` and `decrypt` -/

/-- The inner `for (j = 0; j < e; j++) { k = k * pt; k = k % n; }` with `j` iterations left.
In C, `%` on `int32_t` truncates toward zero (`Int.tmod`).  With `|k| < |n| < 2 ^ 15` and
`|pt| < 2 ^ 15 + 96` the product stays inside `int32_t`. -/
def powerLoop : Nat → Int → Int → Int → Int
  | 0, k, _, _ => k
  | j + 1, k, pt, n => powerLoop j ((k * pt).tmod n) pt n

/-- The two bytes `memcpy` takes from the `int32_t` `ct`: its low half, low byte first. -/
def lowHalfBytes (ct : Int) : Nat × Nat :=
  let h := (ct % 65536).toNat
  (h % 256, h / 256)

/-- The `int16_t` read at `source + 2 * i`. -/
def loadInt16 (source : List Nat) (i : Nat) : Int :=
  let h := source.getD (2 * i) 0 + 256 * source.getD (2 * i + 1) 0
  if h < 32768 then (h : Int) else (h : Int) - 65536

/-- The `while (i != length)` loop of `encrypt`; `todo` counts the iterations still to run. -/
def encryptLoop (source : List Nat) (n e : Int) : Nat → Nat → List Nat → List Nat
  | 0, _, destination => destination
  | todo + 1, i, destination =>
    let pt : Int := (source.getD i 0 : Nat) - SEED_OFFSET
    let k := powerLoop e.toNat 1 pt n
    let ct := k + SEED_OFFSET
    let half := lowHalfBytes ct
    encryptLoop source n e todo (i + 1)
      ((destination.set (2 * i) half.1).set (2 * i + 1) half.2)

def encrypt (source destination : List Nat) (length : Nat) (n e : Int) : List Nat :=
  encryptLoop source n e length 0 destination

/-- The `while (i != length)` loop of `decrypt`. -/
def decryptLoop (source : List Nat) (n d : Int) : Nat → Nat → List Nat → List Nat
  | 0, _, destination => destination
  | todo + 1, i, destination =>
    let ct : Int := loadInt16 source i - SEED_OFFSET
    let k := powerLoop d.toNat 1 ct n
    let pt := k + SEED_OFFSET
    decryptLoop source n d todo (i + 1) (destination.set i (pt % 256).toNat)

def decrypt (source destination : List Nat) (length : Nat) (n d : Int) : List Nat :=
  decryptLoop source n d length 0 destination

/-- The four bytes of a `uint32_t` object in memory. -/
def bytesOfWord (v : Nat) : List Nat :=
  [v % 256, v / 256 % 256, v / 65536 % 256, v / 16777216 % 256]

/-- The `uint32_t` held by four bytes of memory. -/
def wordOfBytes (b : List Nat) : Nat :=
  b.getD 0 0 + 256 * b.getD 1 0 + 65536 * b.getD 2 0 + 16777216 * b.getD 3 0

/-! ## The command executor -/

/-- What `executeCommand` leaves behind: the returned flag, the buffer `data` points to, and
the session. -/
structure Executed (W : Type) where
  result : Bool
  data : List Nat
  session : Session W

/-- The statement `eraseMode = (uint16_t)(data[0] << 8) + data[1];` (also used by the handler
for `externalEraseMode` and `externalErasePageNumber`). -/
def halfwordOfBuffer (data : List Nat) : Nat :=
  ((data.getD 0 0 * 256) % 65536 + data.getD 1 0) % 65536

/-- The three statements `*bootloaderTag = 0; disableHardwareCallback(); flash_jump_to_app();`
shared by `executeCommand` (GO) and `bootloaderInit`.  When the jump does not come back,
`running` is cleared and nothing after the call is executed. -/
def leaveBootloader {W : Type} (env : Board W) (s : Session W) : Session W :=
  { s with
    bootloaderTag := 0
    trace := s.trace ++ [Event.bootTagStore 0, Event.quiesce, Event.jump]
    running := env.jumpReturns s.world }

def executeCommand {W : Type} (env : Board W) (commandCode : Nat) (data : List Nat)
    (startAddress dataLength : Nat) (s : Session W) : Executed W :=
  if commandCode = GET_BOOTLOADER_COMMAND then
    let data := data.set 0 8
    let data := data.set 1 BOOTLOADER_VERSION
    let data := data.set 2 READ_BOOTLOADER_COMMAND
    let data := data.set 3 WRITE_BOOTLOADER_COMMAND
    let data := data.set 4 READ_UNPROTECT_BOOTLOADER_COMMAND
    let data := data.set 5 WRITE_UNPROTECT_BOOTLOADER_COMMAND
    let data := data.set 6 GO_BOOTLOADER_COMMAND
    let data := data.set 7 GETID_BOOTLOADER_COMMAND
    let data := data.set 8 GET_BOOTLOADER_COMMAND
    let data := data.set 9 EXTERASE_BOOTLOADER_COMMAND
    ⟨true, data, s⟩
  else if commandCode = GETID_BOOTLOADER_COMMAND then
    let data := data.set 0 1
    let data := data.set 1 (DEVICE_ID >>> 8)
    let data := data.set 2 (DEVICE_ID &&& 0x00FF)
    ⟨true, data, s⟩
  else if commandCode = EXTERASE_BOOTLOADER_COMMAND then
    if s.hostAuthorized = true then
      let eraseMode := halfwordOfBuffer data
      if eraseMode = 0xFFFF then
        let r := env.flash_erase s.world FLASH_APP_START_ADDRESS
        let s := { s with world := r.2, trace := s.trace ++ [Event.flashErase FLASH_APP_START_ADDRESS] }
        ⟨decide (r.1 = FLASH_STATUS_OK), data, s⟩
      else ⟨false, data, s⟩
    else ⟨false, data, s⟩
  else if commandCode = WRITE_BOOTLOADER_COMMAND then
    if s.hostAuthorized = true then
      if startAddress = UINT32_MAX - 1 then
        let address := sub32 env.FLASH_END env.FLASH_PAGE_SIZE
        let r := env.flash_erase s.world address
        let s := { s with world := r.2, trace := s.trace ++ [Event.flashErase address] }
        ⟨decide (r.1 = FLASH_STATUS_OK), data, s⟩
      else
        let startAddress :=
          if startAddress = UINT32_MAX then add32 (sub32 (FLASH_APP_END_ADDRESS env) 4) 1
          else startAddress
        let r := env.flash_write s.world startAddress data (dataLength / 4)
        let s := { s with
          world := r.2
          trace := s.trace ++ [Event.flashWrite startAddress data (dataLength / 4)] }
        ⟨decide (r.1 = FLASH_STATUS_OK), data, s⟩
    else ⟨false, data, s⟩
  else if commandCode = READ_BOOTLOADER_COMMAND then
    if s.hostAuthorized = true then
      let data := env.flash_read s.world startAddress data dataLength
      ⟨true, data, { s with trace := s.trace ++ [Event.flashRead startAddress dataLength] }⟩
    else ⟨false, data, s⟩
  else if commandCode = GO_BOOTLOADER_COMMAND then
    if env.load32 s.world s.validApplicationTag = VALID_FIRMWARE_VALUE then
      let s := leaveBootloader env s
      ⟨s.running, data, s⟩
    else ⟨false, data, s⟩
  else if commandCode = RANDOMIZE_BOOTLOADER_COMMAND then
    let seed := startAddress % 65536
    let randomValue := (env.rand seed 0 + (env.rand seed 1 % 4294967296) * 65536 + 1) % 4294967296
    let s := { s with randomValue := randomValue }
    ⟨true, encrypt (bytesOfWord randomValue) data 4 cryptoKeyBmsN cryptoKeyBmsE, s⟩
  else if commandCode = AUTHORIZE_HOST_COMMAND then
    let received :=
      wordOfBytes (decrypt data (bytesOfWord s.receivedRandomValue) 4 cryptoKeyHostN cryptoKeyHostD)
    let s := { s with receivedRandomValue := received }
    if received = s.randomValue then
      ⟨true, data, { s with hostAuthorized := true }⟩
    else ⟨false, data, s⟩
  else ⟨false, data, s⟩

/-! ## Sending -/

def bootloaderTxCompletedCallback {W : Type} (s : Session W) : Session W :=
  { s with txDataInProgress := false }

/-- The function `sendData(data, lenght)`: the transmit request, then the spin on
`txDataInProgress`, which ends when the transmit-completed interrupt has run. -/
def sendData {W : Type} (data : List Nat) (lenght : Nat) (s : Session W) : Session W :=
  bootloaderTxCompletedCallback
    { s with txDataInProgress := true, trace := s.trace ++ [Event.transmit (data.take lenght)] }

def sendConfirmation {W : Type} (data : Nat) (s : Session W) : Session W :=
  sendData [data] 1 s

def memoryAddressFromTransmitBuffer {W : Type} (s : Session W) : Nat :=
  (s.transmitBuffer.getD 0 0 * 16777216 + s.transmitBuffer.getD 1 0 * 65536
    + s.transmitBuffer.getD 2 0 * 256 + s.transmitBuffer.getD 3 0) % 4294967296

/-! ## The receive engine -/

/-- The loop `for (i=0; i<bound; i++) receivedDataCRC = crcCalculation(receivedDataCRC,
transmitBuffer[i]);` of `receiveData`. -/
def crcOverBuffer (buffer : List Nat) (bound crc : Nat) : Nat :=
  (List.range bound).foldl (fun c i => crcCalculation c (buffer.getD i 0)) crc

/-- The function `receiveData(receivedDataLenght, flags)`.  With `CALCULATE_CRC_FLAG` the C
code reads `transmitBuffer[expectedDataLength - 2]`, which is only defined for
`2 ≤ expectedDataLength`; that is the range in which this definition is to be used. -/
def receiveData {W : Type} (receivedDataLenght flags : Nat) (s : Session W) :
    RECEIVED_DATA_TYPE × Session W :=
  match s.receiveState with
  | RECEIVE_STATE.INIT_RECEIVE_STATE =>
    (RECEIVED_DATA_TYPE.NO_RECEIVED_DATA_TYPE,
      { s with
        expectedDataLength := receivedDataLenght
        rxFrameTimeout := RX_TIMEOUT_MS
        receiveState := RECEIVE_STATE.WAIT_FOR_DATA_RECEIVE_STATE
        rxDataReady := false
        rxArmed := true
        trace := s.trace ++ [Event.receiveArm] })
  | RECEIVE_STATE.WAIT_FOR_DATA_RECEIVE_STATE =>
    if s.rxDataReady = true then
      let crc0 := if flags &&& INIT_CRC_FLAG ≠ 0 then CRC_INIT_VALUE else s.receivedDataCRC
      if flags &&& CALCULATE_CRC_FLAG ≠ 0 then
        let receivedCRC :=
          (s.transmitBuffer.getD (s.expectedDataLength - 2) 0 * 256
            + s.transmitBuffer.getD (s.expectedDataLength - 1) 0) % 65536
        let crc := crcOverBuffer s.transmitBuffer (s.expectedDataLength - CRC_LENGTH) crc0
        (if crc ≠ receivedCRC then RECEIVED_DATA_TYPE.INVALID_RECEIVED_DATA_TYPE
          else RECEIVED_DATA_TYPE.VALID_RECEIVED_DATA_TYPE,
          { s with
            rxDataReady := false
            receivedDataCRC := crc
            receiveState := RECEIVE_STATE.INIT_RECEIVE_STATE
            rxPointer := 0 })
      else
        let crc := crcOverBuffer s.transmitBuffer s.expectedDataLength crc0
        (RECEIVED_DATA_TYPE.VALID_RECEIVED_DATA_TYPE,
          { s with
            rxDataReady := false
            receivedDataCRC := crc
            receiveState := RECEIVE_STATE.INIT_RECEIVE_STATE
            rxPointer := 0 })
    else if s.rxFrameTimeout = 0 then
      (RECEIVED_DATA_TYPE.TIMEOUT_RECEIVED_DATA_TYPE,
        { s with receiveState := RECEIVE_STATE.INIT_RECEIVE_STATE, rxPointer := 0 })
    else (RECEIVED_DATA_TYPE.NO_RECEIVED_DATA_TYPE, s)

def handleProtocolError {W : Type} (receivedDataType : RECEIVED_DATA_TYPE) (sendNack : Bool)
    (s : Session W) : Session W :=
  match receivedDataType with
  | RECEIVED_DATA_TYPE.INVALID_RECEIVED_DATA_TYPE =>
    if sendNack = true then
      let s := { s with protocolState := PROTOCOL_STATE.WAIT_FOR_COMMAND_PROTOCOL_STATE }
      let s := { s with transmitBuffer := s.transmitBuffer.set 0 NACK }
      sendData s.transmitBuffer 1 s
    else s
  | RECEIVED_DATA_TYPE.TIMEOUT_RECEIVED_DATA_TYPE =>
    { s with protocolState := PROTOCOL_STATE.WAIT_FOR_COMMAND_PROTOCOL_STATE }
  | _ => s

/-! ## The protocol state machine -/

/-- The value of the locals of `bootloaderHandler` when its `switch` is left. -/
structure Polled (W : Type) where
  receiveResult : RECEIVED_DATA_TYPE
  confirmError : Bool
  session : Session W

/-- The inner `switch (transmitBuffer[0])` of the `WAIT_FOR_COMMAND_PROTOCOL_STATE` case. -/
def dispatchCommand {W : Type} (env : Board W) (s : Session W) : Session W :=
  let command := s.transmitBuffer.getD 0 0
  if command = WRITE_BOOTLOADER_COMMAND then
    let s := sendConfirmation ACK s
    { s with protocolState := PROTOCOL_STATE.WRITE_COMMAND_RECEIVE_ADDRESS_PROTOCOL_STATE }
  else if command = READ_BOOTLOADER_COMMAND then
    let s := sendConfirmation ACK s
    { s with protocolState := PROTOCOL_STATE.READ_COMMAND_RECEIVE_ADDRESS_PROTOCOL_STATE }
  else if command = GETID_BOOTLOADER_COMMAND then
    let s := sendConfirmation ACK s
    let x := executeCommand env GETID_BOOTLOADER_COMMAND s.transmitBuffer 0 0 s
    let s := { x.session with transmitBuffer := x.data }
    sendData s.transmitBuffer 3 s
  else if command = GET_BOOTLOADER_COMMAND then
    let s := sendConfirmation ACK s
    let x := executeCommand env GET_BOOTLOADER_COMMAND s.transmitBuffer 0 0 s
    let s := { x.session with transmitBuffer := x.data }
    sendData s.transmitBuffer 10 s
  else if command = EXTERASE_BOOTLOADER_COMMAND then
    let s := sendConfirmation ACK s
    { s with protocolState := PROTOCOL_STATE.ERASE_COMMAND_RECEIVE_MODE_PROTOCOL_STATE }
  else if command = GO_BOOTLOADER_COMMAND then
    let s := sendConfirmation ACK s
    { s with protocolState := PROTOCOL_STATE.GO_COMMAND_RECEIVE_ADDRESS_PROTOCOL_STATE }
  else if command = RANDOMIZE_BOOTLOADER_COMMAND then
    let s := sendConfirmation ACK s
    let x := executeCommand env RANDOMIZE_BOOTLOADER_COMMAND s.transmitBuffer s.randomValueSeed 0 s
    let s := { x.session with transmitBuffer := x.data }
    let s := sendData s.transmitBuffer ENCRYPTED_RANDOM_VALUE_LENGTH s
    { s with
      protocolState := PROTOCOL_STATE.RANDOMIZE_COMMAND_RECEIVE_ENCRYPTED_RANDOM_VALUE_STATE }
  else sendConfirmation NACK s

/-- The shape every `case` of the `switch` in `bootloaderHandler` has: the result `r` of its
call of `receiveData`, the value it leaves in `confirmError`, and the body of its
`if (receiveResult == VALID_RECEIVED_DATA_TYPE)`. -/
def onField {W : Type} (r : RECEIVED_DATA_TYPE × Session W) (confirmError : Bool)
    (body : Session W → Session W) : Polled W :=
  if r.1 = RECEIVED_DATA_TYPE.VALID_RECEIVED_DATA_TYPE then ⟨r.1, confirmError, body r.2⟩
  else ⟨r.1, confirmError, r.2⟩

/-- The `case WAIT_FOR_COMMAND_PROTOCOL_STATE:` of `bootloaderHandler`. -/
def caseWaitForCommand {W : Type} (env : Board W) (s : Session W) : Polled W :=
  onField (receiveData (COMMAND_LENGHT + CRC_LENGTH) (INIT_CRC_FLAG ||| CALCULATE_CRC_FLAG) s)
    true (dispatchCommand env)

/-- The body of the `if` in `case WRITE_COMMAND_RECEIVE_ADDRESS_PROTOCOL_STATE:`. -/
def writeAddressReceived {W : Type} (s : Session W) : Session W :=
  let s := { s with memoryAddress := memoryAddressFromTransmitBuffer s }
  let s := { s with protocolState := PROTOCOL_STATE.WRITE_COMMAND_RECEIVE_LENGTH_PROTOCOL_STATE }
  sendConfirmation ACK s

/-- The `case WRITE_COMMAND_RECEIVE_ADDRESS_PROTOCOL_STATE:` of `bootloaderHandler`. -/
def caseWriteReceiveAddress {W : Type} (s : Session W) : Polled W :=
  onField (receiveData (COMMAND_ADDRESS_LENGTH + CRC_LENGTH)
    (INIT_CRC_FLAG ||| CALCULATE_CRC_FLAG) s) true writeAddressReceived

/-- The body of the `if` in `case WRITE_COMMAND_RECEIVE_LENGTH_PROTOCOL_STATE:`. -/
def writeLengthReceived {W : Type} (s : Session W) : Session W :=
  let length := s.transmitBuffer.getD 0 0 + 1
  let s : Session W := { s with segmentDataLength := length }
  { s with protocolState := PROTOCOL_STATE.WRITE_COMMAND_RECEIVE_DATA_PROTOCOL_STATE }

/-- The `case WRITE_COMMAND_RECEIVE_LENGTH_PROTOCOL_STATE:` of `bootloaderHandler`. -/
def caseWriteReceiveLength {W : Type} (s : Session W) : Polled W :=
  onField (receiveData COMMAND_LENGTH_LENGHT INIT_CRC_FLAG s) false writeLengthReceived

/-- The body of the `if` in `case WRITE_COMMAND_RECEIVE_DATA_PROTOCOL_STATE:`. -/
def writeDataReceived {W : Type} (env : Board W) (s : Session W) : Session W :=
  let x := executeCommand env WRITE_BOOTLOADER_COMMAND s.transmitBuffer s.memoryAddress
    s.segmentDataLength s
  let s := { x.session with transmitBuffer := x.data }
  let s := sendConfirmation ACK s
  { s with protocolState := PROTOCOL_STATE.WAIT_FOR_COMMAND_PROTOCOL_STATE }

/-- The `case WRITE_COMMAND_RECEIVE_DATA_PROTOCOL_STATE:` of `bootloaderHandler`. -/
def caseWriteReceiveData {W : Type} (env : Board W) (s : Session W) : Polled W :=
  onField (receiveData ((s.segmentDataLength + CRC_LENGTH) % 65536) CALCULATE_CRC_FLAG s)
    true (writeDataReceived env)

/-- The body of the `if` in `case READ_COMMAND_RECEIVE_ADDRESS_PROTOCOL_STATE:`. -/
def readAddressReceived {W : Type} (s : Session W) : Session W :=
  let s := { s with memoryAddress := memoryAddressFromTransmitBuffer s }
  let s := sendConfirmation ACK s
  { s with protocolState := PROTOCOL_STATE.READ_COMMAND_RECEIVE_LENGTH_PROTOCOL_STATE }

/-- The `case READ_COMMAND_RECEIVE_ADDRESS_PROTOCOL_STATE:` of `bootloaderHandler`. -/
def caseReadReceiveAddress {W : Type} (s : Session W) : Polled W :=
  onField (receiveData (COMMAND_ADDRESS_LENGTH + CRC_LENGTH)
    (INIT_CRC_FLAG ||| CALCULATE_CRC_FLAG) s) true readAddressReceived

/-- The body of the `if` in `case READ_COMMAND_RECEIVE_LENGTH_PROTOCOL_STATE:`. -/
def readLengthReceived {W : Type} (env : Board W) (s : Session W) : Session W :=
  let length := s.transmitBuffer.getD 0 0 + 1
  let s : Session W := { s with segmentDataLength := length }
  let x := executeCommand env READ_BOOTLOADER_COMMAND s.transmitBuffer s.memoryAddress
    s.segmentDataLength s
  let s := { x.session with transmitBuffer := x.data }
  let s := sendConfirmation ACK s
  let s := sendData s.transmitBuffer s.segmentDataLength s
  { s with protocolState := PROTOCOL_STATE.WAIT_FOR_COMMAND_PROTOCOL_STATE }

/-- The `case READ_COMMAND_RECEIVE_LENGTH_PROTOCOL_STATE:` of `bootloaderHandler`. -/
def caseReadReceiveLength {W : Type} (env : Board W) (s : Session W) : Polled W :=
  onField (receiveData (COMMAND_LENGTH_LENGHT + CRC_LENGTH)
    (INIT_CRC_FLAG ||| CALCULATE_CRC_FLAG) s) false (readLengthReceived env)

/-- The body of the `if` in `case ERASE_COMMAND_RECEIVE_MODE_PROTOCOL_STATE:`. -/
def eraseModeReceived {W : Type} (s : Session W) : Session W :=
  let mode := halfwordOfBuffer s.transmitBuffer
  let s : Session W := { s with externalEraseMode := mode }
  if s.externalEraseMode < 0xFFF0 then
    { s with protocolState := PROTOCOL_STATE.ERASE_COMMAND_RECEIVE_PAGES_NUMBERS }
  else { s with protocolState := PROTOCOL_STATE.ERASE_COMMAND_RECEIVE_CRC }

/-- The `case ERASE_COMMAND_RECEIVE_MODE_PROTOCOL_STATE:` of `bootloaderHandler`. -/
def caseEraseReceiveMode {W : Type} (s : Session W) : Polled W :=
  onField (receiveData EXTERASE_MODE_LENGTH INIT_CRC_FLAG s) false eraseModeReceived

/-- The body of the `if` in `case ERASE_COMMAND_RECEIVE_PAGES_NUMBERS:`. -/
def erasePagesReceived {W : Type} (s : Session W) : Session W :=
  let page := halfwordOfBuffer s.transmitBuffer
  let s : Session W := { s with externalErasePageNumber := page }
  { s with protocolState := PROTOCOL_STATE.ERASE_COMMAND_RECEIVE_CRC }

/-- The `case ERASE_COMMAND_RECEIVE_PAGES_NUMBERS:` of `bootloaderHandler`. -/
def caseEraseReceivePages {W : Type} (s : Session W) : Polled W :=
  onField (receiveData EXTERASE_PAGE_LENGTH 0 s) false erasePagesReceived

/-- The body of the `if` in `case ERASE_COMMAND_RECEIVE_CRC:`. -/
def eraseCrcReceived {W : Type} (env : Board W) (s : Session W) : Session W :=
  let b := s.transmitBuffer.set 0 ((s.externalEraseMode >>> 8) % 256)
  let b := b.set 1 (s.externalEraseMode &&& 0x00FF)
  let b := b.set 2 ((s.externalErasePageNumber >>> 8) % 256)
  let b := b.set 3 (s.externalErasePageNumber &&& 0x00FF)
  let s := { s with transmitBuffer := b }
  let x := executeCommand env EXTERASE_BOOTLOADER_COMMAND s.transmitBuffer 0 0 s
  let s := { x.session with transmitBuffer := x.data }
  let acknowledge := if x.result = true then ACK else NACK
  let s := sendConfirmation acknowledge s
  { s with protocolState := PROTOCOL_STATE.WAIT_FOR_COMMAND_PROTOCOL_STATE }

/-- The `case ERASE_COMMAND_RECEIVE_CRC:` of `bootloaderHandler`. -/
def caseEraseReceiveCrc {W : Type} (env : Board W) (s : Session W) : Polled W :=
  onField (receiveData CRC_LENGTH CALCULATE_CRC_FLAG s) false (eraseCrcReceived env)

/-- The body of the `if` in `case GO_COMMAND_RECEIVE_ADDRESS_PROTOCOL_STATE:`.  The last
assignment is only reached when `flash_jump_to_app` came back or was not called. -/
def goAddressReceived {W : Type} (env : Board W) (s : Session W) : Session W :=
  let acknowledge :=
    if env.load32 s.world s.validApplicationTag = VALID_FIRMWARE_VALUE then ACK else NACK
  let s := { s with memoryAddress := memoryAddressFromTransmitBuffer s }
  let s := sendConfirmation acknowledge s
  let x := executeCommand env GO_BOOTLOADER_COMMAND s.transmitBuffer s.memoryAddress 0 s
  let s := { x.session with transmitBuffer := x.data }
  if s.running = true then
    { s with protocolState := PROTOCOL_STATE.WAIT_FOR_COMMAND_PROTOCOL_STATE }
  else s

/-- The `case GO_COMMAND_RECEIVE_ADDRESS_PROTOCOL_STATE:` of `bootloaderHandler`. -/
def caseGoReceiveAddress {W : Type} (env : Board W) (s : Session W) : Polled W :=
  onField (receiveData (COMMAND_ADDRESS_LENGTH + CRC_LENGTH)
    (INIT_CRC_FLAG ||| CALCULATE_CRC_FLAG) s) true (goAddressReceived env)

/-- The body of the `if` in
`case RANDOMIZE_COMMAND_RECEIVE_ENCRYPTED_RANDOM_VALUE_STATE:`. -/
def randomizeResponseReceived {W : Type} (env : Board W) (s : Session W) : Session W :=
  let x := executeCommand env AUTHORIZE_HOST_COMMAND s.transmitBuffer 0
    ENCRYPTED_RANDOM_VALUE_LENGTH s
  let s := { x.session with transmitBuffer := x.data }
  let acknowledge := if x.result = true then ACK else NACK
  let s := sendConfirmation acknowledge s
  { s with protocolState := PROTOCOL_STATE.WAIT_FOR_COMMAND_PROTOCOL_STATE }

/-- The `case RANDOMIZE_COMMAND_RECEIVE_ENCRYPTED_RANDOM_VALUE_STATE:` of
`bootloaderHandler`. -/
def caseRandomizeReceiveResponse {W : Type} (env : Board W) (s : Session W) : Polled W :=
  onField (receiveData (ENCRYPTED_RANDOM_VALUE_LENGTH + CRC_LENGTH)
    (INIT_CRC_FLAG ||| CALCULATE_CRC_FLAG) s) true (randomizeResponseReceived env)

/-- The outer `switch (protocolState)` of `bootloaderHandler`; each `case` is the definition
named after it above.  The local `receiveResult` is only assigned by the call of
`receiveData`, so it is the first component of `onField`. -/
def protocolSwitch {W : Type} (env : Board W) (s : Session W) : Polled W :=
  match s.protocolState with
  | PROTOCOL_STATE.WAIT_FOR_COMMAND_PROTOCOL_STATE => caseWaitForCommand env s
  | PROTOCOL_STATE.WRITE_COMMAND_RECEIVE_ADDRESS_PROTOCOL_STATE => caseWriteReceiveAddress s
  | PROTOCOL_STATE.WRITE_COMMAND_RECEIVE_LENGTH_PROTOCOL_STATE => caseWriteReceiveLength s
  | PROTOCOL_STATE.WRITE_COMMAND_RECEIVE_DATA_PROTOCOL_STATE => caseWriteReceiveData env s
  | PROTOCOL_STATE.READ_COMMAND_RECEIVE_ADDRESS_PROTOCOL_STATE => caseReadReceiveAddress s
  | PROTOCOL_STATE.READ_COMMAND_RECEIVE_LENGTH_PROTOCOL_STATE => caseReadReceiveLength env s
  | PROTOCOL_STATE.ERASE_COMMAND_RECEIVE_MODE_PROTOCOL_STATE => caseEraseReceiveMode s
  | PROTOCOL_STATE.ERASE_COMMAND_RECEIVE_PAGES_NUMBERS => caseEraseReceivePages s
  | PROTOCOL_STATE.ERASE_COMMAND_RECEIVE_CRC => caseEraseReceiveCrc env s
  | PROTOCOL_STATE.GO_COMMAND_RECEIVE_ADDRESS_PROTOCOL_STATE => caseGoReceiveAddress env s
  | PROTOCOL_STATE.RANDOMIZE_COMMAND_RECEIVE_ENCRYPTED_RANDOM_VALUE_STATE => caseRandomizeReceiveResponse env s

/-- The last statement of `bootloaderHandler`:
`if (!bootloaderExitTimeout) executeCommand(GO_BOOTLOADER_COMMAND, ...)`. -/
def idleExit {W : Type} (env : Board W) (s : Session W) : Session W :=
  if s.bootloaderExitTimeout = 0 then
    let x := executeCommand env GO_BOOTLOADER_COMMAND s.transmitBuffer s.memoryAddress 0 s
    { x.session with transmitBuffer := x.data }
  else s

/-- The function `bootloaderHandler`.  Once `flash_jump_to_app` has been entered and does not
come back, the statements after it are not executed. -/
def bootloaderHandler {W : Type} (env : Board W) (s : Session W) : Session W :=
  let p := protocolSwitch env s
  if p.session.running = true then
    let s :=
      if p.receiveResult ≠ RECEIVED_DATA_TYPE.VALID_RECEIVED_DATA_TYPE then
        handleProtocolError p.receiveResult p.confirmError p.session
      else p.session
    idleExit env s
  else p.session

def bootloaderTimer {W : Type} (s : Session W) : Session W :=
  let s := if s.rxFrameTimeout > 0 then { s with rxFrameTimeout := s.rxFrameTimeout - 1 } else s
  let s :=
    if s.bootloaderExitTimeout > 0 then
      { s with bootloaderExitTimeout := s.bootloaderExitTimeout - 1 }
    else s
  { s with randomValueSeed := (s.randomValueSeed + 1) % 4294967296 }

/-- The function `bootloaderRxCompletedCallback`, entered after the HAL has stored the
received byte `c` in `rxCharacter`; the pending one-byte receive is thereby used up. -/
def bootloaderRxCompletedCallback {W : Type} (c : Nat) (s : Session W) : Session W :=
  let s := { s with rxCharacter := c, rxArmed := false }
  let s := { s with transmitBuffer := s.transmitBuffer.set s.rxPointer s.rxCharacter }
  let s := { s with rxPointer := (s.rxPointer + 1) % 65536 }
  let s := if s.rxPointer > RX_BUFFER_SIZE then { s with rxPointer := 0 } else s
  let s :=
    if s.rxPointer < s.expectedDataLength then
      { s with rxArmed := true, trace := s.trace ++ [Event.receiveArm] }
    else { s with rxDataReady := true }
  { s with bootloaderExitTimeout := BOOTLOADER_TIMEOUT_MS, rxFrameTimeout := RX_TIMEOUT_MS }

/-- The function `bootloaderInit`; the two pointer arguments are the UART handle and the
quiesce callback, which the embedding records as `Event.quiesce` when it is called. -/
def bootloaderInit {W : Type} (env : Board W) (s : Session W) : Session W :=
  let s := { s with validApplicationTag := add32 (sub32 (FLASH_APP_END_ADDRESS env) 4) 1 }
  if s.bootloaderTag ≠ JUMP_FROM_APPLICATION_TAG_VALUE
      ∧ env.load32 s.world s.validApplicationTag = VALID_FIRMWARE_VALUE then
    leaveBootloader env s
  else s

/-- One atomic step of a session that is still inside the bootloader: a poll of the main loop,
a timer tick, a received byte (only while a one-byte receive is pending), or a completed
transmission. -/
inductive Step {W : Type} (env : Board W) : Session W → Session W → Prop
  | poll (s : Session W) : s.running = true → Step env s (bootloaderHandler env s)
  | tick (s : Session W) : s.running = true → Step env s (bootloaderTimer s)
  | received (s : Session W) (c : Nat) : s.running = true → s.rxArmed = true → c < 256 →
      Step env s (bootloaderRxCompletedCallback c s)
  | transmitted (s : Session W) : s.running = true →
      Step env s (bootloaderTxCompletedCallback s)

/-! ## Reference CRC-16/ARC

The reference follows the words of the specification: a 16-bit register, initial value 0,
the message taken whole as one stream of bits (each byte least significant bit first, the
reflected convention), one shift to the right per message bit with the reflected polynomial
0xA001 fed back, and no final XOR. -/

/-- One message bit enters the reference register. -/
def referenceBit (register : Nat) (bit : Bool) : Nat :=
  if (register.testBit 0 ^^ bit) = true then (register / 2) ^^^ 0xA001 else register / 2

/-- The lowest `count` bits of a byte, least significant first. -/
def bitsLsbFirst : Nat → Nat → List Bool
  | 0, _ => []
  | count + 1, byte => byte.testBit 0 :: bitsLsbFirst count (byte / 2)

/-- The whole message as one stream of bits. -/
def messageBits (message : List Nat) : List Bool :=
  (message.map (bitsLsbFirst 8)).flatten

def crc16ArcReference (message : List Nat) : Nat :=
  (messageBits message).foldl referenceBit 0

/-- The running CRC of `receiveData` over a list of bytes, from a start value. -/
def crcFold (crc : Nat) (bytes : List Nat) : Nat :=
  bytes.foldl crcCalculation crc

/-! ## The host side of the challenge-response exchange

The host program is not part of the repository.  What it is expected to do follows the
commented-out constants `cryptoKeyBmsD` and `cryptoKeyHostE` of `bootloader.c`: it decrypts
the ciphertext of the device with the exponent paired with the device key, and encrypts the
recovered bytes with its own key; both with the byte-wise scheme of `decrypt` and `encrypt`. -/

def cryptoKeyBmsD : Int := 2743
def cryptoKeyHostE : Int := 3

/-- The response of a host that holds the paired exponents, for the 8-byte ciphertext sent by
RANDOMIZE: the ciphertext decrypted with the device pair, then encrypted with the host key. -/
def hostResponse (cipher : List Nat) : List Nat :=
  let recovered := decrypt cipher [0, 0, 0, 0] 4 cryptoKeyBmsN cryptoKeyBmsD
  encrypt recovered [0, 0, 0, 0, 0, 0, 0, 0] 4 cryptoKeyHostN cryptoKeyHostE

/-- The ciphertext pair that one pass of the loop of `encrypt` stores for the byte `b`. -/
def encryptByte (n e : Int) (b : Nat) : Nat × Nat :=
  lowHalfBytes (powerLoop e.toNat 1 ((b : Int) - SEED_OFFSET) n + SEED_OFFSET)

/-- The byte that one pass of the loop of `decrypt` stores for the ciphertext pair. -/
def decryptPair (n d : Int) (lo hi : Nat) : Nat :=
  ((powerLoop d.toNat 1 (loadInt16 [lo, hi] 0 - SEED_OFFSET) n + SEED_OFFSET) % 256).toNat

/-- A closed form of `powerLoop j 1 x n`: a power of the absolute value, with the sign that
truncating division leaves. -/
def powerClosed (j : Nat) (x n : Int) : Int :=
  if 0 ≤ x ∨ j % 2 = 0 then ((x.natAbs ^ j % n.natAbs : Nat) : Int)
  else -((x.natAbs ^ j % n.natAbs : Nat) : Int)

/-- The function `encryptByte` with `powerClosed` for the inner loop. -/
def encryptByteClosed (n e : Int) (b : Nat) : Nat × Nat :=
  lowHalfBytes (powerClosed e.toNat ((b : Int) - SEED_OFFSET) n + SEED_OFFSET)

/-- The function `decryptPair` with `powerClosed` for the inner loop. -/
def decryptPairClosed (n d : Int) (lo hi : Nat) : Nat :=
  ((powerClosed d.toNat (loadInt16 [lo, hi] 0 - SEED_OFFSET) n + SEED_OFFSET) % 256).toNat

/-! ## Vocabulary of the statements -/

/-- The receive engine holds a completed frame: a receive is in progress, the callback has
raised the ready flag for the last expected byte, and the bytes of the frame are the first
`expectedDataLength` bytes of the buffer. -/
def FrameCompleted {W : Type} (s : Session W) (frame : List Nat) : Prop :=
  s.receiveState = RECEIVE_STATE.WAIT_FOR_DATA_RECEIVE_STATE ∧ s.rxDataReady = true
    ∧ s.expectedDataLength = frame.length ∧ s.transmitBuffer.take frame.length = frame

instance decidableFrameCompleted {W : Type} (s : Session W) (frame : List Nat) :
    Decidable (FrameCompleted s frame) := by
  unfold FrameCompleted
  infer_instance

/-- The byte strings handed to the UART for transmission, in order. -/
def transmitted : List Event → List (List Nat)
  | [] => []
  | Event.transmit bytes :: rest => bytes :: transmitted rest
  | _ :: rest => transmitted rest

/-- The frame with bit `bit` of its byte number `index` inverted. -/
def flipBit (frame : List Nat) (index bit : Nat) : List Nat :=
  frame.set index (frame.getD index 0 ^^^ 2 ^ bit)

/-- The session as the initialisers of `bootloader.c` leave it at reset, before
`bootloaderInit`; `tag` is the word found at `bootloaderTag` in RAM. -/
def initialSession {W : Type} (w : W) (tag : Nat) : Session W where
  hostAuthorized := false
  bootloaderTag := tag
  validApplicationTag := 0
  randomValue := 0
  receivedRandomValue := 0
  rxCharacter := 0
  rxPointer := 0
  rxDataReady := false
  txDataInProgress := false
  transmitBuffer := List.replicate RX_BUFFER_SIZE 0
  expectedDataLength := 0
  rxFrameTimeout := 0
  bootloaderExitTimeout := BOOTLOADER_TIMEOUT_MS
  randomValueSeed := 0
  receivedDataCRC := CRC_INIT_VALUE
  protocolState := PROTOCOL_STATE.WAIT_FOR_COMMAND_PROTOCOL_STATE
  segmentDataLength := 0
  memoryAddress := 0
  externalEraseMode := 0
  externalErasePageNumber := 0
  receiveState := RECEIVE_STATE.INIT_RECEIVE_STATE
  world := w
  trace := []
  rxArmed := false
  running := true

/-- The receive-completed interrupt for each byte of `bytes`, in order. -/
def deliver {W : Type} (bytes : List Nat) (s : Session W) : Session W :=
  bytes.foldl (fun t c => bootloaderRxCompletedCallback c t) s

/-- One field of the protocol: a poll that starts the receive, the bytes of the field, and
the poll that takes the completed field. -/
def pollFrame {W : Type} (env : Board W) (frame : List Nat) (s : Session W) : Session W :=
  bootloaderHandler env (deliver frame (bootloaderHandler env s))

/-- A board for worked examples: a 192 KiB device with 128-byte pages whose flash driver
always reports `FLASH_STATUS_OK`, whose flash reads as `marker` at every word, and whose
jump does not come back. -/
def exampleBoard (marker : Nat) : Board Unit where
  FLASH_END := 0x0802FFFF
  FLASH_PAGE_SIZE := 128
  flash_erase := fun w _ => (FLASH_STATUS_OK, w)
  flash_write := fun w _ _ _ => (FLASH_STATUS_OK, w)
  flash_read := fun _ _ data _ => data
  load32 := fun _ _ => marker
  rand := fun seed k => (seed + 1) * (k + 12345)
  jumpReturns := fun _ => false

/-- A session that stayed resident after `bootloaderInit` on a device without a valid
application. -/
def residentSession : Session Unit :=
  bootloaderInit (exampleBoard 0xFFFFFFFF) (initialSession () 0)

/-- The resident example session after a poll has started the receive of a command frame and
the three bytes `frame` have arrived. -/
def commandFrameSession (frame : List Nat) : Session Unit :=
  deliver frame (bootloaderHandler (exampleBoard 0xFFFFFFFF) residentSession)

/-- The session after `receiveData` has taken a completed frame and left `crc` in
`receivedDataCRC`. -/
def frameTaken {W : Type} (s : Session W) (crc : Nat) : Session W :=
  { s with
    rxDataReady := false
    receivedDataCRC := crc
    receiveState := RECEIVE_STATE.INIT_RECEIVE_STATE
    rxPointer := 0 }

/-- The resident example session after the RANDOMIZE command frame `93 6D 40`: the challenge
has been issued and its ciphertext transmitted. -/
def challengeSession : Session Unit :=
  pollFrame (exampleBoard 0xFFFFFFFF) [0x93, 0x6D, 0x40] residentSession

/-- The session `challengeSession` after a poll has started the receive of the response and
the ten bytes `frame` have arrived. -/
def responseSession (frame : List Nat) : Session Unit :=
  deliver frame (bootloaderHandler (exampleBoard 0xFFFFFFFF) challengeSession)

/-- The resident example session, on a board whose validity marker reads `marker`, after the
GO command frame `21 18 C0`, a poll that starts the receive of the address, and the six bytes
`frame`. -/
def goSession (marker : Nat) (frame : List Nat) : Session Unit :=
  deliver frame (bootloaderHandler (exampleBoard marker)
    (pollFrame (exampleBoard marker) [0x21, 0x18, 0xC0] residentSession))

/-- The resident example session, not authorized, after the four fields of a WRITE of the
bytes `01 02 03 04` to 0x08003200: command `31 D4 C1`, address `08 00 32 00 00 17`, length
`03`, data and CRC `01 02 03 04 0F E5`. -/
def unauthorizedWrite : Session Unit :=
  pollFrame (exampleBoard 0xFFFFFFFF) [0x01, 0x02, 0x03, 0x04, 0x0F, 0xE5]
    (pollFrame (exampleBoard 0xFFFFFFFF) [0x03]
      (pollFrame (exampleBoard 0xFFFFFFFF) [0x08, 0x00, 0x32, 0x00, 0x00, 0x17]
        (pollFrame (exampleBoard 0xFFFFFFFF) [0x31, 0xD4, 0xC1] residentSession)))

/-- The resident example session, not authorized, after the three fields of a READ of four
bytes at 0x08003200: command `11 0C C0`, address `08 00 32 00 00 17`, length `03 01 40`. -/
def unauthorizedRead : Session Unit :=
  pollFrame (exampleBoard 0xFFFFFFFF) [0x03, 0x01, 0x40]
    (pollFrame (exampleBoard 0xFFFFFFFF) [0x08, 0x00, 0x32, 0x00, 0x00, 0x17]
      (pollFrame (exampleBoard 0xFFFFFFFF) [0x11, 0x0C, 0xC0] residentSession))

/-- The resident example session, not authorized, after the three fields of a global
EXTENDED_ERASE: command `44 33 00`, mode `FF FF`, CRC `B0 01`. -/
def unauthorizedErase : Session Unit :=
  pollFrame (exampleBoard 0xFFFFFFFF) [0xB0, 0x01]
    (pollFrame (exampleBoard 0xFFFFFFFF) [0xFF, 0xFF]
      (pollFrame (exampleBoard 0xFFFFFFFF) [0x44, 0x33, 0x00] residentSession))

/-- The calls of the flash driver recorded in a trace. -/
def flashCalls : List Event → List Event
  | [] => []
  | Event.flashErase a :: rest => Event.flashErase a :: flashCalls rest
  | Event.flashWrite a d n :: rest => Event.flashWrite a d n :: flashCalls rest
  | Event.flashRead a n :: rest => Event.flashRead a n :: flashCalls rest
  | _ :: rest => flashCalls rest


/-! ## Further example sessions -/

/-- The resident example session after the first two fields of a READ at 0x08003200
(command `11 0C C0`, address `08 00 32 00 00 17`), a poll that starts the receive of the
length field, and the three bytes `frame`. -/
def readLengthSession (frame : List Nat) : Session Unit :=
  deliver frame (bootloaderHandler (exampleBoard 0xFFFFFFFF)
    (pollFrame (exampleBoard 0xFFFFFFFF) [0x08, 0x00, 0x32, 0x00, 0x00, 0x17]
      (pollFrame (exampleBoard 0xFFFFFFFF) [0x11, 0x0C, 0xC0] residentSession)))

/-- The resident example session after the first three fields of a WRITE of four bytes at
0x08003200 (command `31 D4 C1`, address `08 00 32 00 00 17`, length `03`), a poll that
starts the receive of the data field, and the six bytes `frame`. -/
def writeDataSession (frame : List Nat) : Session Unit :=
  deliver frame (bootloaderHandler (exampleBoard 0xFFFFFFFF)
    (pollFrame (exampleBoard 0xFFFFFFFF) [0x03]
      (pollFrame (exampleBoard 0xFFFFFFFF) [0x08, 0x00, 0x32, 0x00, 0x00, 0x17]
        (pollFrame (exampleBoard 0xFFFFFFFF) [0x31, 0xD4, 0xC1] residentSession))))

/-- The example session after the fields `frames` of a command have each been received and
taken by a poll, starting from `s`. -/
def afterFields {W : Type} (env : Board W) (frames : List (List Nat)) (s : Session W) :
    Session W :=
  frames.foldl (fun t frame => pollFrame env frame t) s

/-- The session `afterFields env frames s` after a poll has started the receive of the next
field and the bytes `frame` have arrived. -/
def pendingField {W : Type} (env : Board W) (frames : List (List Nat)) (frame : List Nat)
    (s : Session W) : Session W :=
  deliver frame (bootloaderHandler env (afterFields env frames s))

/-- The resident example session with the authorization flag set, as a successful
RANDOMIZE exchange leaves it. -/
def authorizedSession : Session Unit :=
  { residentSession with hostAuthorized := true }

/-- The example board with a flash driver whose erase and write always report `status`. -/
def faultyBoard (status : Nat) : Board Unit :=
  { exampleBoard 0xFFFFFFFF with
    flash_erase := fun w _ => (status, w)
    flash_write := fun w _ _ _ => (status, w) }

/-- The number of the flash page the byte at `address` lies in, pages being blocks of
`FLASH_PAGE_SIZE` bytes aligned to that size. -/
def flashPage {W : Type} (env : Board W) (address : Nat) : Nat :=
  address / env.FLASH_PAGE_SIZE

/-- The order of the calls that leave the bootloader in a trace: every call of
`flash_jump_to_app` comes directly after a call of the quiesce callback, which comes
directly after the store of 0 to the boot tag, and every call of the quiesce callback is
directly followed by the jump. -/
def ExitDiscipline (events : List Event) : Prop :=
  ∀ i < events.length,
    (events[i]? = some Event.jump →
      2 ≤ i ∧ events[i - 1]? = some Event.quiesce
        ∧ events[i - 2]? = some (Event.bootTagStore 0))
    ∧ (events[i]? = some Event.quiesce → events[i + 1]? = some Event.jump)

instance decidableExitDiscipline (events : List Event) :
    Decidable (ExitDiscipline events) := by
  unfold ExitDiscipline
  infer_instance

/-- The trace `b` continues the trace `a` by calls other than quiesce and jump and by
complete exits (boot tag cleared, quiesce, jump). -/
inductive GrowsInOrder (a : List Event) : List Event → Prop
  | same : GrowsInOrder a a
  | call (b : List Event) (e : Event) : GrowsInOrder a b → e ≠ Event.quiesce →
      e ≠ Event.jump → GrowsInOrder a (b ++ [e])
  | exit (b : List Event) : GrowsInOrder a b →
      GrowsInOrder a (b ++ [Event.bootTagStore 0, Event.quiesce, Event.jump])

/-- The number of calls of `flash_jump_to_app` recorded in a trace. -/
def jumpCount (events : List Event) : Nat :=
  events.count Event.jump

/-- The main loop for `n` rounds: `bootloaderHandler` is polled again and again as long as
the bootloader has not been left. -/
def polls {W : Type} (env : Board W) : Nat → Session W → Session W
  | 0, s => s
  | n + 1, s => if s.running = true then polls env n (bootloaderHandler env s) else s

/-- A session that stayed resident after `bootloaderInit` because the application asked for
the bootloader (boot tag 0xAABBCCDD), on a device with a valid application. -/
def enteredSession : Session Unit :=
  bootloaderInit (exampleBoard 0x55555555) (initialSession () 0xAABBCCDD)

/-- The bootloader is running and waits for the next field of the protocol: the receive
engine is idle, the buffer has its 280 bytes, and the idle-exit counter has not run out. -/
def AwaitingField {W : Type} (s : Session W) : Prop :=
  s.running = true ∧ s.receiveState = RECEIVE_STATE.INIT_RECEIVE_STATE ∧ s.rxPointer = 0
    ∧ s.transmitBuffer.length = RX_BUFFER_SIZE ∧ s.bootloaderExitTimeout ≠ 0

instance decidableAwaitingField {W : Type} (s : Session W) : Decidable (AwaitingField s) := by
  unfold AwaitingField
  infer_instance

/-- The session `v` has the same command in progress as `u`: nothing but the receive engine,
the timers and the buffer contents differ, and nothing was transmitted or asked of the flash
driver in between. -/
def SameCommand {W : Type} (u v : Session W) : Prop :=
  v.protocolState = u.protocolState ∧ v.hostAuthorized = u.hostAuthorized
    ∧ v.world = u.world ∧ v.externalEraseMode = u.externalEraseMode
    ∧ v.receivedDataCRC = u.receivedDataCRC ∧ v.running = u.running
    ∧ v.memoryAddress = u.memoryAddress ∧ v.segmentDataLength = u.segmentDataLength
    ∧ v.transmitBuffer.length = u.transmitBuffer.length
    ∧ transmitted v.trace = transmitted u.trace ∧ flashCalls v.trace = flashCalls u.trace
/-! ## The field each state waits for -/

/-- The first argument of the call of `receiveData` in the `case` of `bootloaderHandler` that
the state of `s` selects: the number of bytes of the field the state waits for. -/
def fieldLength {W : Type} (s : Session W) : Nat :=
  match s.protocolState with
  | PROTOCOL_STATE.WAIT_FOR_COMMAND_PROTOCOL_STATE => COMMAND_LENGHT + CRC_LENGTH
  | PROTOCOL_STATE.WRITE_COMMAND_RECEIVE_ADDRESS_PROTOCOL_STATE =>
    COMMAND_ADDRESS_LENGTH + CRC_LENGTH
  | PROTOCOL_STATE.WRITE_COMMAND_RECEIVE_LENGTH_PROTOCOL_STATE => COMMAND_LENGTH_LENGHT
  | PROTOCOL_STATE.WRITE_COMMAND_RECEIVE_DATA_PROTOCOL_STATE =>
    (s.segmentDataLength + CRC_LENGTH) % 65536
  | PROTOCOL_STATE.READ_COMMAND_RECEIVE_ADDRESS_PROTOCOL_STATE =>
    COMMAND_ADDRESS_LENGTH + CRC_LENGTH
  | PROTOCOL_STATE.READ_COMMAND_RECEIVE_LENGTH_PROTOCOL_STATE =>
    COMMAND_LENGTH_LENGHT + CRC_LENGTH
  | PROTOCOL_STATE.ERASE_COMMAND_RECEIVE_MODE_PROTOCOL_STATE => EXTERASE_MODE_LENGTH
  | PROTOCOL_STATE.ERASE_COMMAND_RECEIVE_PAGES_NUMBERS => EXTERASE_PAGE_LENGTH
  | PROTOCOL_STATE.ERASE_COMMAND_RECEIVE_CRC => CRC_LENGTH
  | PROTOCOL_STATE.GO_COMMAND_RECEIVE_ADDRESS_PROTOCOL_STATE =>
    COMMAND_ADDRESS_LENGTH + CRC_LENGTH
  | PROTOCOL_STATE.RANDOMIZE_COMMAND_RECEIVE_ENCRYPTED_RANDOM_VALUE_STATE =>
    ENCRYPTED_RANDOM_VALUE_LENGTH + CRC_LENGTH

/-- The second argument of the call of `receiveData` in the `case` of `bootloaderHandler` for
`state`: the CRC flags of the field. -/
def fieldFlags (state : PROTOCOL_STATE) : Nat :=
  match state with
  | PROTOCOL_STATE.WAIT_FOR_COMMAND_PROTOCOL_STATE => INIT_CRC_FLAG ||| CALCULATE_CRC_FLAG
  | PROTOCOL_STATE.WRITE_COMMAND_RECEIVE_ADDRESS_PROTOCOL_STATE =>
    INIT_CRC_FLAG ||| CALCULATE_CRC_FLAG
  | PROTOCOL_STATE.WRITE_COMMAND_RECEIVE_LENGTH_PROTOCOL_STATE => INIT_CRC_FLAG
  | PROTOCOL_STATE.WRITE_COMMAND_RECEIVE_DATA_PROTOCOL_STATE => CALCULATE_CRC_FLAG
  | PROTOCOL_STATE.READ_COMMAND_RECEIVE_ADDRESS_PROTOCOL_STATE =>
    INIT_CRC_FLAG ||| CALCULATE_CRC_FLAG
  | PROTOCOL_STATE.READ_COMMAND_RECEIVE_LENGTH_PROTOCOL_STATE =>
    INIT_CRC_FLAG ||| CALCULATE_CRC_FLAG
  | PROTOCOL_STATE.ERASE_COMMAND_RECEIVE_MODE_PROTOCOL_STATE => INIT_CRC_FLAG
  | PROTOCOL_STATE.ERASE_COMMAND_RECEIVE_PAGES_NUMBERS => 0
  | PROTOCOL_STATE.ERASE_COMMAND_RECEIVE_CRC => CALCULATE_CRC_FLAG
  | PROTOCOL_STATE.GO_COMMAND_RECEIVE_ADDRESS_PROTOCOL_STATE =>
    INIT_CRC_FLAG ||| CALCULATE_CRC_FLAG
  | PROTOCOL_STATE.RANDOMIZE_COMMAND_RECEIVE_ENCRYPTED_RANDOM_VALUE_STATE =>
    INIT_CRC_FLAG ||| CALCULATE_CRC_FLAG

/-- A value the array `static uint8_t transmitBuffer[RX_BUFFER_SIZE]` can hold: 280 elements,
each of them a byte. -/
def FrameBytes (buffer : List Nat) : Prop :=
  buffer.length = RX_BUFFER_SIZE ∧ ∀ b ∈ buffer, b < 256

/-- The board's `flash_read(address, data, length)` stores bytes in the `uint8_t` array it is
handed, and leaves the array its size. -/
def ReadsBytes {W : Type} (env : Board W) : Prop :=
  ∀ (w : W) (a : Nat) (data : List Nat) (n : Nat),
    FrameBytes data → FrameBytes (env.flash_read w a data n)

/-- The frame buffer of `s` is an array of 280 bytes and `segmentDataLength` is the successor
of a byte at most. -/
def ByteBuffer {W : Type} (s : Session W) : Prop :=
  FrameBytes s.transmitBuffer ∧ s.segmentDataLength ≤ 256

/-- Between `u` and `v` the receive engine was left alone, and the frame buffer stayed an
array of bytes if it was one. -/
def EngineKept {W : Type} (u v : Session W) : Prop :=
  v.receiveState = u.receiveState ∧ v.rxPointer = u.rxPointer ∧ v.rxArmed = u.rxArmed
    ∧ v.expectedDataLength = u.expectedDataLength ∧ (ByteBuffer u → ByteBuffer v)

/-- The invariant of the receive engine: while a field is waited for, `expectedDataLength` is
the length the current state asks for; it never exceeds 258; a pending one-byte receive finds
`rxPointer` at 258 at most, and at 257 at most while no field is waited for. -/
def EngineSafe {W : Type} (s : Session W) : Prop :=
  ByteBuffer s
    ∧ (s.receiveState = RECEIVE_STATE.WAIT_FOR_DATA_RECEIVE_STATE
        → s.expectedDataLength = fieldLength s)
    ∧ s.expectedDataLength ≤ 258
    ∧ (s.rxArmed = true → s.rxPointer ≤ 258)
    ∧ (s.receiveState = RECEIVE_STATE.INIT_RECEIVE_STATE
        → s.rxPointer ≤ 258 ∧ (s.rxArmed = true → s.rxPointer ≤ 257))

/-- The resident example session after the WRITE command `31 D4 C1`, the address
`08 00 32 00` (CRC `00 17`) and the length byte `FF` have been received, and a poll has
started the receive of the data field. -/
def writeDataPending : Session Unit :=
  bootloaderHandler (exampleBoard 0xFFFFFFFF)
    (afterFields (exampleBoard 0xFFFFFFFF)
      [[0x31, 0xD4, 0xC1], [0x08, 0x00, 0x32, 0x00, 0x00, 0x17], [0xFF]] residentSession)

/-! ## Counting the executions of GO -/

/-- The session in which `bootloaderHandler` reaches its last statement: after the `switch`
and, for a result other than VALID, the call of `handleProtocolError`. -/
def beforeIdleExit {W : Type} (env : Board W) (s : Session W) : Session W :=
  let p := protocolSwitch env s
  if p.receiveResult ≠ RECEIVED_DATA_TYPE.VALID_RECEIVED_DATA_TYPE then
    handleProtocolError p.receiveResult p.confirmError p.session
  else p.session

/-- The number of calls `executeCommand(GO_BOOTLOADER_COMMAND, ...)` that the poll of `s`
makes.  `bootloaderHandler` has two of them: the one in
`case GO_COMMAND_RECEIVE_ADDRESS_PROTOCOL_STATE`, made when the address field is VALID, and
the one in its last statement `if (!bootloaderExitTimeout)`, made when control reaches that
statement with the counter at zero. -/
def goExecutions {W : Type} (env : Board W) (s : Session W) : Nat :=
  (if s.protocolState = PROTOCOL_STATE.GO_COMMAND_RECEIVE_ADDRESS_PROTOCOL_STATE
      ∧ (protocolSwitch env s).receiveResult = RECEIVED_DATA_TYPE.VALID_RECEIVED_DATA_TYPE
    then 1 else 0)
  + (if (protocolSwitch env s).session.running = true
      ∧ (beforeIdleExit env s).bootloaderExitTimeout = 0
    then 1 else 0)

/-- The number of executions of GO in the rounds of the main loop that `polls env n s`
runs. -/
def goExecutionsIn {W : Type} (env : Board W) : Nat → Session W → Nat
  | 0, _ => 0
  | n + 1, s =>
    if s.running = true then goExecutions env s + goExecutionsIn env n (bootloaderHandler env s)
    else 0
/-! ## Lemmas on the CRC -/

theorem crcShift_eq (crc : Nat) :
    crcShift crc = if crc % 2 = 1 then (crc / 2) ^^^ 0xA001 else crc / 2 := by
  unfold crcShift
  rw [Nat.and_one_is_mod, Nat.shiftRight_one]
  rcases Nat.mod_two_eq_zero_or_one crc with h | h <;> simp [h]

theorem crcShift_xor (x y : Nat) :
    crcShift (x ^^^ y) = referenceBit x (y.testBit 0) ^^^ (y / 2) := by
  rw [crcShift_eq, referenceBit, Nat.xor_div_two, Nat.xor_mod_two_eq, Nat.testBit_zero,
    Nat.testBit_zero]
  rcases Nat.mod_two_eq_zero_or_one x with hx | hx <;>
    rcases Nat.mod_two_eq_zero_or_one y with hy | hy <;>
    simp [hx, hy, Nat.add_mod, Nat.xor_assoc, Nat.xor_comm (y / 2)]

theorem crcLoop_xor (k : Nat) : ∀ x y : Nat,
    crcLoop k (x ^^^ y) = (bitsLsbFirst k y).foldl referenceBit x ^^^ (y / 2 ^ k) := by
  induction k with
  | zero => intro x y; simp [crcLoop, bitsLsbFirst]
  | succ k ih =>
    intro x y
    rw [crcLoop, crcShift_xor, ih, bitsLsbFirst, List.foldl_cons, Nat.div_div_eq_div_mul,
      pow_succ, Nat.mul_comm 2]

theorem crcCalculation_eq_reference (crc byte : Nat) (h : byte < 256) :
    crcCalculation crc byte = (bitsLsbFirst 8 byte).foldl referenceBit crc := by
  rw [crcCalculation, crcLoop_xor]
  have : byte / 2 ^ 8 = 0 := Nat.div_eq_of_lt (by simpa using h)
  rw [this, Nat.xor_zero]

theorem crcFold_eq_reference (bytes : List Nat) (h : ∀ b ∈ bytes, b < 256) :
    ∀ crc : Nat, crcFold crc bytes = (messageBits bytes).foldl referenceBit crc := by
  induction bytes with
  | nil => intro crc; rfl
  | cons b rest ih =>
    intro crc
    have hb : b < 256 := h b (List.mem_cons_self _ _)
    have hrest : ∀ c ∈ rest, c < 256 := fun c hc => h c (List.mem_cons_of_mem _ hc)
    have step := ih hrest (crcCalculation crc b)
    simp only [crcFold, List.foldl_cons] at step ⊢
    rw [step, crcCalculation_eq_reference crc b hb]
    simp [messageBits, List.foldl_append]

theorem crcShift_lt (crc : Nat) (h : crc < 65536) : crcShift crc < 65536 := by
  rw [crcShift_eq]
  have h2 : crc / 2 < 2 ^ 16 := by omega
  split
  · exact Nat.xor_lt_two_pow h2 (by norm_num)
  · omega

theorem xor_poly_ge (x : Nat) (h : x < 32768) : 32768 ≤ x ^^^ 0xA001 := by
  have hx : x.testBit 15 = false := Nat.testBit_lt_two_pow (by simpa using h)
  have hp : (0xA001 : Nat).testBit 15 = true := by decide
  have : (x ^^^ 0xA001).testBit 15 = true := by rw [Nat.testBit_xor, hx, hp]; rfl
  simpa using Nat.testBit_implies_ge this

theorem crcShift_injective (a b : Nat) (ha : a < 65536) (hb : b < 65536)
    (h : crcShift a = crcShift b) : a = b := by
  rw [crcShift_eq, crcShift_eq] at h
  have ga := xor_poly_ge (a / 2) (by omega)
  have gb := xor_poly_ge (b / 2) (by omega)
  split at h <;> split at h
  · have := Nat.xor_left_injective h
    omega
  · omega
  · omega
  · omega

theorem crcLoop_lt (k : Nat) : ∀ crc : Nat, crc < 65536 → crcLoop k crc < 65536 := by
  induction k with
  | zero => intro crc h; simpa [crcLoop] using h
  | succ k ih => intro crc h; rw [crcLoop]; exact ih _ (crcShift_lt crc h)

theorem crcLoop_injective (k : Nat) : ∀ a b : Nat, a < 65536 → b < 65536 →
    crcLoop k a = crcLoop k b → a = b := by
  induction k with
  | zero => intro a b _ _ h; simpa [crcLoop] using h
  | succ k ih =>
    intro a b ha hb h
    rw [crcLoop, crcLoop] at h
    exact crcShift_injective a b ha hb (ih _ _ (crcShift_lt a ha) (crcShift_lt b hb) h)

theorem crcCalculation_lt (crc byte : Nat) (hc : crc < 65536) (hb : byte < 256) :
    crcCalculation crc byte < 65536 := by
  unfold crcCalculation
  exact crcLoop_lt 8 _ (Nat.xor_lt_two_pow (n := 16) hc (by omega))

theorem crcFold_lt (bytes : List Nat) (h : ∀ b ∈ bytes, b < 256) :
    ∀ crc : Nat, crc < 65536 → crcFold crc bytes < 65536 := by
  induction bytes with
  | nil => intro crc hc; simpa [crcFold] using hc
  | cons b rest ih =>
    intro crc hc
    have hb : b < 256 := h b (List.mem_cons_self _ _)
    have hrest : ∀ c ∈ rest, c < 256 := fun c hc => h c (List.mem_cons_of_mem _ hc)
    simpa [crcFold] using ih hrest _ (crcCalculation_lt crc b hc hb)

/-- Two different running values stay different after the same bytes. -/
theorem crcFold_injective (bytes : List Nat) (h : ∀ b ∈ bytes, b < 256) :
    ∀ c d : Nat, c < 65536 → d < 65536 → crcFold c bytes = crcFold d bytes → c = d := by
  induction bytes with
  | nil => intro c d _ _ e; simpa [crcFold] using e
  | cons b rest ih =>
    intro c d hc hd e
    have hb : b < 256 := h b (List.mem_cons_self _ _)
    have hrest : ∀ x ∈ rest, x < 256 := fun x hx => h x (List.mem_cons_of_mem _ hx)
    have e2 : crcFold (crcCalculation c b) rest = crcFold (crcCalculation d b) rest := by
      simpa [crcFold] using e
    have e3 := ih hrest _ _ (crcCalculation_lt c b hc hb) (crcCalculation_lt d b hd hb) e2
    unfold crcCalculation at e3
    have e4 := crcLoop_injective 8 _ _ (Nat.xor_lt_two_pow (n := 16) hc (by omega))
      (Nat.xor_lt_two_pow (n := 16) hd (by omega)) e3
    exact Nat.xor_left_injective e4

/-- Two different bytes drive the same running value apart. -/
theorem crcCalculation_byte_injective (crc a b : Nat) (hc : crc < 65536) (ha : a < 256)
    (hb : b < 256) (h : crcCalculation crc a = crcCalculation crc b) : a = b := by
  unfold crcCalculation at h
  have := crcLoop_injective 8 _ _ (Nat.xor_lt_two_pow (n := 16) hc (by omega))
    (Nat.xor_lt_two_pow (n := 16) hc (by omega)) h
  exact Nat.xor_right_injective this

/-! ## Lemmas on `encrypt` and `decrypt` -/

theorem tmod_neg_left (a b : Int) : (-a).tmod b = -(a.tmod b) := by
  rw [Int.tmod_def, Int.tmod_def, Int.neg_tdiv]
  ring

theorem powerLoop_neg_start (j : Nat) : ∀ k x n : Int,
    powerLoop j (-k) x n = -powerLoop j k x n := by
  induction j with
  | zero => intro k x n; rfl
  | succ j ih =>
    intro k x n
    rw [powerLoop, powerLoop, neg_mul, tmod_neg_left, ih]

theorem powerLoop_neg_base (j : Nat) : ∀ k x n : Int,
    powerLoop j k (-x) n = (-1) ^ j * powerLoop j k x n := by
  induction j with
  | zero => intro k x n; simp [powerLoop]
  | succ j ih =>
    intro k x n
    rw [powerLoop, powerLoop, mul_neg, tmod_neg_left, powerLoop_neg_start, ih, pow_succ]
    ring

theorem powerLoop_natCast (j : Nat) : ∀ k x n : Nat, k < n →
    powerLoop j (k : Int) (x : Int) (n : Int) = ((k * x ^ j % n : Nat) : Int) := by
  induction j with
  | zero =>
    intro k x n hk
    simp [powerLoop, Nat.mod_eq_of_lt hk]
  | succ j ih =>
    intro k x n hk
    have hn : 0 < n := by omega
    have h1 : ((k : Int) * (x : Int)).tmod (n : Int) = ((k * x % n : Nat) : Int) := by
      rw [Int.ofNat_tmod]; push_cast; rfl
    rw [powerLoop, h1, ih _ x n (Nat.mod_lt _ hn)]
    congr 1
    rw [pow_succ, Nat.mod_mul_mod]
    ring_nf

theorem powerLoop_closed (j : Nat) (x n : Int) (hn : 1 < n) :
    powerLoop j 1 x n = powerClosed j x n := by
  have hn1 : 1 < n.natAbs := by omega
  have hnn : ((n.natAbs : Nat) : Int) = n := by omega
  have key := powerLoop_natCast j 1 x.natAbs n.natAbs hn1
  rw [hnn, Nat.one_mul] at key
  unfold powerClosed
  rcases le_or_lt 0 x with hx | hx
  · have hxx : ((x.natAbs : Nat) : Int) = x := by omega
    rw [hxx] at key
    simp only [hx, true_or, if_true]
    exact_mod_cast key
  · have hxx : x = -((x.natAbs : Nat) : Int) := by omega
    have h2 : powerLoop j 1 x n = (-1) ^ j * powerLoop j 1 ((x.natAbs : Nat) : Int) n := by
      conv_lhs => rw [hxx]
      exact powerLoop_neg_base j 1 _ n
    rw [h2]
    have key2 : powerLoop j 1 ((x.natAbs : Nat) : Int) n
        = ((x.natAbs ^ j % n.natAbs : Nat) : Int) := by exact_mod_cast key
    rw [key2]
    rcases Nat.mod_two_eq_zero_or_one j with hj | hj
    · have : Even j := Nat.even_iff.mpr hj
      simp [hj, this.neg_one_pow]
    · have : Odd j := Nat.odd_iff.mpr hj
      simp [hj, this.neg_one_pow, not_le.mpr hx]

theorem encryptByte_closed (n e : Int) (b : Nat) (hn : 1 < n) :
    encryptByte n e b = encryptByteClosed n e b := by
  unfold encryptByte encryptByteClosed
  rw [powerLoop_closed _ _ _ hn]

theorem decryptPair_closed (n d : Int) (lo hi : Nat) (hn : 1 < n) :
    decryptPair n d lo hi = decryptPairClosed n d lo hi := by
  unfold decryptPair decryptPairClosed
  rw [powerLoop_closed _ _ _ hn]

theorem encrypt_four (n e : Int) (b0 b1 b2 b3 : Nat) (a0 a1 a2 a3 a4 a5 a6 a7 : Nat)
    (rest : List Nat) :
    encrypt [b0, b1, b2, b3] (a0 :: a1 :: a2 :: a3 :: a4 :: a5 :: a6 :: a7 :: rest) 4 n e
      = (encryptByte n e b0).1 :: (encryptByte n e b0).2 :: (encryptByte n e b1).1
        :: (encryptByte n e b1).2 :: (encryptByte n e b2).1 :: (encryptByte n e b2).2
        :: (encryptByte n e b3).1 :: (encryptByte n e b3).2 :: rest := by
  rfl

theorem decrypt_four (n d : Int) (c0 c1 c2 c3 c4 c5 c6 c7 : Nat) (rest : List Nat)
    (d0 d1 d2 d3 : Nat) :
    decrypt (c0 :: c1 :: c2 :: c3 :: c4 :: c5 :: c6 :: c7 :: rest) [d0, d1, d2, d3] 4 n d
      = [decryptPair n d c0 c1, decryptPair n d c2 c3, decryptPair n d c4 c5,
          decryptPair n d c6 c7] := by
  rfl

theorem device_key_roundtrip_closed : ∀ b < 256,
    decryptPairClosed cryptoKeyBmsN cryptoKeyBmsD
      (encryptByteClosed cryptoKeyBmsN cryptoKeyBmsE b).1
      (encryptByteClosed cryptoKeyBmsN cryptoKeyBmsE b).2 = b := by
  decide!

theorem host_key_roundtrip_closed : ∀ b < 256,
    decryptPairClosed cryptoKeyHostN cryptoKeyHostD
      (encryptByteClosed cryptoKeyHostN cryptoKeyHostE b).1
      (encryptByteClosed cryptoKeyHostN cryptoKeyHostE b).2 = b := by
  decide!

/-! ## Lemmas on the receive engine -/

theorem frameCompleted_buffer {W : Type} (s : Session W) (frame : List Nat)
    (h : FrameCompleted s frame) : ∃ rest : List Nat, s.transmitBuffer = frame ++ rest := by
  refine ⟨s.transmitBuffer.drop frame.length, ?_⟩
  have := List.take_append_drop frame.length s.transmitBuffer
  rw [h.2.2.2] at this
  exact this.symm

theorem frameCompleted_of_buffer {W : Type} (s : Session W) (frame rest : List Nat)
    (h1 : s.receiveState = RECEIVE_STATE.WAIT_FOR_DATA_RECEIVE_STATE)
    (h2 : s.rxDataReady = true) (h3 : s.expectedDataLength = frame.length)
    (h4 : s.transmitBuffer = frame ++ rest) : FrameCompleted s frame :=
  ⟨h1, h2, h3, by rw [h4, List.take_left]⟩

theorem crcOverBuffer_succ (buffer : List Nat) (n crc : Nat) :
    crcOverBuffer buffer (n + 1) crc
      = crcCalculation (crcOverBuffer buffer n crc) (buffer.getD n 0) := by
  simp [crcOverBuffer, List.range_succ, List.foldl_append]

theorem crcOverBuffer_frame (frame rest : List Nat) (crc : Nat) :
    ∀ n : Nat, n ≤ frame.length →
      crcOverBuffer (frame ++ rest) n crc = crcFold crc (frame.take n) := by
  intro n
  induction n with
  | zero => intro _; simp [crcOverBuffer, crcFold]
  | succ n ih =>
    intro hn
    have hlt : n < frame.length := hn
    rw [crcOverBuffer_succ, ih (Nat.le_of_lt hlt), List.take_succ, List.getD_append _ _ _ _ hlt,
      List.getD_eq_getElem?_getD, List.getElem?_eq_getElem hlt]
    simp only [crcFold, List.foldl_append, Option.toList, Option.getD_some, List.foldl_cons,
      List.foldl_nil]

theorem getD_frame (frame rest : List Nat) (i : Nat) (h : i < frame.length) :
    (frame ++ rest).getD i 0 = frame.getD i 0 :=
  List.getD_append _ _ _ _ h

theorem getD_lt_of_forall (frame : List Nat) (h : ∀ b ∈ frame, b < 256) (i : Nat) :
    frame.getD i 0 < 256 := by
  rw [List.getD_eq_getElem?_getD]
  rcases Nat.lt_or_ge i frame.length with hi | hi
  · rw [List.getElem?_eq_getElem hi]
    exact h _ (List.getElem_mem _)
  · rw [List.getElem?_eq_none hi]
    decide

/-- What `receiveData` does with a completed frame when both CRC flags are given. -/
theorem receiveData_completed {W : Type} (s : Session W) (frame : List Nat) (len : Nat)
    (hL : 2 ≤ frame.length) (hb : ∀ b ∈ frame, b < 256) (hc : FrameCompleted s frame) :
    receiveData len (INIT_CRC_FLAG ||| CALCULATE_CRC_FLAG) s
      = (if crcFold 0 (frame.take (frame.length - 2))
            ≠ frame.getD (frame.length - 2) 0 * 256 + frame.getD (frame.length - 1) 0
          then RECEIVED_DATA_TYPE.INVALID_RECEIVED_DATA_TYPE
          else RECEIVED_DATA_TYPE.VALID_RECEIVED_DATA_TYPE,
        { s with
          rxDataReady := false
          receivedDataCRC := crcFold 0 (frame.take (frame.length - 2))
          receiveState := RECEIVE_STATE.INIT_RECEIVE_STATE
          rxPointer := 0 }) := by
  obtain ⟨rest, h4⟩ := frameCompleted_buffer s frame hc
  obtain ⟨h1, h2, h3, _⟩ := hc
  have f1 : INIT_CRC_FLAG ||| CALCULATE_CRC_FLAG = 3 := by decide
  have f2 : (3 : Nat) &&& INIT_CRC_FLAG ≠ 0 := by decide
  have f3 : (3 : Nat) &&& CALCULATE_CRC_FLAG ≠ 0 := by decide
  have g1 := getD_lt_of_forall frame hb (frame.length - 2)
  have g2 := getD_lt_of_forall frame hb (frame.length - 1)
  have hmod : (frame.getD (frame.length - 2) 0 * 256 + frame.getD (frame.length - 1) 0) % 65536
      = frame.getD (frame.length - 2) 0 * 256 + frame.getD (frame.length - 1) 0 :=
    Nat.mod_eq_of_lt (by omega)
  unfold receiveData
  rw [h1]
  simp only [h2, if_true, f1, f2, f3, ne_eq, not_false_eq_true, h3, h4, CRC_LENGTH,
    CRC_INIT_VALUE]
  rw [getD_frame frame rest _ (by omega), getD_frame frame rest _ (by omega), hmod,
    crcOverBuffer_frame frame rest 0 _ (by omega)]

theorem crcFold_set_ne (bytes : List Nat) : ∀ (i crc b : Nat), (∀ x ∈ bytes, x < 256) →
    i < bytes.length → crc < 65536 → b < 256 → b ≠ bytes.getD i 0 →
    crcFold crc (bytes.set i b) ≠ crcFold crc bytes := by
  induction bytes with
  | nil => intro i crc b _ hi; simp at hi
  | cons a rest ih =>
    intro i crc b hx hi hc hb hne
    have ha : a < 256 := hx a (List.mem_cons_self _ _)
    have hrest : ∀ x ∈ rest, x < 256 := fun x h => hx x (List.mem_cons_of_mem _ h)
    cases i with
    | zero =>
      intro e
      have e1 : crcFold (crcCalculation crc b) rest = crcFold (crcCalculation crc a) rest := by
        simpa [crcFold] using e
      have e2 := crcFold_injective rest hrest _ _ (crcCalculation_lt crc b hc hb)
        (crcCalculation_lt crc a hc ha) e1
      exact hne (by simpa using crcCalculation_byte_injective crc b a hc hb ha e2)
    | succ i =>
      have hi2 : i < rest.length := by simpa using hi
      have hne2 : b ≠ rest.getD i 0 := by simpa using hne
      have := ih i (crcCalculation crc a) b hrest hi2 (crcCalculation_lt crc a hc ha) hb hne2
      simpa [crcFold] using this

theorem xor_bit_ne (b j : Nat) : b ^^^ 2 ^ j ≠ b := by
  intro h
  have h2 : b ^^^ 2 ^ j = b ^^^ 0 := by rw [Nat.xor_zero]; exact h
  have := Nat.xor_right_injective h2
  exact absurd this (by positivity)

theorem xor_bit_lt (b j : Nat) (hb : b < 256) (hj : j < 8) : b ^^^ 2 ^ j < 256 := by
  have h1 : b < 2 ^ 8 := by simpa using hb
  have h2 : 2 ^ j < 2 ^ 8 := Nat.pow_lt_pow_right (by norm_num) hj
  simpa using Nat.xor_lt_two_pow h1 h2

theorem getD_set_self (l : List Nat) (i a : Nat) (h : i < l.length) :
    (l.set i a).getD i 0 = a := by
  simp [List.getD_eq_getElem?_getD, List.getElem?_set, h]

theorem getD_set_other (l : List Nat) (i j a : Nat) (h : i ≠ j) :
    (l.set i a).getD j 0 = l.getD j 0 := by
  simp [List.getD_eq_getElem?_getD, List.getElem?_set, h]

theorem flipBit_length (frame : List Nat) (index bit : Nat) :
    (flipBit frame index bit).length = frame.length := by
  simp [flipBit]

theorem flipBit_lt (frame : List Nat) (index bit : Nat) (hb : ∀ b ∈ frame, b < 256)
    (hj : bit < 8) : ∀ b ∈ flipBit frame index bit, b < 256 := by
  intro b hmem
  rcases List.mem_or_eq_of_mem_set hmem with h | h
  · exact hb b h
  · rw [h]
    exact xor_bit_lt _ _ (getD_lt_of_forall frame hb index) hj

/-- A frame with a correct trailer stops matching when one bit of it is inverted. -/
theorem flipBit_mismatch (frame : List Nat) (index bit : Nat) (hlo : 3 ≤ frame.length)
    (hb : ∀ b ∈ frame, b < 256)
    (hcrc : frame.getD (frame.length - 2) 0 * 256 + frame.getD (frame.length - 1) 0
      = crcFold 0 (frame.take (frame.length - 2)))
    (hi : index < frame.length) (hj : bit < 8) :
    crcFold 0 ((flipBit frame index bit).take (frame.length - 2))
      ≠ (flipBit frame index bit).getD (frame.length - 2) 0 * 256
        + (flipBit frame index bit).getD (frame.length - 1) 0 := by
  have hne := xor_bit_ne (frame.getD index 0) bit
  have hlt := xor_bit_lt (frame.getD index 0) bit (getD_lt_of_forall frame hb index) hj
  have g1 := getD_lt_of_forall frame hb (frame.length - 1)
  unfold flipBit
  rw [List.set_take]
  rcases Nat.lt_or_ge index (frame.length - 2) with h | h
  · rw [getD_set_other _ _ _ _ (by omega), getD_set_other _ _ _ _ (by omega), hcrc]
    have hp : ∀ x ∈ frame.take (frame.length - 2), x < 256 :=
      fun x hx => hb x (List.mem_of_mem_take hx)
    have hlen : index < (frame.take (frame.length - 2)).length := by
      rw [List.length_take]; omega
    have hget : (frame.take (frame.length - 2)).getD index 0 = frame.getD index 0 := by
      rw [List.getD_eq_getElem?_getD, List.getD_eq_getElem?_getD, List.getElem?_take, if_pos h]
    exact crcFold_set_ne _ index 0 _ hp hlen (by norm_num) hlt (by rw [hget]; exact hne)
  · rw [List.set_eq_of_length_le (by rw [List.length_take]; omega), ← hcrc]
    rcases Nat.eq_or_lt_of_le h with e | e
    · rw [← e, getD_set_self _ _ _ (by omega), getD_set_other _ _ _ _ (by omega)]
      rw [← e] at hne
      omega
    · have e2 : index = frame.length - 1 := by omega
      rw [e2, getD_set_self _ _ _ (by omega), getD_set_other _ _ _ _ (by omega)]
      rw [e2] at hne
      omega

/-! ## `executeCommand`, one command at a time -/

theorem executeCommand_exterase {W : Type} (env : Board W) (data : List Nat) (a l : Nat)
    (s : Session W) :
    executeCommand env EXTERASE_BOOTLOADER_COMMAND data a l s
      = if s.hostAuthorized = true then
          if halfwordOfBuffer data = 0xFFFF then
            ⟨decide ((env.flash_erase s.world FLASH_APP_START_ADDRESS).1 = FLASH_STATUS_OK), data,
              { s with
                world := (env.flash_erase s.world FLASH_APP_START_ADDRESS).2
                trace := s.trace ++ [Event.flashErase FLASH_APP_START_ADDRESS] }⟩
          else ⟨false, data, s⟩
        else ⟨false, data, s⟩ := by
  unfold executeCommand
  rw [if_neg (by decide), if_neg (by decide), if_pos rfl]

theorem executeCommand_write {W : Type} (env : Board W) (data : List Nat) (a l : Nat)
    (s : Session W) :
    executeCommand env WRITE_BOOTLOADER_COMMAND data a l s
      = if s.hostAuthorized = true then
          if a = UINT32_MAX - 1 then
            ⟨decide ((env.flash_erase s.world (sub32 env.FLASH_END env.FLASH_PAGE_SIZE)).1
                = FLASH_STATUS_OK), data,
              { s with
                world := (env.flash_erase s.world (sub32 env.FLASH_END env.FLASH_PAGE_SIZE)).2
                trace := s.trace
                  ++ [Event.flashErase (sub32 env.FLASH_END env.FLASH_PAGE_SIZE)] }⟩
          else
            ⟨decide ((env.flash_write s.world
                (if a = UINT32_MAX then add32 (sub32 (FLASH_APP_END_ADDRESS env) 4) 1 else a)
                data (l / 4)).1 = FLASH_STATUS_OK), data,
              { s with
                world := (env.flash_write s.world
                  (if a = UINT32_MAX then add32 (sub32 (FLASH_APP_END_ADDRESS env) 4) 1 else a)
                  data (l / 4)).2
                trace := s.trace ++ [Event.flashWrite
                  (if a = UINT32_MAX then add32 (sub32 (FLASH_APP_END_ADDRESS env) 4) 1 else a)
                  data (l / 4)] }⟩
        else ⟨false, data, s⟩ := by
  unfold executeCommand
  rw [if_neg (by decide), if_neg (by decide), if_neg (by decide), if_pos rfl]

theorem executeCommand_read {W : Type} (env : Board W) (data : List Nat) (a l : Nat)
    (s : Session W) :
    executeCommand env READ_BOOTLOADER_COMMAND data a l s
      = if s.hostAuthorized = true then
          ⟨true, env.flash_read s.world a data l,
            { s with trace := s.trace ++ [Event.flashRead a l] }⟩
        else ⟨false, data, s⟩ := by
  unfold executeCommand
  rw [if_neg (by decide), if_neg (by decide), if_neg (by decide), if_neg (by decide),
    if_pos rfl]

theorem executeCommand_go {W : Type} (env : Board W) (data : List Nat) (a l : Nat)
    (s : Session W) :
    executeCommand env GO_BOOTLOADER_COMMAND data a l s
      = if env.load32 s.world s.validApplicationTag = VALID_FIRMWARE_VALUE then
          ⟨(leaveBootloader env s).running, data, leaveBootloader env s⟩
        else ⟨false, data, s⟩ := by
  unfold executeCommand
  rw [if_neg (by decide), if_neg (by decide), if_neg (by decide), if_neg (by decide),
    if_neg (by decide), if_pos rfl]

theorem executeCommand_randomize {W : Type} (env : Board W) (data : List Nat) (a l : Nat)
    (s : Session W) :
    executeCommand env RANDOMIZE_BOOTLOADER_COMMAND data a l s
      = ⟨true,
          encrypt (bytesOfWord ((env.rand (a % 65536) 0
            + (env.rand (a % 65536) 1 % 4294967296) * 65536 + 1) % 4294967296))
            data 4 cryptoKeyBmsN cryptoKeyBmsE,
          { s with randomValue := (env.rand (a % 65536) 0
            + (env.rand (a % 65536) 1 % 4294967296) * 65536 + 1) % 4294967296 }⟩ := by
  unfold executeCommand
  rw [if_neg (by decide), if_neg (by decide), if_neg (by decide), if_neg (by decide),
    if_neg (by decide), if_neg (by decide), if_pos rfl]

theorem executeCommand_authorize {W : Type} (env : Board W) (data : List Nat) (a l : Nat)
    (s : Session W) :
    executeCommand env AUTHORIZE_HOST_COMMAND data a l s
      = if wordOfBytes (decrypt data (bytesOfWord s.receivedRandomValue) 4 cryptoKeyHostN
            cryptoKeyHostD) = s.randomValue then
          ⟨true, data,
            { s with
              receivedRandomValue := wordOfBytes (decrypt data
                (bytesOfWord s.receivedRandomValue) 4 cryptoKeyHostN cryptoKeyHostD)
              hostAuthorized := true }⟩
        else
          ⟨false, data,
            { s with
              receivedRandomValue := wordOfBytes (decrypt data
                (bytesOfWord s.receivedRandomValue) 4 cryptoKeyHostN cryptoKeyHostD) }⟩ := by
  unfold executeCommand
  rw [if_neg (by decide), if_neg (by decide), if_neg (by decide), if_neg (by decide),
    if_neg (by decide), if_neg (by decide), if_neg (by decide), if_pos rfl]

/-! ## Lemmas on the authorization flag

From here on `executeCommand` is only unfolded on request, so that comparing two sessions
does not run its branches. -/

attribute [irreducible] executeCommand

theorem sendData_hostAuthorized {W : Type} (data : List Nat) (n : Nat) (s : Session W) :
    (sendData data n s).hostAuthorized = s.hostAuthorized := rfl

theorem sendConfirmation_hostAuthorized {W : Type} (b : Nat) (s : Session W) :
    (sendConfirmation b s).hostAuthorized = s.hostAuthorized := rfl

theorem receiveData_hostAuthorized {W : Type} (len flags : Nat) (s : Session W) :
    (receiveData len flags s).2.hostAuthorized = s.hostAuthorized := by
  unfold receiveData
  split
  · rfl
  · split_ifs <;> rfl

theorem executeCommand_keeps_authorized {W : Type} (env : Board W) (code : Nat)
    (data : List Nat) (a l : Nat) (s : Session W) (h : s.hostAuthorized = true) :
    (executeCommand env code data a l s).session.hostAuthorized = true := by
  unfold executeCommand
  simp only [apply_ite Executed.session, apply_ite Session.hostAuthorized]
  split_ifs <;> first | exact h | rfl

theorem handleProtocolError_hostAuthorized {W : Type} (r : RECEIVED_DATA_TYPE) (n : Bool)
    (s : Session W) : (handleProtocolError r n s).hostAuthorized = s.hostAuthorized := by
  unfold handleProtocolError
  split
  · split_ifs <;> rfl
  · rfl
  · rfl

theorem idleExit_keeps_authorized {W : Type} (env : Board W) (s : Session W)
    (h : s.hostAuthorized = true) : (idleExit env s).hostAuthorized = true := by
  unfold idleExit
  split_ifs
  · exact executeCommand_keeps_authorized env _ _ _ _ s h
  · exact h

theorem dispatchCommand_keeps_authorized {W : Type} (env : Board W) (s : Session W)
    (h : s.hostAuthorized = true) : (dispatchCommand env s).hostAuthorized = true := by
  have hs : (sendConfirmation ACK s).hostAuthorized = true := h
  simp only [dispatchCommand, apply_ite Session.hostAuthorized]
  split_ifs
  · exact h
  · exact h
  · exact executeCommand_keeps_authorized env _ _ _ _ _ hs
  · exact executeCommand_keeps_authorized env _ _ _ _ _ hs
  · exact h
  · exact h
  · exact executeCommand_keeps_authorized env _ _ _ _ _ hs
  · exact h

theorem onField_session {W : Type} (P : Session W → Prop) (r : RECEIVED_DATA_TYPE × Session W)
    (confirmError : Bool) (body : Session W → Session W) (h1 : P r.2) (h2 : P (body r.2)) :
    P (onField r confirmError body).session := by
  unfold onField
  split_ifs
  · exact h2
  · exact h1

theorem writeAddressReceived_hostAuthorized {W : Type} (s : Session W) :
    (writeAddressReceived s).hostAuthorized = s.hostAuthorized := rfl

theorem writeLengthReceived_hostAuthorized {W : Type} (s : Session W) :
    (writeLengthReceived s).hostAuthorized = s.hostAuthorized := rfl

theorem readAddressReceived_hostAuthorized {W : Type} (s : Session W) :
    (readAddressReceived s).hostAuthorized = s.hostAuthorized := rfl

theorem erasePagesReceived_hostAuthorized {W : Type} (s : Session W) :
    (erasePagesReceived s).hostAuthorized = s.hostAuthorized := rfl

theorem eraseModeReceived_hostAuthorized {W : Type} (s : Session W) :
    (eraseModeReceived s).hostAuthorized = s.hostAuthorized := by
  unfold eraseModeReceived
  dsimp only
  split_ifs <;> rfl

theorem writeDataReceived_hostAuthorized {W : Type} (env : Board W) (s : Session W) :
    (writeDataReceived env s).hostAuthorized
      = (executeCommand env WRITE_BOOTLOADER_COMMAND s.transmitBuffer s.memoryAddress
          s.segmentDataLength s).session.hostAuthorized := rfl

theorem readLengthReceived_keeps_authorized {W : Type} (env : Board W) (s : Session W)
    (h : s.hostAuthorized = true) : (readLengthReceived env s).hostAuthorized = true :=
  executeCommand_keeps_authorized env READ_BOOTLOADER_COMMAND _ _ _
    { s with segmentDataLength := s.transmitBuffer.getD 0 0 + 1 } h

theorem eraseCrcReceived_keeps_authorized {W : Type} (env : Board W) (s : Session W)
    (h : s.hostAuthorized = true) : (eraseCrcReceived env s).hostAuthorized = true := by
  unfold eraseCrcReceived
  exact executeCommand_keeps_authorized env EXTERASE_BOOTLOADER_COMMAND _ 0 0 _ h

theorem goAddressReceived_keeps_authorized {W : Type} (env : Board W) (s : Session W)
    (h : s.hostAuthorized = true) : (goAddressReceived env s).hostAuthorized = true := by
  have key := executeCommand_keeps_authorized env GO_BOOTLOADER_COMMAND
    s.transmitBuffer (memoryAddressFromTransmitBuffer s) 0
    (sendConfirmation
      (if env.load32 s.world s.validApplicationTag = VALID_FIRMWARE_VALUE then ACK else NACK)
      { s with memoryAddress := memoryAddressFromTransmitBuffer s }) h
  unfold goAddressReceived
  by_cases hrun : (executeCommand env GO_BOOTLOADER_COMMAND
    s.transmitBuffer (memoryAddressFromTransmitBuffer s) 0
    (sendConfirmation
      (if env.load32 s.world s.validApplicationTag = VALID_FIRMWARE_VALUE then ACK else NACK)
      { s with memoryAddress := memoryAddressFromTransmitBuffer s })).session.running = true
  · exact (congrArg Session.hostAuthorized (if_pos hrun)).trans key
  · exact (congrArg Session.hostAuthorized (if_neg hrun)).trans key

theorem randomizeResponseReceived_hostAuthorized {W : Type} (env : Board W) (s : Session W) :
    (randomizeResponseReceived env s).hostAuthorized
      = (executeCommand env AUTHORIZE_HOST_COMMAND s.transmitBuffer 0
          ENCRYPTED_RANDOM_VALUE_LENGTH s).session.hostAuthorized := rfl

theorem protocolSwitch_keeps_authorized {W : Type} (env : Board W) (s : Session W)
    (h : s.hostAuthorized = true) : (protocolSwitch env s).session.hostAuthorized = true := by
  have hr : ∀ len flags, (receiveData len flags s).2.hostAuthorized = true :=
    fun len flags => (receiveData_hostAuthorized len flags s).trans h
  unfold protocolSwitch
  split
  · exact onField_session (fun t => t.hostAuthorized = true) _ _ _ (hr _ _)
      (dispatchCommand_keeps_authorized env _ (hr _ _))
  · exact onField_session (fun t => t.hostAuthorized = true) _ _ _ (hr _ _)
      ((writeAddressReceived_hostAuthorized _).trans (hr _ _))
  · exact onField_session (fun t => t.hostAuthorized = true) _ _ _ (hr _ _)
      ((writeLengthReceived_hostAuthorized _).trans (hr _ _))
  · exact onField_session (fun t => t.hostAuthorized = true) _ _ _ (hr _ _)
      ((writeDataReceived_hostAuthorized env _).trans
        (executeCommand_keeps_authorized env _ _ _ _ _ (hr _ _)))
  · exact onField_session (fun t => t.hostAuthorized = true) _ _ _ (hr _ _)
      ((readAddressReceived_hostAuthorized _).trans (hr _ _))
  · exact onField_session (fun t => t.hostAuthorized = true) _ _ _ (hr _ _)
      (readLengthReceived_keeps_authorized env _ (hr _ _))
  · exact onField_session (fun t => t.hostAuthorized = true) _ _ _ (hr _ _)
      ((eraseModeReceived_hostAuthorized _).trans (hr _ _))
  · exact onField_session (fun t => t.hostAuthorized = true) _ _ _ (hr _ _)
      ((erasePagesReceived_hostAuthorized _).trans (hr _ _))
  · exact onField_session (fun t => t.hostAuthorized = true) _ _ _ (hr _ _)
      (eraseCrcReceived_keeps_authorized env _ (hr _ _))
  · exact onField_session (fun t => t.hostAuthorized = true) _ _ _ (hr _ _)
      (goAddressReceived_keeps_authorized env _ (hr _ _))
  · exact onField_session (fun t => t.hostAuthorized = true) _ _ _ (hr _ _)
      ((randomizeResponseReceived_hostAuthorized env _).trans
        (executeCommand_keeps_authorized env _ _ _ _ _ (hr _ _)))

theorem bootloaderHandler_keeps_authorized {W : Type} (env : Board W) (s : Session W)
    (h : s.hostAuthorized = true) : (bootloaderHandler env s).hostAuthorized = true := by
  have hp := protocolSwitch_keeps_authorized env s h
  unfold bootloaderHandler
  dsimp only
  split_ifs
  · exact idleExit_keeps_authorized env _
      ((handleProtocolError_hostAuthorized _ _ _).trans hp)
  · exact idleExit_keeps_authorized env _ hp
  · exact hp

theorem bootloaderTimer_hostAuthorized {W : Type} (s : Session W) :
    (bootloaderTimer s).hostAuthorized = s.hostAuthorized := by
  unfold bootloaderTimer
  dsimp only
  split_ifs <;> rfl

theorem bootloaderRxCompletedCallback_hostAuthorized {W : Type} (c : Nat) (s : Session W) :
    (bootloaderRxCompletedCallback c s).hostAuthorized = s.hostAuthorized := by
  unfold bootloaderRxCompletedCallback
  dsimp only
  split_ifs <;> rfl

/-! ## Lemmas on one poll of the handler -/

theorem transmitted_append (a b : List Event) :
    transmitted (a ++ b) = transmitted a ++ transmitted b := by
  induction a with
  | nil => rfl
  | cons e rest ih => cases e <;> simp [transmitted, ih]

theorem idleExit_eq {W : Type} (env : Board W) (s : Session W) :
    idleExit env s
      = if s.bootloaderExitTimeout = 0
            ∧ env.load32 s.world s.validApplicationTag = VALID_FIRMWARE_VALUE
          then leaveBootloader env s else s := by
  unfold idleExit
  by_cases h1 : s.bootloaderExitTimeout = 0
  · rw [if_pos h1, executeCommand_go]
    by_cases h2 : env.load32 s.world s.validApplicationTag = VALID_FIRMWARE_VALUE
    · rw [if_pos h2, if_pos ⟨h1, h2⟩]; rfl
    · rw [if_neg h2, if_neg (fun h => h2 h.2)]
  · rw [if_neg h1, if_neg (fun h => h1 h.1)]

theorem onField_valid {W : Type} (r : RECEIVED_DATA_TYPE × Session W) (ce : Bool)
    (body : Session W → Session W) (h : r.1 = RECEIVED_DATA_TYPE.VALID_RECEIVED_DATA_TYPE) :
    onField r ce body = ⟨RECEIVED_DATA_TYPE.VALID_RECEIVED_DATA_TYPE, ce, body r.2⟩ := by
  unfold onField
  rw [if_pos h, h]

/-- A poll whose `switch` took a valid field: only the idle exit is left to run. -/
theorem bootloaderHandler_of_valid {W : Type} (env : Board W) (s t : Session W) (ce : Bool)
    (h : protocolSwitch env s = ⟨RECEIVED_DATA_TYPE.VALID_RECEIVED_DATA_TYPE, ce, t⟩) :
    bootloaderHandler env s = if t.running = true then idleExit env t else t := by
  unfold bootloaderHandler
  rw [h]
  by_cases hr : t.running = true
  · rw [if_pos hr]
    dsimp only
    rw [if_pos hr, if_neg (fun hne => hne rfl)]
  · rw [if_neg hr]
    dsimp only
    rw [if_neg hr]

/-- A poll whose `switch` did not get a valid field. -/
theorem bootloaderHandler_of_other {W : Type} (env : Board W) (s t : Session W) (ce : Bool)
    (r : RECEIVED_DATA_TYPE) (hr : r ≠ RECEIVED_DATA_TYPE.VALID_RECEIVED_DATA_TYPE)
    (hrun : t.running = true) (h : protocolSwitch env s = ⟨r, ce, t⟩) :
    bootloaderHandler env s = idleExit env (handleProtocolError r ce t) := by
  unfold bootloaderHandler
  rw [h]
  dsimp only
  rw [if_pos hrun, if_pos hr]

/-- What the idle exit can change: nothing, or the three steps of leaving. -/
theorem idleExit_cases {W : Type} (env : Board W) (s : Session W) :
    idleExit env s = s ∨ idleExit env s = leaveBootloader env s := by
  rw [idleExit_eq]
  split_ifs
  · exact Or.inr rfl
  · exact Or.inl rfl

theorem transmitted_leaveBootloader {W : Type} (env : Board W) (s : Session W) :
    transmitted (leaveBootloader env s).trace = transmitted s.trace := by
  show transmitted (s.trace ++ [Event.bootTagStore 0, Event.quiesce, Event.jump]) = _
  rw [transmitted_append]
  simp [transmitted]

/-- The part of a poll after the `switch`, for a valid field. -/
theorem afterValid_cases {W : Type} (env : Board W) (t : Session W) :
    (if t.running = true then idleExit env t else t) = t
      ∨ (if t.running = true then idleExit env t else t) = leaveBootloader env t := by
  split_ifs
  · exact idleExit_cases env t
  · exact Or.inl rfl

/-! ## Lemmas on the challenge-response exchange -/

attribute [irreducible] powerLoop

theorem lowHalfBytes_lt (ct : Int) : (lowHalfBytes ct).1 < 256 ∧ (lowHalfBytes ct).2 < 256 := by
  unfold lowHalfBytes
  have h : (ct % 65536).toNat < 65536 := by omega
  constructor
  · exact Nat.mod_lt _ (by norm_num)
  · dsimp only
    omega

theorem encryptByte_lt (n e : Int) (b : Nat) :
    (encryptByte n e b).1 < 256 ∧ (encryptByte n e b).2 < 256 :=
  lowHalfBytes_lt _

theorem device_key_roundtrip (b : Nat) (h : b < 256) :
    decryptPair cryptoKeyBmsN cryptoKeyBmsD (encryptByte cryptoKeyBmsN cryptoKeyBmsE b).1
      (encryptByte cryptoKeyBmsN cryptoKeyBmsE b).2 = b := by
  rw [encryptByte_closed _ _ _ (by decide), decryptPair_closed _ _ _ _ (by decide)]
  exact device_key_roundtrip_closed b h

theorem host_key_roundtrip (b : Nat) (h : b < 256) :
    decryptPair cryptoKeyHostN cryptoKeyHostD (encryptByte cryptoKeyHostN cryptoKeyHostE b).1
      (encryptByte cryptoKeyHostN cryptoKeyHostE b).2 = b := by
  rw [encryptByte_closed _ _ _ (by decide), decryptPair_closed _ _ _ _ (by decide)]
  exact host_key_roundtrip_closed b h

theorem wordOfBytes_bytesOfWord (v : Nat) (h : v < 4294967296) :
    wordOfBytes (bytesOfWord v) = v := by
  unfold wordOfBytes bytesOfWord
  simp only [List.getD_cons_zero, List.getD_cons_succ]
  omega

/-- The response of the host to the ciphertext of a challenge is the challenge under the host
key. -/
theorem hostResponse_of_challenge (c : Nat) (data : List Nat) (hd : 8 ≤ data.length) :
    hostResponse ((encrypt (bytesOfWord c) data 4 cryptoKeyBmsN cryptoKeyBmsE).take 8)
      = [(encryptByte cryptoKeyHostN cryptoKeyHostE (c % 256)).1,
          (encryptByte cryptoKeyHostN cryptoKeyHostE (c % 256)).2,
          (encryptByte cryptoKeyHostN cryptoKeyHostE (c / 256 % 256)).1,
          (encryptByte cryptoKeyHostN cryptoKeyHostE (c / 256 % 256)).2,
          (encryptByte cryptoKeyHostN cryptoKeyHostE (c / 65536 % 256)).1,
          (encryptByte cryptoKeyHostN cryptoKeyHostE (c / 65536 % 256)).2,
          (encryptByte cryptoKeyHostN cryptoKeyHostE (c / 16777216 % 256)).1,
          (encryptByte cryptoKeyHostN cryptoKeyHostE (c / 16777216 % 256)).2] := by
  match data, hd with
  | a0 :: a1 :: a2 :: a3 :: a4 :: a5 :: a6 :: a7 :: rest, _ =>
    unfold hostResponse bytesOfWord
    rw [encrypt_four]
    simp only [List.take_succ_cons, List.take_zero]
    rw [decrypt_four, device_key_roundtrip _ (Nat.mod_lt _ (by norm_num)),
      device_key_roundtrip _ (Nat.mod_lt _ (by norm_num)),
      device_key_roundtrip _ (Nat.mod_lt _ (by norm_num)),
      device_key_roundtrip _ (Nat.mod_lt _ (by norm_num)), encrypt_four]

theorem hostResponse_length (c : Nat) (data : List Nat) (hd : 8 ≤ data.length) :
    (hostResponse ((encrypt (bytesOfWord c) data 4 cryptoKeyBmsN cryptoKeyBmsE).take 8)).length
      = 8 := by
  rw [hostResponse_of_challenge c data hd]
  rfl

theorem hostResponse_lt (c : Nat) (data : List Nat) (hd : 8 ≤ data.length) :
    ∀ b ∈ hostResponse ((encrypt (bytesOfWord c) data 4 cryptoKeyBmsN cryptoKeyBmsE).take 8),
      b < 256 := by
  rw [hostResponse_of_challenge c data hd]
  intro b hb
  simp only [List.mem_cons, List.mem_singleton, List.not_mem_nil, or_false] at hb
  rcases hb with h | h | h | h | h | h | h | h <;> rw [h]
  · exact (encryptByte_lt _ _ _).1
  · exact (encryptByte_lt _ _ _).2
  · exact (encryptByte_lt _ _ _).1
  · exact (encryptByte_lt _ _ _).2
  · exact (encryptByte_lt _ _ _).1
  · exact (encryptByte_lt _ _ _).2
  · exact (encryptByte_lt _ _ _).1
  · exact (encryptByte_lt _ _ _).2

/-- The device recovers the challenge from the response of the host. -/
theorem decrypt_hostResponse (c : Nat) (hc : c < 4294967296) (data : List Nat)
    (hd : 8 ≤ data.length) (rest : List Nat) (v : Nat) :
    wordOfBytes (decrypt
      (hostResponse ((encrypt (bytesOfWord c) data 4 cryptoKeyBmsN cryptoKeyBmsE).take 8)
        ++ rest)
      (bytesOfWord v) 4 cryptoKeyHostN cryptoKeyHostD) = c := by
  rw [hostResponse_of_challenge c data hd]
  unfold bytesOfWord
  simp only [List.cons_append, List.nil_append]
  rw [decrypt_four, host_key_roundtrip _ (Nat.mod_lt _ (by norm_num)),
    host_key_roundtrip _ (Nat.mod_lt _ (by norm_num)),
    host_key_roundtrip _ (Nat.mod_lt _ (by norm_num)),
    host_key_roundtrip _ (Nat.mod_lt _ (by norm_num))]
  exact wordOfBytes_bytesOfWord c hc

/-! ## Lemmas on a field that ends in a CRC -/

theorem frame_with_trailer (payload : List Nat) (hi lo : Nat) :
    (payload ++ [hi, lo]).length - 2 = payload.length
    ∧ (payload ++ [hi, lo]).take ((payload ++ [hi, lo]).length - 2) = payload
    ∧ (payload ++ [hi, lo]).getD ((payload ++ [hi, lo]).length - 2) 0 = hi
    ∧ (payload ++ [hi, lo]).getD ((payload ++ [hi, lo]).length - 1) 0 = lo := by
  have h1 : (payload ++ [hi, lo]).length - 2 = payload.length := by simp
  have h2 : (payload ++ [hi, lo]).length - 1 = payload.length + 1 := by simp
  refine ⟨h1, ?_, ?_, ?_⟩
  · rw [h1]; simp
  · rw [h1, List.getD_eq_getElem?_getD, List.getElem?_append_right (le_refl _)]; simp
  · rw [h2, List.getD_eq_getElem?_getD, List.getElem?_append_right (Nat.le_succ _)]; simp

theorem mem_frame_lt (payload : List Nat) (hi lo : Nat) (hb : ∀ b ∈ payload, b < 256)
    (hhi : hi < 256) (hlo : lo < 256) : ∀ b ∈ payload ++ [hi, lo], b < 256 := by
  intro b h
  rcases List.mem_append.mp h with h | h
  · exact hb b h
  · simp only [List.mem_cons, List.mem_singleton, List.not_mem_nil, or_false] at h
    rcases h with h | h <;> rw [h] <;> assumption

/-- The verdict of `receiveData` on a completed field `payload ++ [hi, lo]` with both CRC
flags, and the session it leaves. -/
theorem receiveData_field {W : Type} (s : Session W) (payload : List Nat) (hi lo len : Nat)
    (hb : ∀ b ∈ payload, b < 256) (hhi : hi < 256) (hlo : lo < 256)
    (hc : FrameCompleted s (payload ++ [hi, lo])) :
    receiveData len (INIT_CRC_FLAG ||| CALCULATE_CRC_FLAG) s
      = (if crc16ArcReference payload ≠ hi * 256 + lo
          then RECEIVED_DATA_TYPE.INVALID_RECEIVED_DATA_TYPE
          else RECEIVED_DATA_TYPE.VALID_RECEIVED_DATA_TYPE,
        frameTaken s (crc16ArcReference payload)) := by
  obtain ⟨h1, h2, h3, h4⟩ := frame_with_trailer payload hi lo
  have hlen : 2 ≤ (payload ++ [hi, lo]).length := by simp
  rw [receiveData_completed s _ len hlen (mem_frame_lt payload hi lo hb hhi hlo) hc, h2, h3, h4]
  unfold crc16ArcReference
  rw [← crcFold_eq_reference payload hb 0]
  rfl

theorem switch_writeAddress {W : Type} (env : Board W) (s : Session W)
    (h : s.protocolState = PROTOCOL_STATE.WRITE_COMMAND_RECEIVE_ADDRESS_PROTOCOL_STATE) :
    protocolSwitch env s = caseWriteReceiveAddress s := by
  unfold protocolSwitch; rw [h]

theorem switch_writeLength {W : Type} (env : Board W) (s : Session W)
    (h : s.protocolState = PROTOCOL_STATE.WRITE_COMMAND_RECEIVE_LENGTH_PROTOCOL_STATE) :
    protocolSwitch env s = caseWriteReceiveLength s := by
  unfold protocolSwitch; rw [h]

theorem switch_writeData {W : Type} (env : Board W) (s : Session W)
    (h : s.protocolState = PROTOCOL_STATE.WRITE_COMMAND_RECEIVE_DATA_PROTOCOL_STATE) :
    protocolSwitch env s = caseWriteReceiveData env s := by
  unfold protocolSwitch; rw [h]

theorem switch_readAddress {W : Type} (env : Board W) (s : Session W)
    (h : s.protocolState = PROTOCOL_STATE.READ_COMMAND_RECEIVE_ADDRESS_PROTOCOL_STATE) :
    protocolSwitch env s = caseReadReceiveAddress s := by
  unfold protocolSwitch; rw [h]

theorem switch_readLength {W : Type} (env : Board W) (s : Session W)
    (h : s.protocolState = PROTOCOL_STATE.READ_COMMAND_RECEIVE_LENGTH_PROTOCOL_STATE) :
    protocolSwitch env s = caseReadReceiveLength env s := by
  unfold protocolSwitch; rw [h]

theorem switch_eraseMode {W : Type} (env : Board W) (s : Session W)
    (h : s.protocolState = PROTOCOL_STATE.ERASE_COMMAND_RECEIVE_MODE_PROTOCOL_STATE) :
    protocolSwitch env s = caseEraseReceiveMode s := by
  unfold protocolSwitch; rw [h]

theorem switch_erasePages {W : Type} (env : Board W) (s : Session W)
    (h : s.protocolState = PROTOCOL_STATE.ERASE_COMMAND_RECEIVE_PAGES_NUMBERS) :
    protocolSwitch env s = caseEraseReceivePages s := by
  unfold protocolSwitch; rw [h]

theorem switch_eraseCrc {W : Type} (env : Board W) (s : Session W)
    (h : s.protocolState = PROTOCOL_STATE.ERASE_COMMAND_RECEIVE_CRC) :
    protocolSwitch env s = caseEraseReceiveCrc env s := by
  unfold protocolSwitch; rw [h]

theorem switch_waitForCommand {W : Type} (env : Board W) (s : Session W)
    (h : s.protocolState = PROTOCOL_STATE.WAIT_FOR_COMMAND_PROTOCOL_STATE) :
    protocolSwitch env s = caseWaitForCommand env s := by
  unfold protocolSwitch; rw [h]

theorem switch_go {W : Type} (env : Board W) (s : Session W)
    (h : s.protocolState = PROTOCOL_STATE.GO_COMMAND_RECEIVE_ADDRESS_PROTOCOL_STATE) :
    protocolSwitch env s = caseGoReceiveAddress env s := by
  unfold protocolSwitch; rw [h]

theorem switch_randomize {W : Type} (env : Board W) (s : Session W)
    (h : s.protocolState
      = PROTOCOL_STATE.RANDOMIZE_COMMAND_RECEIVE_ENCRYPTED_RANDOM_VALUE_STATE) :
    protocolSwitch env s = caseRandomizeReceiveResponse env s := by
  unfold protocolSwitch; rw [h]

/-- The follow-up state of RANDOMIZE when the decrypted response is the challenge. -/
theorem randomizeResponseReceived_match {W : Type} (env : Board W) (s : Session W)
    (h : wordOfBytes (decrypt s.transmitBuffer (bytesOfWord s.receivedRandomValue) 4
      cryptoKeyHostN cryptoKeyHostD) = s.randomValue) :
    (randomizeResponseReceived env s).hostAuthorized = true
    ∧ (randomizeResponseReceived env s).protocolState
      = PROTOCOL_STATE.WAIT_FOR_COMMAND_PROTOCOL_STATE
    ∧ (randomizeResponseReceived env s).trace = s.trace ++ [Event.transmit [ACK]] := by
  unfold randomizeResponseReceived
  rw [executeCommand_authorize, if_pos h]
  refine ⟨?_, ?_, ?_⟩
  · rfl
  · rfl
  · rfl

/-- The follow-up state of RANDOMIZE when the decrypted response is not the challenge. -/
theorem randomizeResponseReceived_mismatch {W : Type} (env : Board W) (s : Session W)
    (h : wordOfBytes (decrypt s.transmitBuffer (bytesOfWord s.receivedRandomValue) 4
      cryptoKeyHostN cryptoKeyHostD) ≠ s.randomValue) :
    (randomizeResponseReceived env s).hostAuthorized = s.hostAuthorized
    ∧ (randomizeResponseReceived env s).protocolState
      = PROTOCOL_STATE.WAIT_FOR_COMMAND_PROTOCOL_STATE
    ∧ (randomizeResponseReceived env s).trace = s.trace ++ [Event.transmit [NACK]] := by
  unfold randomizeResponseReceived
  rw [executeCommand_authorize, if_neg h]
  refine ⟨?_, ?_, ?_⟩
  · rfl
  · rfl
  · rfl

/-- The fields a poll leaves after a valid field, in terms of the session its `switch`
produced: the idle exit touches neither the protocol state, the authorization, the fill
pointer nor the transmitted bytes. -/
theorem bootloaderHandler_valid_fields {W : Type} (env : Board W) (s t : Session W) (ce : Bool)
    (h : protocolSwitch env s = ⟨RECEIVED_DATA_TYPE.VALID_RECEIVED_DATA_TYPE, ce, t⟩) :
    (bootloaderHandler env s).hostAuthorized = t.hostAuthorized
    ∧ (bootloaderHandler env s).protocolState = t.protocolState
    ∧ (bootloaderHandler env s).rxPointer = t.rxPointer
    ∧ transmitted (bootloaderHandler env s).trace = transmitted t.trace := by
  rw [bootloaderHandler_of_valid env s t ce h]
  rcases afterValid_cases env t with e | e <;> rw [e]
  · exact ⟨rfl, rfl, rfl, rfl⟩
  · exact ⟨rfl, rfl, rfl, transmitted_leaveBootloader env t⟩

/-- The `switch` of a poll that finds a completed field with a correct CRC trailer. -/
theorem protocolSwitch_valid_field {W : Type} (env : Board W) (s : Session W)
    (payload : List Nat) (hi lo len : Nat) (ce : Bool) (body : Session W → Session W)
    (hsw : protocolSwitch env s
      = onField (receiveData len (INIT_CRC_FLAG ||| CALCULATE_CRC_FLAG) s) ce body)
    (hb : ∀ b ∈ payload, b < 256) (hhi : hi < 256) (hlo : lo < 256)
    (hc : FrameCompleted s (payload ++ [hi, lo]))
    (hcrc : hi * 256 + lo = crc16ArcReference payload) :
    protocolSwitch env s
      = ⟨RECEIVED_DATA_TYPE.VALID_RECEIVED_DATA_TYPE, ce,
          body (frameTaken s (crc16ArcReference payload))⟩ := by
  rw [hsw, receiveData_field s payload hi lo len hb hhi hlo hc, if_neg (fun h => h hcrc.symm)]
  exact onField_valid _ ce body rfl

theorem decrypt_eight (response rest destination : List Nat) (n d : Int)
    (hr : response.length = 8) (hd : destination.length = 4) :
    decrypt (response ++ rest) destination 4 n d = decrypt response [0, 0, 0, 0] 4 n d := by
  match response, hr, destination, hd with
  | [c0, c1, c2, c3, c4, c5, c6, c7], _, [d0, d1, d2, d3], _ =>
    simp only [List.cons_append, List.nil_append]
    rw [decrypt_four, decrypt_four]

/-! ## The worked exchange on the example board -/

theorem example_hostResponse :
    hostResponse ((executeCommand (exampleBoard 0xFFFFFFFF) RANDOMIZE_BOOTLOADER_COMMAND
        residentSession.transmitBuffer 0 0 residentSession).data.take 8)
      = [172, 255, 168, 251, 172, 255, 168, 251] := by
  rw [executeCommand_randomize]
  dsimp only
  rw [hostResponse_of_challenge _ _ (by decide!)]
  simp only [encryptByte_closed _ _ _ (show (1 : Int) < cryptoKeyHostN by decide)]
  decide!

theorem example_wrong_decryption :
    wordOfBytes (decrypt [0, 0, 0, 0, 0, 0, 0, 0] [0, 0, 0, 0] 4 cryptoKeyHostN cryptoKeyHostD)
      = 3857049061 := by
  rw [decrypt_four]
  simp only [decryptPair_closed _ _ _ _ (show (1 : Int) < cryptoKeyHostN by decide)]
  decide!

/-! ## Lemmas on the GO command -/

theorem goAddressReceived_valid {W : Type} (env : Board W) (t : Session W)
    (h : env.load32 t.world t.validApplicationTag = VALID_FIRMWARE_VALUE) :
    (goAddressReceived env t).trace
      = t.trace ++ [Event.transmit [ACK], Event.bootTagStore 0, Event.quiesce, Event.jump] := by
  unfold goAddressReceived
  dsimp only [sendConfirmation, sendData, bootloaderTxCompletedCallback]
  rw [executeCommand_go]
  dsimp only
  rw [if_pos h, if_pos h]
  dsimp only [leaveBootloader]
  split_ifs <;> simp

theorem goAddressReceived_invalid {W : Type} (env : Board W) (t : Session W)
    (h : env.load32 t.world t.validApplicationTag ≠ VALID_FIRMWARE_VALUE)
    (hrun : t.running = true) :
    (goAddressReceived env t).trace = t.trace ++ [Event.transmit [NACK]]
    ∧ (goAddressReceived env t).bootloaderTag = t.bootloaderTag
    ∧ (goAddressReceived env t).protocolState = PROTOCOL_STATE.WAIT_FOR_COMMAND_PROTOCOL_STATE
    ∧ (goAddressReceived env t).running = true
    ∧ (goAddressReceived env t).world = t.world
    ∧ (goAddressReceived env t).validApplicationTag = t.validApplicationTag := by
  unfold goAddressReceived
  dsimp only [sendConfirmation, sendData, bootloaderTxCompletedCallback]
  rw [executeCommand_go]
  dsimp only
  rw [if_neg h, if_neg h]
  dsimp only
  rw [if_pos hrun]
  exact ⟨rfl, rfl, rfl, hrun, rfl, rfl⟩

/-! ## Lemmas on the frame timeout -/

theorem protocolSwitch_shape {W : Type} (env : Board W) (s : Session W) :
    ∃ (len flags : Nat) (ce : Bool) (body : Session W → Session W),
      protocolSwitch env s = onField (receiveData len flags s) ce body := by
  unfold protocolSwitch
  split <;> exact ⟨_, _, _, _, rfl⟩

theorem bootloaderTimer_fields {W : Type} (s : Session W) :
    (bootloaderTimer s).receiveState = s.receiveState
    ∧ (bootloaderTimer s).rxDataReady = s.rxDataReady
    ∧ (bootloaderTimer s).rxFrameTimeout = s.rxFrameTimeout - 1
    ∧ (bootloaderTimer s).trace = s.trace := by
  unfold bootloaderTimer
  dsimp only
  split_ifs <;> refine ⟨rfl, rfl, ?_, rfl⟩ <;> dsimp only <;> omega

theorem set_append_cons (done : List Nat) (x c : Nat) (tail : List Nat) :
    (done ++ x :: tail).set done.length c = done ++ c :: tail := by
  induction done with
  | nil => rfl
  | cons d rest ih => simp [List.set, ih]

/-- One received byte while the engine waits for more than it has. -/
theorem callback_stores {W : Type} (u : Session W) (c x : Nat) (done tail : List Nat)
    (hbuf : u.transmitBuffer = done ++ x :: tail) (hptr : u.rxPointer = done.length)
    (hlen : done.length < RX_BUFFER_SIZE) :
    (bootloaderRxCompletedCallback c u).transmitBuffer = (done ++ [c]) ++ tail
    ∧ (bootloaderRxCompletedCallback c u).rxPointer = (done ++ [c]).length
    ∧ (bootloaderRxCompletedCallback c u).receiveState = u.receiveState
    ∧ (bootloaderRxCompletedCallback c u).expectedDataLength = u.expectedDataLength
    ∧ (bootloaderRxCompletedCallback c u).rxDataReady
      = (if done.length + 1 < u.expectedDataLength then u.rxDataReady else true) := by
  have hmod : (done.length + 1) % 65536 = done.length + 1 := by
    apply Nat.mod_eq_of_lt
    unfold RX_BUFFER_SIZE at hlen
    omega
  have hle : ¬ done.length + 1 > RX_BUFFER_SIZE := by omega
  unfold bootloaderRxCompletedCallback
  dsimp only
  rw [hptr, hmod, if_neg hle, hbuf, set_append_cons]
  dsimp only
  by_cases hmore : done.length + 1 < u.expectedDataLength
  · rw [if_pos hmore, if_pos hmore]
    exact ⟨by simp, by simp, rfl, rfl, rfl⟩
  · rw [if_neg hmore, if_neg hmore]
    exact ⟨by simp, by simp, rfl, rfl, rfl⟩

/-- The bytes still to come fill the buffer behind the bytes already stored, and the last of
them raises the ready flag. -/
theorem deliver_remaining {W : Type} (remaining : List Nat) :
    ∀ (u : Session W) (done tail : List Nat),
      u.receiveState = RECEIVE_STATE.WAIT_FOR_DATA_RECEIVE_STATE →
      u.expectedDataLength = done.length + remaining.length →
      u.rxPointer = done.length →
      u.transmitBuffer = done ++ tail →
      remaining.length ≤ tail.length →
      done.length + remaining.length ≤ RX_BUFFER_SIZE →
      remaining ≠ [] →
      FrameCompleted (deliver remaining u) (done ++ remaining) := by
  induction remaining with
  | nil => intro u done tail _ _ _ _ _ _ hne; exact absurd rfl hne
  | cons c rest ih =>
    intro u done tail hstate hexp hptr hbuf htail hfit _
    match tail, htail with
    | x :: tail', htail' =>
      have hlen : done.length < RX_BUFFER_SIZE := by
        simp only [List.length_cons] at hfit
        omega
      obtain ⟨b1, b2, b3, b4, b5⟩ := callback_stores u c x done tail' hbuf hptr hlen
      show FrameCompleted (deliver rest (bootloaderRxCompletedCallback c u)) (done ++ c :: rest)
      have hsplit : done ++ c :: rest = (done ++ [c]) ++ rest := by simp
      rw [hsplit]
      cases rest with
      | nil =>
        refine frameCompleted_of_buffer _ _ tail' (b3.trans hstate) ?_ ?_ ?_
        · show (bootloaderRxCompletedCallback c u).rxDataReady = true
          rw [b5, if_neg (by rw [hexp]; simp)]
        · show (bootloaderRxCompletedCallback c u).expectedDataLength = _
          rw [b4, hexp]; simp
        · show (bootloaderRxCompletedCallback c u).transmitBuffer = _
          rw [b1]; simp
      | cons d rest' =>
        refine ih (bootloaderRxCompletedCallback c u) (done ++ [c]) tail' (b3.trans hstate) ?_ b2
          b1 ?_ ?_ (by simp)
        · rw [b4, hexp]; simp; omega
        · simp only [List.length_cons] at htail' ⊢; omega
        · simp only [List.length_cons, List.length_append, List.length_nil] at hfit ⊢; omega

/-- A frame of `1 ≤ L ≤ 280` bytes received after `receiveData` started the receive from the
idle state is a completed frame. -/
theorem deliver_completes {W : Type} (s : Session W) (frame : List Nat) (flags : Nat)
    (hidle : s.receiveState = RECEIVE_STATE.INIT_RECEIVE_STATE) (hptr : s.rxPointer = 0)
    (hbuf : s.transmitBuffer.length = RX_BUFFER_SIZE) (hlo : 1 ≤ frame.length)
    (hhi : frame.length ≤ RX_BUFFER_SIZE) :
    FrameCompleted (deliver frame (receiveData frame.length flags s).2) frame := by
  have hstart : receiveData frame.length flags s
      = (RECEIVED_DATA_TYPE.NO_RECEIVED_DATA_TYPE,
        { s with
          expectedDataLength := frame.length
          rxFrameTimeout := RX_TIMEOUT_MS
          receiveState := RECEIVE_STATE.WAIT_FOR_DATA_RECEIVE_STATE
          rxDataReady := false
          rxArmed := true
          trace := s.trace ++ [Event.receiveArm] }) := by
    unfold receiveData
    rw [hidle]
  rw [hstart]
  have := deliver_remaining frame
    { s with
      expectedDataLength := frame.length
      rxFrameTimeout := RX_TIMEOUT_MS
      receiveState := RECEIVE_STATE.WAIT_FOR_DATA_RECEIVE_STATE
      rxDataReady := false
      rxArmed := true
      trace := s.trace ++ [Event.receiveArm] } [] s.transmitBuffer rfl (by simp) hptr rfl
    (by rw [hbuf]; exact hhi) (by simpa using hhi)
    (by intro h; rw [h] at hlo; simp at hlo)
  simpa using this

/-! ## Lemmas on the verdict of the receive engine -/

/-- A field is only reported VALID or INVALID when a completed frame was taken: the session
is then `frameTaken`, whatever the flags. -/
theorem receiveData_taken {W : Type} (len flags : Nat) (s : Session W)
    (h : (receiveData len flags s).1 = RECEIVED_DATA_TYPE.VALID_RECEIVED_DATA_TYPE
      ∨ (receiveData len flags s).1 = RECEIVED_DATA_TYPE.INVALID_RECEIVED_DATA_TYPE) :
    ∃ crc, (receiveData len flags s).2 = frameTaken s crc := by
  unfold receiveData at h ⊢
  split at h
  · rcases h with h | h <;> exact RECEIVED_DATA_TYPE.noConfusion h
  · by_cases hr : s.rxDataReady = true
    · rw [if_pos hr]
      by_cases hf : flags &&& CALCULATE_CRC_FLAG ≠ 0
      · rw [if_pos hf]; exact ⟨_, rfl⟩
      · rw [if_neg hf]; exact ⟨_, rfl⟩
    · rw [if_neg hr] at h
      by_cases ht : s.rxFrameTimeout = 0
      · rw [if_pos ht] at h
        rcases h with h | h <;> exact RECEIVED_DATA_TYPE.noConfusion h
      · rw [if_neg ht] at h
        rcases h with h | h <;> exact RECEIVED_DATA_TYPE.noConfusion h

/-- Without `CALCULATE_CRC_FLAG` the receive engine never reports INVALID. -/
theorem receiveData_not_invalid {W : Type} (len flags : Nat) (s : Session W)
    (hf : flags &&& CALCULATE_CRC_FLAG = 0) :
    (receiveData len flags s).1 ≠ RECEIVED_DATA_TYPE.INVALID_RECEIVED_DATA_TYPE := by
  unfold receiveData
  split
  · exact fun h => RECEIVED_DATA_TYPE.noConfusion h
  · by_cases hr : s.rxDataReady = true
    · rw [if_pos hr, if_neg (fun h => h hf)]
      exact fun h => RECEIVED_DATA_TYPE.noConfusion h
    · rw [if_neg hr]
      by_cases ht : s.rxFrameTimeout = 0
      · rw [if_pos ht]; exact fun h => RECEIVED_DATA_TYPE.noConfusion h
      · rw [if_neg ht]; exact fun h => RECEIVED_DATA_TYPE.noConfusion h

/-- The switch with a field that is not VALID: the case body is skipped. -/
theorem onField_skipped {W : Type} (r : RECEIVED_DATA_TYPE × Session W) (ce : Bool)
    (body : Session W → Session W) (h : r.1 ≠ RECEIVED_DATA_TYPE.VALID_RECEIVED_DATA_TYPE) :
    onField r ce body = ⟨r.1, ce, r.2⟩ := by
  unfold onField
  rw [if_neg h]

theorem onField_receiveResult {W : Type} (r : RECEIVED_DATA_TYPE × Session W) (ce : Bool)
    (body : Session W → Session W) : (onField r ce body).receiveResult = r.1 := by
  unfold onField
  split_ifs <;> rfl

theorem onField_confirmError {W : Type} (r : RECEIVED_DATA_TYPE × Session W) (ce : Bool)
    (body : Session W → Session W) : (onField r ce body).confirmError = ce := by
  unfold onField
  split_ifs <;> rfl
theorem flashCalls_append (a b : List Event) :
    flashCalls (a ++ b) = flashCalls a ++ flashCalls b := by
  induction a with
  | nil => rfl
  | cons e rest ih => cases e <;> simp [flashCalls, ih]

theorem handleProtocolError_invalid_fields {W : Type} (ce : Bool) (t : Session W) :
    (handleProtocolError RECEIVED_DATA_TYPE.INVALID_RECEIVED_DATA_TYPE ce t).protocolState
        = (if ce = true then PROTOCOL_STATE.WAIT_FOR_COMMAND_PROTOCOL_STATE else t.protocolState)
    ∧ (handleProtocolError RECEIVED_DATA_TYPE.INVALID_RECEIVED_DATA_TYPE ce t).trace
        = (if ce = true then t.trace ++ [Event.transmit ((t.transmitBuffer.set 0 NACK).take 1)]
            else t.trace) := by
  cases ce
  · exact ⟨rfl, rfl⟩
  · exact ⟨rfl, rfl⟩

theorem idleExit_fields {W : Type} (env : Board W) (t : Session W) :
    (idleExit env t).protocolState = t.protocolState
    ∧ transmitted (idleExit env t).trace = transmitted t.trace
    ∧ flashCalls (idleExit env t).trace = flashCalls t.trace
    ∧ (idleExit env t).world = t.world
    ∧ (idleExit env t).externalEraseMode = t.externalEraseMode
    ∧ (idleExit env t).segmentDataLength = t.segmentDataLength
    ∧ (idleExit env t).memoryAddress = t.memoryAddress := by
  rcases idleExit_cases env t with h | h
  · rw [h]; exact ⟨rfl, rfl, rfl, rfl, rfl, rfl, rfl⟩
  · rw [h]
    refine ⟨rfl, transmitted_leaveBootloader env t, ?_, rfl, rfl, rfl, rfl⟩
    show flashCalls (t.trace ++ [Event.bootTagStore 0, Event.quiesce, Event.jump]) = _
    rw [flashCalls_append]
    simp [flashCalls]

/-- A poll in which the receive engine reports INVALID: the state is reset and one byte is
sent exactly when the `case` left `confirmError` set. -/
theorem poll_invalid {W : Type} (env : Board W) (s : Session W) (len flags : Nat) (ce : Bool)
    (body : Session W → Session W)
    (hsw : protocolSwitch env s = onField (receiveData len flags s) ce body)
    (hrun : s.running = true)
    (hinv : (protocolSwitch env s).receiveResult = RECEIVED_DATA_TYPE.INVALID_RECEIVED_DATA_TYPE) :
    (bootloaderHandler env s).protocolState
        = (if ce = true then PROTOCOL_STATE.WAIT_FOR_COMMAND_PROTOCOL_STATE else s.protocolState)
    ∧ transmitted (bootloaderHandler env s).trace
        = (if ce = true then transmitted s.trace ++ [(s.transmitBuffer.set 0 NACK).take 1]
            else transmitted s.trace) := by
  have h1 : (receiveData len flags s).1 = RECEIVED_DATA_TYPE.INVALID_RECEIVED_DATA_TYPE := by
    rw [hsw, onField_receiveResult] at hinv; exact hinv
  obtain ⟨crc, h2⟩ := receiveData_taken len flags s (Or.inr h1)
  have h3 : protocolSwitch env s
      = ⟨RECEIVED_DATA_TYPE.INVALID_RECEIVED_DATA_TYPE, ce, frameTaken s crc⟩ := by
    rw [hsw, onField_skipped _ _ _ (by rw [h1]; decide), h1, h2]
  rw [bootloaderHandler_of_other env s (frameTaken s crc) ce _ (by decide) hrun h3]
  obtain ⟨e1, e2, -⟩ := idleExit_fields env
    (handleProtocolError RECEIVED_DATA_TYPE.INVALID_RECEIVED_DATA_TYPE ce (frameTaken s crc))
  obtain ⟨g1, g2⟩ := handleProtocolError_invalid_fields ce (frameTaken s crc)
  rw [e1, e2, g1, g2]
  cases ce
  · exact ⟨rfl, rfl⟩
  · refine ⟨rfl, ?_⟩
    rw [if_pos rfl, if_pos rfl, transmitted_append]
    rfl
/-- The `case` taken by the `switch` of `bootloaderHandler` in each state: the value it
leaves in `confirmError`, and whether its call of `receiveData` asks for the CRC check. -/
theorem switch_table {W : Type} (env : Board W) (s : Session W) :
    ∃ (len flags : Nat) (body : Session W → Session W),
      protocolSwitch env s
        = onField (receiveData len flags s)
            (decide (s.protocolState ∈
              [PROTOCOL_STATE.WAIT_FOR_COMMAND_PROTOCOL_STATE,
               PROTOCOL_STATE.WRITE_COMMAND_RECEIVE_ADDRESS_PROTOCOL_STATE,
               PROTOCOL_STATE.WRITE_COMMAND_RECEIVE_DATA_PROTOCOL_STATE,
               PROTOCOL_STATE.READ_COMMAND_RECEIVE_ADDRESS_PROTOCOL_STATE,
               PROTOCOL_STATE.GO_COMMAND_RECEIVE_ADDRESS_PROTOCOL_STATE,
               PROTOCOL_STATE.RANDOMIZE_COMMAND_RECEIVE_ENCRYPTED_RANDOM_VALUE_STATE])) body
      ∧ (s.protocolState ∈
            [PROTOCOL_STATE.WRITE_COMMAND_RECEIVE_LENGTH_PROTOCOL_STATE,
             PROTOCOL_STATE.ERASE_COMMAND_RECEIVE_MODE_PROTOCOL_STATE,
             PROTOCOL_STATE.ERASE_COMMAND_RECEIVE_PAGES_NUMBERS]
          → flags &&& CALCULATE_CRC_FLAG = 0) := by
  cases hst : s.protocolState
  · rw [switch_waitForCommand env s hst]; exact ⟨_, _, _, rfl, by decide⟩
  · rw [switch_writeAddress env s hst]; exact ⟨_, _, _, rfl, by decide⟩
  · rw [switch_writeLength env s hst]; exact ⟨_, _, _, rfl, by decide⟩
  · rw [switch_writeData env s hst]; exact ⟨_, _, _, rfl, by decide⟩
  · rw [switch_readAddress env s hst]; exact ⟨_, _, _, rfl, by decide⟩
  · rw [switch_readLength env s hst]; exact ⟨_, _, _, rfl, by decide⟩
  · rw [switch_eraseMode env s hst]; exact ⟨_, _, _, rfl, by decide⟩
  · rw [switch_erasePages env s hst]; exact ⟨_, _, _, rfl, by decide⟩
  · rw [switch_eraseCrc env s hst]; exact ⟨_, _, _, rfl, by decide⟩
  · rw [switch_go env s hst]; exact ⟨_, _, _, rfl, by decide⟩
  · rw [switch_randomize env s hst]; exact ⟨_, _, _, rfl, by decide⟩
/-- The part of a poll after the `switch`, for a valid field, touches neither the protocol
state nor what was transmitted nor the flash. -/
theorem afterValid_fields {W : Type} (env : Board W) (t : Session W) :
    (if t.running = true then idleExit env t else t).protocolState = t.protocolState
    ∧ transmitted (if t.running = true then idleExit env t else t).trace = transmitted t.trace
    ∧ flashCalls (if t.running = true then idleExit env t else t).trace = flashCalls t.trace
    ∧ (if t.running = true then idleExit env t else t).world = t.world := by
  by_cases h : t.running = true
  · rw [if_pos h]
    obtain ⟨h1, h2, h3, h4, -⟩ := idleExit_fields env t
    exact ⟨h1, h2, h3, h4⟩
  · rw [if_neg h]
    exact ⟨rfl, rfl, rfl, rfl⟩

/-- A poll in which the receive engine reports VALID: the body of the `case` runs on the
session left by `receiveData`, then the idle exit if the bootloader is still running. -/
theorem poll_valid {W : Type} (env : Board W) (s : Session W) (len flags : Nat) (ce : Bool)
    (body : Session W → Session W)
    (hsw : protocolSwitch env s = onField (receiveData len flags s) ce body)
    (hvalid : (protocolSwitch env s).receiveResult = RECEIVED_DATA_TYPE.VALID_RECEIVED_DATA_TYPE) :
    ∃ crc, bootloaderHandler env s
      = if (body (frameTaken s crc)).running = true then idleExit env (body (frameTaken s crc))
        else body (frameTaken s crc) := by
  have h1 : (receiveData len flags s).1 = RECEIVED_DATA_TYPE.VALID_RECEIVED_DATA_TYPE := by
    rw [hsw, onField_receiveResult] at hvalid; exact hvalid
  obtain ⟨crc, h2⟩ := receiveData_taken len flags s (Or.inl h1)
  refine ⟨crc, bootloaderHandler_of_valid env s _ ce ?_⟩
  rw [hsw, onField_valid _ _ _ h1, h2]
theorem eraseModeReceived_fields {W : Type} (t : Session W) :
    (eraseModeReceived t).protocolState
        = (if halfwordOfBuffer t.transmitBuffer < 0xFFF0
            then PROTOCOL_STATE.ERASE_COMMAND_RECEIVE_PAGES_NUMBERS
            else PROTOCOL_STATE.ERASE_COMMAND_RECEIVE_CRC)
    ∧ (eraseModeReceived t).trace = t.trace
    ∧ (eraseModeReceived t).externalEraseMode = halfwordOfBuffer t.transmitBuffer
    ∧ (eraseModeReceived t).hostAuthorized = t.hostAuthorized
    ∧ (eraseModeReceived t).world = t.world
    ∧ (eraseModeReceived t).running = t.running := by
  unfold eraseModeReceived
  dsimp only
  by_cases hm : halfwordOfBuffer t.transmitBuffer < 0xFFF0
  · rw [if_pos hm, if_pos hm]; exact ⟨rfl, rfl, rfl, rfl, rfl, rfl⟩
  · rw [if_neg hm, if_neg hm]; exact ⟨rfl, rfl, rfl, rfl, rfl, rfl⟩
/-! ## Lemmas on the final field of WRITE and of EXTENDED_ERASE -/

/-- The flash call an authorized WRITE makes for the start address `address`, the buffer
`data` and the byte count `length`. -/
theorem writeDataReceived_authorized {W : Type} (env : Board W) (t : Session W)
    (h : t.hostAuthorized = true) :
    (writeDataReceived env t).trace
        = t.trace
          ++ [if t.memoryAddress = UINT32_MAX - 1
                then Event.flashErase (sub32 env.FLASH_END env.FLASH_PAGE_SIZE)
                else Event.flashWrite
                  (if t.memoryAddress = UINT32_MAX
                    then add32 (sub32 (FLASH_APP_END_ADDRESS env) 4) 1 else t.memoryAddress)
                  t.transmitBuffer (t.segmentDataLength / 4),
              Event.transmit [ACK]]
    ∧ (writeDataReceived env t).protocolState = PROTOCOL_STATE.WAIT_FOR_COMMAND_PROTOCOL_STATE
    ∧ (writeDataReceived env t).running = t.running := by
  unfold writeDataReceived
  rw [executeCommand_write, if_pos h]
  by_cases h1 : t.memoryAddress = UINT32_MAX - 1
  · rw [if_pos h1, if_pos h1]
    refine ⟨?_, rfl, rfl⟩
    show (t.trace ++ [Event.flashErase (sub32 env.FLASH_END env.FLASH_PAGE_SIZE)])
      ++ [Event.transmit [ACK]] = _
    rw [List.append_assoc]; rfl
  · rw [if_neg h1, if_neg h1]
    refine ⟨?_, rfl, rfl⟩
    show (t.trace ++ [Event.flashWrite _ t.transmitBuffer (t.segmentDataLength / 4)])
      ++ [Event.transmit [ACK]] = _
    rw [List.append_assoc]; rfl

theorem halfword_roundtrip (m : Nat) (h : m < 65536) :
    (((m >>> 8) % 256 * 256) % 65536 + (m &&& 0x00FF)) % 65536 = m := by
  have h1 : m &&& 0x00FF = m % 256 := Nat.and_pow_two_sub_one_eq_mod m 8
  rw [h1, Nat.shiftRight_eq_div_pow]
  norm_num
  omega

/-- The mode `executeCommand` reads back from the buffer is the one stored by the ERASE mode
state. -/
theorem halfwordOfBuffer_restored (buffer : List Nat) (m p : Nat) (hm : m < 65536)
    (hlen : 2 ≤ buffer.length) :
    halfwordOfBuffer ((((buffer.set 0 ((m >>> 8) % 256)).set 1 (m &&& 0x00FF)).set 2
      ((p >>> 8) % 256)).set 3 (p &&& 0x00FF)) = m := by
  unfold halfwordOfBuffer
  rw [getD_set_other _ 3 0 _ (by decide), getD_set_other _ 2 0 _ (by decide),
    getD_set_other _ 1 0 _ (by decide), getD_set_self _ 0 _ (by omega),
    getD_set_other _ 3 1 _ (by decide), getD_set_other _ 2 1 _ (by decide),
    getD_set_self _ 1 _ (by rw [List.length_set]; omega)]
  exact halfword_roundtrip m hm
/-- What the final field of an EXTENDED_ERASE does: the erase from the fixed start address
for an authorized host and mode 0xFFFF, with the reply telling its outcome, and a NACK
without any flash call otherwise. -/
theorem eraseCrcReceived_fields {W : Type} (env : Board W) (t : Session W)
    (hm : t.externalEraseMode < 65536) (hlen : 2 ≤ t.transmitBuffer.length) :
    (eraseCrcReceived env t).protocolState = PROTOCOL_STATE.WAIT_FOR_COMMAND_PROTOCOL_STATE
    ∧ (eraseCrcReceived env t).trace
        = (if t.hostAuthorized = true ∧ t.externalEraseMode = 0xFFFF then
            t.trace ++ [Event.flashErase FLASH_APP_START_ADDRESS,
              Event.transmit
                [if (env.flash_erase t.world FLASH_APP_START_ADDRESS).1 = FLASH_STATUS_OK
                  then ACK else NACK]]
          else t.trace ++ [Event.transmit [NACK]])
    ∧ (eraseCrcReceived env t).running = t.running := by
  have hfin : ∀ x : Executed W,
      ({ sendConfirmation (if x.result = true then ACK else NACK)
          { x.session with transmitBuffer := x.data } with
          protocolState := PROTOCOL_STATE.WAIT_FOR_COMMAND_PROTOCOL_STATE } : Session W).trace
        = x.session.trace ++ [Event.transmit [if x.result = true then ACK else NACK]] :=
    fun x => rfl
  have hrunning : ∀ x : Executed W,
      ({ sendConfirmation (if x.result = true then ACK else NACK)
          { x.session with transmitBuffer := x.data } with
          protocolState := PROTOCOL_STATE.WAIT_FOR_COMMAND_PROTOCOL_STATE } : Session W).running
        = x.session.running :=
    fun x => rfl
  refine ⟨rfl, ?_, ?_⟩
  · refine (hfin _).trans ?_
    rw [executeCommand_exterase, halfwordOfBuffer_restored _ _ _ hm hlen]
    by_cases ha : t.hostAuthorized = true
    · by_cases he : t.externalEraseMode = 0xFFFF
      · rw [if_pos (And.intro ha he), if_pos ha, if_pos he]
        by_cases hok : (env.flash_erase t.world FLASH_APP_START_ADDRESS).1 = FLASH_STATUS_OK
        · rw [if_pos hok]
          show (t.trace ++ [Event.flashErase FLASH_APP_START_ADDRESS])
            ++ [Event.transmit [if decide _ = true then ACK else NACK]] = _
          rw [List.append_assoc, decide_eq_true hok]
          rfl
        · rw [if_neg hok]
          show (t.trace ++ [Event.flashErase FLASH_APP_START_ADDRESS])
            ++ [Event.transmit [if decide _ = true then ACK else NACK]] = _
          rw [List.append_assoc, decide_eq_false hok]
          rfl
      · rw [if_neg (fun h : t.hostAuthorized = true ∧ t.externalEraseMode = 0xFFFF => he h.2),
          if_pos ha, if_neg he]
        rfl
    · rw [if_neg (fun h : t.hostAuthorized = true ∧ t.externalEraseMode = 0xFFFF => ha h.1),
        if_neg ha]
      rfl
  · refine (hrunning _).trans ?_
    rw [executeCommand_exterase]
    split_ifs <;> rfl
/-- A poll that takes the data field of an authorized WRITE: the flash call of the command,
then ACK, whatever the flash driver returned. -/
theorem poll_writeData_authorized {W : Type} (env : Board W) (s : Session W)
    (hauth : s.hostAuthorized = true)
    (hstate : s.protocolState = PROTOCOL_STATE.WRITE_COMMAND_RECEIVE_DATA_PROTOCOL_STATE)
    (hvalid : (protocolSwitch env s).receiveResult
      = RECEIVED_DATA_TYPE.VALID_RECEIVED_DATA_TYPE) :
    flashCalls (bootloaderHandler env s).trace
        = flashCalls s.trace
          ++ [if s.memoryAddress = UINT32_MAX - 1
                then Event.flashErase (sub32 env.FLASH_END env.FLASH_PAGE_SIZE)
                else Event.flashWrite
                  (if s.memoryAddress = UINT32_MAX
                    then add32 (sub32 (FLASH_APP_END_ADDRESS env) 4) 1 else s.memoryAddress)
                  s.transmitBuffer (s.segmentDataLength / 4)]
    ∧ transmitted (bootloaderHandler env s).trace = transmitted s.trace ++ [[ACK]]
    ∧ (bootloaderHandler env s).protocolState
        = PROTOCOL_STATE.WAIT_FOR_COMMAND_PROTOCOL_STATE := by
  obtain ⟨crc, h⟩ := poll_valid env s _ _ _ _ (switch_writeData env s hstate) hvalid
  obtain ⟨h1, h2, h3, -⟩ := afterValid_fields env (writeDataReceived env (frameTaken s crc))
  obtain ⟨g1, g2, -⟩ := writeDataReceived_authorized env (frameTaken s crc) hauth
  rw [h, h1, h2, h3, g1, g2, flashCalls_append, transmitted_append]
  refine ⟨?_, ?_, rfl⟩
  · show flashCalls s.trace ++ flashCalls _ = flashCalls s.trace ++ [if s.memoryAddress = _
      then _ else Event.flashWrite _ s.transmitBuffer (s.segmentDataLength / 4)]
    by_cases ha : s.memoryAddress = UINT32_MAX - 1
    · rw [show (frameTaken s crc).memoryAddress = s.memoryAddress from rfl, if_pos ha, if_pos ha]
      rfl
    · rw [show (frameTaken s crc).memoryAddress = s.memoryAddress from rfl, if_neg ha, if_neg ha]
      rfl
  · show transmitted s.trace ++ transmitted _ = _
    by_cases ha : s.memoryAddress = UINT32_MAX - 1
    · rw [show (frameTaken s crc).memoryAddress = s.memoryAddress from rfl, if_pos ha]
      rfl
    · rw [show (frameTaken s crc).memoryAddress = s.memoryAddress from rfl, if_neg ha]
      rfl


theorem bootloaderInit_pointer {W : Type} (env : Board W) (s : Session W) :
    (bootloaderInit env s).validApplicationTag
      = add32 (sub32 (FLASH_APP_END_ADDRESS env) 4) 1 := by
  unfold bootloaderInit
  dsimp only
  by_cases h : s.bootloaderTag ≠ JUMP_FROM_APPLICATION_TAG_VALUE
    ∧ env.load32 s.world (add32 (sub32 (FLASH_APP_END_ADDRESS env) 4) 1) = VALID_FIRMWARE_VALUE
  · rw [if_pos h]; rfl
  · rw [if_neg h]
/-- With `FLASH_END` the last byte of the last page, the address `FLASH_END - FLASH_PAGE_SIZE`
is the last byte of the page before the last one, and the validity marker at
`FLASH_END - 0x13` lies in the last page. -/
theorem erase_address_page (P E : Nat) (hP : 0x14 ≤ P) (hPE : P ≤ E)
    (halign : (E + 1) % P = 0) :
    (E - P) / P + 1 = (E - 0x13) / P ∧ (E - 0x13) / P = E / P := by
  obtain ⟨k, hk⟩ := Nat.dvd_of_mod_eq_zero halign
  have hpos : 0 < P := by omega
  match k, hk with
  | 0, hk => simp at hk
  | 1, hk => simp at hk; omega
  | j + 2, hk =>
    have e1 : E - P = P * j + (P - 1) := by
      have : P * (j + 2) = P * j + 2 * P := by ring
      omega
    have e2 : E - 0x13 = P * (j + 1) + (P - 0x14) := by
      have : P * (j + 2) = P * (j + 1) + P := by ring
      omega
    have e3 : E = P * (j + 1) + (P - 1) := by
      have : P * (j + 2) = P * (j + 1) + P := by ring
      omega
    have d1 : (P * j + (P - 1)) / P = j := by
      rw [Nat.mul_add_div hpos, Nat.div_eq_of_lt (by omega)]; rfl
    have d2 : (P * (j + 1) + (P - 0x14)) / P = j + 1 := by
      rw [Nat.mul_add_div hpos, Nat.div_eq_of_lt (by omega)]
    have d3 : (P * (j + 1) + (P - 1)) / P = j + 1 := by
      rw [Nat.mul_add_div hpos, Nat.div_eq_of_lt (by omega)]
    rw [e1, d1, e2, d2]
    refine ⟨rfl, ?_⟩
    rw [← d3, ← e3]
/-! ## Lemmas on the order of quiesce and jump -/

theorem exitDiscipline_call (t : List Event) (e : Event) (h : ExitDiscipline t)
    (h1 : e ≠ Event.quiesce) (h2 : e ≠ Event.jump) : ExitDiscipline (t ++ [e]) := by
  intro i hi
  rw [List.length_append, List.length_singleton] at hi
  rcases Nat.lt_or_ge i t.length with hlt | hge
  · obtain ⟨a, b⟩ := h i hlt
    rw [List.getElem?_append_left hlt]
    constructor
    · intro hj
      obtain ⟨c1, c2, c3⟩ := a hj
      refine ⟨c1, ?_, ?_⟩
      · rw [List.getElem?_append_left (by omega)]; exact c2
      · rw [List.getElem?_append_left (by omega)]; exact c3
    · intro hq
      have hnext := b hq
      have hlt2 : i + 1 < t.length := by
        by_contra hcon
        rw [List.getElem?_eq_none (by omega)] at hnext
        exact Option.noConfusion hnext
      rw [List.getElem?_append_left hlt2]; exact hnext
  · have hi2 : i = t.length := by omega
    subst hi2
    rw [List.getElem?_append_right (Nat.le_refl _), Nat.sub_self]
    constructor
    · intro hj
      exact absurd (Option.some.inj hj) h2
    · intro hq
      exact absurd (Option.some.inj hq) h1

theorem exitDiscipline_exit (t : List Event) (h : ExitDiscipline t) :
    ExitDiscipline (t ++ [Event.bootTagStore 0, Event.quiesce, Event.jump]) := by
  intro i hi
  rw [List.length_append] at hi
  rcases Nat.lt_or_ge i t.length with hlt | hge
  · obtain ⟨a, b⟩ := h i hlt
    rw [List.getElem?_append_left hlt]
    constructor
    · intro hj
      obtain ⟨c1, c2, c3⟩ := a hj
      refine ⟨c1, ?_, ?_⟩
      · rw [List.getElem?_append_left (by omega)]; exact c2
      · rw [List.getElem?_append_left (by omega)]; exact c3
    · intro hq
      have hnext := b hq
      have hlt2 : i + 1 < t.length := by
        by_contra hcon
        rw [List.getElem?_eq_none (by omega)] at hnext
        exact Option.noConfusion hnext
      rw [List.getElem?_append_left hlt2]; exact hnext
  · have hlen : ([Event.bootTagStore 0, Event.quiesce, Event.jump] : List Event).length = 3 := rfl
    rw [hlen] at hi
    obtain ⟨k, hk, hk3⟩ : ∃ k, i = t.length + k ∧ k < 3 := ⟨i - t.length, by omega, by omega⟩
    subst hk
    rw [List.getElem?_append_right (by omega), Nat.add_sub_cancel_left]
    match k, hk3 with
    | 0, _ =>
      exact ⟨fun hj => absurd (Option.some.inj hj) (fun e => Event.noConfusion e),
        fun hq => absurd (Option.some.inj hq) (fun e => Event.noConfusion e)⟩
    | 1, _ =>
      refine ⟨fun hj => absurd (Option.some.inj hj) (fun e => Event.noConfusion e), fun _ => ?_⟩
      rw [List.getElem?_append_right (by omega)]
      have : t.length + 1 + 1 - t.length = 2 := by omega
      rw [this]; rfl
    | 2, _ =>
      refine ⟨fun _ => ⟨by omega, ?_, ?_⟩,
        fun hq => absurd (Option.some.inj hq) (fun e => Event.noConfusion e)⟩
      · rw [List.getElem?_append_right (by omega)]
        have : t.length + 2 - 1 - t.length = 1 := by omega
        rw [this]; rfl
      · rw [List.getElem?_append_right (by omega)]
        have : t.length + 2 - 2 - t.length = 0 := by omega
        rw [this]; rfl

theorem growsInOrder_discipline (a b : List Event) (h : GrowsInOrder a b)
    (ha : ExitDiscipline a) : ExitDiscipline b := by
  induction h with
  | same => exact ha
  | call b e _ h1 h2 ih => exact exitDiscipline_call b e ih h1 h2
  | exit b _ ih => exact exitDiscipline_exit b ih

theorem growsInOrder_trans (a b c : List Event) (h1 : GrowsInOrder a b)
    (h2 : GrowsInOrder b c) : GrowsInOrder a c := by
  induction h2 with
  | same => exact h1
  | call c e _ g1 g2 ih => exact GrowsInOrder.call c e ih g1 g2
  | exit c _ ih => exact GrowsInOrder.exit c ih
theorem leaveBootloader_grows {W : Type} (env : Board W) (s : Session W) :
    GrowsInOrder s.trace (leaveBootloader env s).trace :=
  GrowsInOrder.exit _ GrowsInOrder.same

theorem executeCommand_grows {W : Type} (env : Board W) (code : Nat) (data : List Nat)
    (a l : Nat) (s : Session W) :
    GrowsInOrder s.trace (executeCommand env code data a l s).session.trace := by
  unfold executeCommand
  simp only [apply_ite Executed.session, apply_ite Session.trace,
    apply_ite (GrowsInOrder s.trace)]
  split_ifs <;>
    first
    | exact GrowsInOrder.same
    | exact GrowsInOrder.call _ _ GrowsInOrder.same (fun e => Event.noConfusion e)
        (fun e => Event.noConfusion e)
    | exact leaveBootloader_grows env s

theorem sendData_grows {W : Type} (data : List Nat) (n : Nat) (s : Session W) :
    GrowsInOrder s.trace (sendData data n s).trace :=
  GrowsInOrder.call _ _ GrowsInOrder.same (fun e => Event.noConfusion e)
    (fun e => Event.noConfusion e)

theorem receiveData_grows {W : Type} (len flags : Nat) (s : Session W) :
    GrowsInOrder s.trace (receiveData len flags s).2.trace := by
  unfold receiveData
  split
  · exact GrowsInOrder.call _ _ GrowsInOrder.same (fun e => Event.noConfusion e)
      (fun e => Event.noConfusion e)
  · split_ifs <;> exact GrowsInOrder.same

theorem handleProtocolError_grows {W : Type} (r : RECEIVED_DATA_TYPE) (n : Bool)
    (s : Session W) : GrowsInOrder s.trace (handleProtocolError r n s).trace := by
  unfold handleProtocolError
  split
  · split_ifs
    · exact GrowsInOrder.call _ _ GrowsInOrder.same (fun e => Event.noConfusion e)
        (fun e => Event.noConfusion e)
    · exact GrowsInOrder.same
  · exact GrowsInOrder.same
  · exact GrowsInOrder.same

theorem idleExit_grows {W : Type} (env : Board W) (s : Session W) :
    GrowsInOrder s.trace (idleExit env s).trace := by
  rcases idleExit_cases env s with h | h <;> rw [h]
  · exact GrowsInOrder.same
  · exact leaveBootloader_grows env s

theorem bootloaderInit_grows {W : Type} (env : Board W) (s : Session W) :
    GrowsInOrder s.trace (bootloaderInit env s).trace := by
  unfold bootloaderInit
  dsimp only
  split_ifs
  · exact GrowsInOrder.exit _ GrowsInOrder.same
  · exact GrowsInOrder.same

theorem bootloaderTimer_trace {W : Type} (s : Session W) :
    (bootloaderTimer s).trace = s.trace :=
  (bootloaderTimer_fields s).2.2.2

theorem bootloaderRxCompletedCallback_grows {W : Type} (c : Nat) (s : Session W) :
    GrowsInOrder s.trace (bootloaderRxCompletedCallback c s).trace := by
  unfold bootloaderRxCompletedCallback
  dsimp only
  split_ifs <;>
    first
    | exact GrowsInOrder.same
    | exact GrowsInOrder.call _ _ GrowsInOrder.same (fun e => Event.noConfusion e)
        (fun e => Event.noConfusion e)
theorem growsInOrder_sent {W : Type} (a : List Event) (data : List Nat) (n : Nat)
    (s : Session W) (h : GrowsInOrder a s.trace) : GrowsInOrder a (sendData data n s).trace :=
  growsInOrder_trans _ _ _ h (sendData_grows data n s)

theorem growsInOrder_executed {W : Type} (a : List Event) (env : Board W) (code : Nat)
    (data : List Nat) (x l : Nat) (s : Session W) (h : GrowsInOrder a s.trace) :
    GrowsInOrder a (executeCommand env code data x l s).session.trace :=
  growsInOrder_trans _ _ _ h (executeCommand_grows env code data x l s)

theorem dispatchCommand_grows {W : Type} (env : Board W) (s : Session W) :
    GrowsInOrder s.trace (dispatchCommand env s).trace := by
  have hs : GrowsInOrder s.trace (sendConfirmation ACK s).trace := sendData_grows _ _ s
  simp only [dispatchCommand, apply_ite Session.trace, apply_ite (GrowsInOrder s.trace)]
  split_ifs
  · exact hs
  · exact hs
  · exact growsInOrder_sent _ _ _ _ (growsInOrder_executed _ env _ _ _ _ _ hs)
  · exact growsInOrder_sent _ _ _ _ (growsInOrder_executed _ env _ _ _ _ _ hs)
  · exact hs
  · exact hs
  · exact growsInOrder_sent _ _ _ _ (growsInOrder_executed _ env _ _ _ _ _ hs)
  · exact sendData_grows _ _ s

theorem writeAddressReceived_grows {W : Type} (s : Session W) :
    GrowsInOrder s.trace (writeAddressReceived s).trace :=
  sendData_grows [ACK] 1 _

theorem writeLengthReceived_grows {W : Type} (s : Session W) :
    GrowsInOrder s.trace (writeLengthReceived s).trace :=
  GrowsInOrder.same

theorem writeDataReceived_grows {W : Type} (env : Board W) (s : Session W) :
    GrowsInOrder s.trace (writeDataReceived env s).trace :=
  growsInOrder_sent _ [ACK] 1 _
    (growsInOrder_executed _ env WRITE_BOOTLOADER_COMMAND s.transmitBuffer s.memoryAddress
      s.segmentDataLength s GrowsInOrder.same)

theorem readAddressReceived_grows {W : Type} (s : Session W) :
    GrowsInOrder s.trace (readAddressReceived s).trace :=
  sendData_grows [ACK] 1 _

theorem readLengthReceived_grows {W : Type} (env : Board W) (s : Session W) :
    GrowsInOrder s.trace (readLengthReceived env s).trace :=
  growsInOrder_sent _ _ _ _ (growsInOrder_sent _ [ACK] 1 _
    (growsInOrder_executed _ env READ_BOOTLOADER_COMMAND _ _ _
      { s with segmentDataLength := s.transmitBuffer.getD 0 0 + 1 } GrowsInOrder.same))

theorem eraseModeReceived_grows {W : Type} (s : Session W) :
    GrowsInOrder s.trace (eraseModeReceived s).trace := by
  rw [(eraseModeReceived_fields s).2.1]
  exact GrowsInOrder.same

theorem erasePagesReceived_grows {W : Type} (s : Session W) :
    GrowsInOrder s.trace (erasePagesReceived s).trace :=
  GrowsInOrder.same

theorem eraseCrcReceived_grows {W : Type} (env : Board W) (s : Session W) :
    GrowsInOrder s.trace (eraseCrcReceived env s).trace := by
  unfold eraseCrcReceived
  exact growsInOrder_sent _ _ 1 _
    (growsInOrder_executed _ env EXTERASE_BOOTLOADER_COMMAND _ 0 0 _ GrowsInOrder.same)

theorem goAddressReceived_grows {W : Type} (env : Board W) (s : Session W) :
    GrowsInOrder s.trace (goAddressReceived env s).trace := by
  have key := growsInOrder_executed s.trace env GO_BOOTLOADER_COMMAND
    s.transmitBuffer (memoryAddressFromTransmitBuffer s) 0
    (sendConfirmation
      (if env.load32 s.world s.validApplicationTag = VALID_FIRMWARE_VALUE then ACK else NACK)
      { s with memoryAddress := memoryAddressFromTransmitBuffer s }) (sendData_grows _ _ _)
  unfold goAddressReceived
  by_cases hrun : (executeCommand env GO_BOOTLOADER_COMMAND
    s.transmitBuffer (memoryAddressFromTransmitBuffer s) 0
    (sendConfirmation
      (if env.load32 s.world s.validApplicationTag = VALID_FIRMWARE_VALUE then ACK else NACK)
      { s with memoryAddress := memoryAddressFromTransmitBuffer s })).session.running = true
  · exact (congrArg (fun t : Session W => GrowsInOrder s.trace t.trace) (if_pos hrun)).mpr key
  · exact (congrArg (fun t : Session W => GrowsInOrder s.trace t.trace) (if_neg hrun)).mpr key

theorem randomizeResponseReceived_grows {W : Type} (env : Board W) (s : Session W) :
    GrowsInOrder s.trace (randomizeResponseReceived env s).trace := by
  unfold randomizeResponseReceived
  exact growsInOrder_sent _ _ 1 _
    (growsInOrder_executed _ env AUTHORIZE_HOST_COMMAND _ 0 _ _ GrowsInOrder.same)
theorem protocolSwitch_grows {W : Type} (env : Board W) (s : Session W) :
    GrowsInOrder s.trace (protocolSwitch env s).session.trace := by
  have hr : ∀ len flags, GrowsInOrder s.trace (receiveData len flags s).2.trace :=
    fun len flags => receiveData_grows len flags s
  have hb : ∀ (len flags : Nat) (ce : Bool) (body : Session W → Session W),
      (∀ t, GrowsInOrder t.trace (body t).trace) →
      GrowsInOrder s.trace (onField (receiveData len flags s) ce body).session.trace :=
    fun len flags ce body hbody =>
      onField_session (fun t => GrowsInOrder s.trace t.trace) _ ce body (hr len flags)
        (growsInOrder_trans _ _ _ (hr len flags) (hbody _))
  unfold protocolSwitch
  split
  · exact hb _ _ _ _ (dispatchCommand_grows env)
  · exact hb _ _ _ _ writeAddressReceived_grows
  · exact hb _ _ _ _ writeLengthReceived_grows
  · exact hb _ _ _ _ (writeDataReceived_grows env)
  · exact hb _ _ _ _ readAddressReceived_grows
  · exact hb _ _ _ _ (readLengthReceived_grows env)
  · exact hb _ _ _ _ eraseModeReceived_grows
  · exact hb _ _ _ _ erasePagesReceived_grows
  · exact hb _ _ _ _ (eraseCrcReceived_grows env)
  · exact hb _ _ _ _ (goAddressReceived_grows env)
  · exact hb _ _ _ _ (randomizeResponseReceived_grows env)

theorem bootloaderHandler_grows {W : Type} (env : Board W) (s : Session W) :
    GrowsInOrder s.trace (bootloaderHandler env s).trace := by
  have hp := protocolSwitch_grows env s
  unfold bootloaderHandler
  dsimp only
  split_ifs
  · exact growsInOrder_trans _ _ _
      (growsInOrder_trans _ _ _ hp (handleProtocolError_grows _ _ _)) (idleExit_grows env _)
  · exact growsInOrder_trans _ _ _ hp (idleExit_grows env _)
  · exact hp

theorem step_grows {W : Type} (env : Board W) (s t : Session W) (h : Step env s t) :
    GrowsInOrder s.trace t.trace := by
  cases h with
  | poll _ => exact bootloaderHandler_grows env s
  | tick _ => rw [bootloaderTimer_trace]; exact GrowsInOrder.same
  | received c _ _ _ => exact bootloaderRxCompletedCallback_grows c s
  | transmitted _ => exact GrowsInOrder.same

theorem run_grows {W : Type} (env : Board W) (s t : Session W)
    (h : Relation.ReflTransGen (Step env) s t) : GrowsInOrder s.trace t.trace := by
  induction h with
  | refl => exact GrowsInOrder.same
  | tail _ hstep ih => exact growsInOrder_trans _ _ _ ih (step_grows env _ _ hstep)
/-! ## Lemmas on the idle exit -/

theorem jumpCount_append (a b : List Event) :
    jumpCount (a ++ b) = jumpCount a + jumpCount b := by
  unfold jumpCount
  exact List.count_append _ _ _

/-- With no completed frame waiting, `receiveData` reports no data or a timeout and touches
neither the idle-exit counter nor the flash nor the jump count. -/
theorem receiveData_quiet {W : Type} (len flags : Nat) (s : Session W)
    (h : s.rxDataReady = false) :
    ((receiveData len flags s).1 = RECEIVED_DATA_TYPE.NO_RECEIVED_DATA_TYPE
      ∨ (receiveData len flags s).1 = RECEIVED_DATA_TYPE.TIMEOUT_RECEIVED_DATA_TYPE)
    ∧ (receiveData len flags s).2.running = s.running
    ∧ (receiveData len flags s).2.rxDataReady = false
    ∧ (receiveData len flags s).2.bootloaderExitTimeout = s.bootloaderExitTimeout
    ∧ (receiveData len flags s).2.world = s.world
    ∧ (receiveData len flags s).2.validApplicationTag = s.validApplicationTag
    ∧ jumpCount (receiveData len flags s).2.trace = jumpCount s.trace := by
  unfold receiveData
  split
  · refine ⟨Or.inl rfl, rfl, rfl, rfl, rfl, rfl, ?_⟩
    show jumpCount (s.trace ++ [Event.receiveArm]) = _
    rw [jumpCount_append]
    rfl
  · rw [if_neg (by rw [h]; decide)]
    by_cases ht : s.rxFrameTimeout = 0
    · rw [if_pos ht]
      exact ⟨Or.inr rfl, rfl, h, rfl, rfl, rfl, rfl⟩
    · rw [if_neg ht]
      exact ⟨Or.inl rfl, rfl, h, rfl, rfl, rfl, rfl⟩

theorem handleProtocolError_quiet {W : Type} (r : RECEIVED_DATA_TYPE) (ce : Bool)
    (t : Session W)
    (hr : r = RECEIVED_DATA_TYPE.NO_RECEIVED_DATA_TYPE
      ∨ r = RECEIVED_DATA_TYPE.TIMEOUT_RECEIVED_DATA_TYPE) :
    (handleProtocolError r ce t).running = t.running
    ∧ (handleProtocolError r ce t).rxDataReady = t.rxDataReady
    ∧ (handleProtocolError r ce t).bootloaderExitTimeout = t.bootloaderExitTimeout
    ∧ (handleProtocolError r ce t).world = t.world
    ∧ (handleProtocolError r ce t).validApplicationTag = t.validApplicationTag
    ∧ (handleProtocolError r ce t).trace = t.trace := by
  rcases hr with h | h <;> rw [h] <;> exact ⟨rfl, rfl, rfl, rfl, rfl, rfl⟩

/-- A poll with no completed frame waiting is the idle exit applied to a session that
still has the same idle-exit counter, flash contents and jump count. -/
theorem poll_quiet {W : Type} (env : Board W) (s : Session W) (hrun : s.running = true)
    (hquiet : s.rxDataReady = false) :
    ∃ t : Session W, bootloaderHandler env s = idleExit env t
      ∧ t.running = true ∧ t.rxDataReady = false
      ∧ t.bootloaderExitTimeout = s.bootloaderExitTimeout ∧ t.world = s.world
      ∧ t.validApplicationTag = s.validApplicationTag
      ∧ jumpCount t.trace = jumpCount s.trace := by
  obtain ⟨len, flags, ce, body, hsw⟩ := protocolSwitch_shape env s
  obtain ⟨q1, q2, q3, q4, q5, q6, q7⟩ := receiveData_quiet len flags s hquiet
  have hne : (receiveData len flags s).1 ≠ RECEIVED_DATA_TYPE.VALID_RECEIVED_DATA_TYPE := by
    rcases q1 with h | h <;> rw [h] <;> decide
  rw [onField_skipped _ _ _ hne] at hsw
  obtain ⟨e1, e2, e3, e4, e5, e6⟩ :=
    handleProtocolError_quiet (receiveData len flags s).1 ce (receiveData len flags s).2 q1
  refine ⟨handleProtocolError (receiveData len flags s).1 ce (receiveData len flags s).2,
    bootloaderHandler_of_other env s _ ce _ hne (q2.trans hrun) hsw,
    e1.trans (q2.trans hrun), e2.trans q3, e3.trans q4, e4.trans q5, e5.trans q6, ?_⟩
  rw [e6, q7]
theorem polls_stopped {W : Type} (env : Board W) (n : Nat) (s : Session W)
    (h : s.running = false) : polls env n s = s := by
  cases n with
  | zero => rfl
  | succ n =>
    show (if s.running = true then polls env n (bootloaderHandler env s) else s) = s
    rw [if_neg (by rw [h]; decide)]

theorem polls_succ {W : Type} (env : Board W) (n : Nat) (s : Session W)
    (h : s.running = true) : polls env (n + 1) s = polls env n (bootloaderHandler env s) := by
  show (if s.running = true then polls env n (bootloaderHandler env s) else s) = _
  rw [if_pos h]

theorem jumpCount_leaveBootloader {W : Type} (env : Board W) (t : Session W) :
    jumpCount (leaveBootloader env t).trace = jumpCount t.trace + 1 := by
  show jumpCount (t.trace ++ [Event.bootTagStore 0, Event.quiesce, Event.jump]) = _
  rw [jumpCount_append]
  rfl

/-- A poll with the idle-exit counter at zero and no completed frame waiting: with a valid
marker it leaves the bootloader, with any other marker it keeps everything the idle exit
depends on. -/
theorem poll_idle {W : Type} (env : Board W) (s : Session W) (hrun : s.running = true)
    (hzero : s.bootloaderExitTimeout = 0) (hquiet : s.rxDataReady = false) :
    (bootloaderHandler env s).rxDataReady = false
    ∧ (bootloaderHandler env s).bootloaderExitTimeout = 0
    ∧ (bootloaderHandler env s).world = s.world
    ∧ (bootloaderHandler env s).validApplicationTag = s.validApplicationTag
    ∧ (env.load32 s.world s.validApplicationTag = VALID_FIRMWARE_VALUE →
        jumpCount (bootloaderHandler env s).trace = jumpCount s.trace + 1
        ∧ (bootloaderHandler env s).running = env.jumpReturns s.world)
    ∧ (env.load32 s.world s.validApplicationTag ≠ VALID_FIRMWARE_VALUE →
        jumpCount (bootloaderHandler env s).trace = jumpCount s.trace
        ∧ (bootloaderHandler env s).running = true) := by
  obtain ⟨t, h, t1, t2, t3, t4, t5, t6⟩ := poll_quiet env s hrun hquiet
  rw [h, idleExit_eq, t3, t4, t5]
  by_cases hm : env.load32 s.world s.validApplicationTag = VALID_FIRMWARE_VALUE
  · rw [if_pos ⟨hzero, hm⟩]
    refine ⟨t2, t3.trans hzero, t4, t5, fun _ => ⟨?_, ?_⟩, fun hne => absurd hm hne⟩
    · rw [jumpCount_leaveBootloader, t6]
    · show env.jumpReturns t.world = _
      rw [t4]
  · rw [if_neg (fun hc => hm hc.2)]
    exact ⟨t2, t3.trans hzero, t4, t5, fun hv => absurd hv hm, fun _ => ⟨t6, t1⟩⟩

theorem polls_idle_invalid {W : Type} (env : Board W) (n : Nat) :
    ∀ s : Session W, s.running = true → s.bootloaderExitTimeout = 0 → s.rxDataReady = false →
      env.load32 s.world s.validApplicationTag ≠ VALID_FIRMWARE_VALUE →
      jumpCount (polls env n s).trace = jumpCount s.trace := by
  induction n with
  | zero => intro s _ _ _ _; rfl
  | succ n ih =>
    intro s hrun hzero hquiet hm
    obtain ⟨p1, p2, p3, p4, -, p6⟩ := poll_idle env s hrun hzero hquiet
    obtain ⟨q1, q2⟩ := p6 hm
    rw [polls_succ env n s hrun, ih _ q2 p2 p1 (by rw [p3, p4]; exact hm), q1]

theorem polls_idle_returning {W : Type} (env : Board W) (n : Nat) :
    ∀ s : Session W, s.running = true → s.bootloaderExitTimeout = 0 → s.rxDataReady = false →
      env.load32 s.world s.validApplicationTag = VALID_FIRMWARE_VALUE →
      env.jumpReturns s.world = true →
      jumpCount (polls env n s).trace = jumpCount s.trace + n := by
  induction n with
  | zero => intro s _ _ _ _ _; rfl
  | succ n ih =>
    intro s hrun hzero hquiet hm hret
    obtain ⟨p1, p2, p3, p4, p5, -⟩ := poll_idle env s hrun hzero hquiet
    obtain ⟨q1, q2⟩ := p5 hm
    rw [polls_succ env n s hrun,
      ih _ (q2.trans hret) p2 p1 (by rw [p3, p4]; exact hm) (by rw [p3]; exact hret), q1]
    omega

/-- The timer ticked `n` times with nothing else happening in between. -/
theorem bootloaderTimer_iterate {W : Type} (n : Nat) :
    ∀ s : Session W, s.randomValueSeed < 4294967296 →
      bootloaderTimer^[n] s
        = { s with
            rxFrameTimeout := s.rxFrameTimeout - n
            bootloaderExitTimeout := s.bootloaderExitTimeout - n
            randomValueSeed := (s.randomValueSeed + n) % 4294967296 } := by
  induction n with
  | zero =>
    intro s hs
    show s = _
    rw [Nat.sub_zero, Nat.sub_zero, Nat.add_zero, Nat.mod_eq_of_lt hs]
  | succ n ih =>
    intro s hs
    rw [Function.iterate_succ_apply', ih s hs]
    unfold bootloaderTimer
    dsimp only
    have e1 : (s.randomValueSeed + n) % 4294967296 + 1 ≡ s.randomValueSeed + (n + 1)
        [MOD 4294967296] := by
      show _ % _ = _ % _
      omega
    have e1' : ((s.randomValueSeed + n) % 4294967296 + 1) % 4294967296
        = (s.randomValueSeed + (n + 1)) % 4294967296 := e1
    by_cases h1 : s.rxFrameTimeout - n > 0 <;> by_cases h2 : s.bootloaderExitTimeout - n > 0
    · rw [if_pos h1]; dsimp only; rw [if_pos h2]; dsimp only; rw [e1']
      congr 1
    · rw [if_pos h1]; dsimp only; rw [if_neg h2]; dsimp only; rw [e1']
      congr 1
      omega
    · rw [if_neg h1]; dsimp only; rw [if_pos h2]; dsimp only; rw [e1']
      congr 1
      omega
    · rw [if_neg h1]; dsimp only; rw [if_neg h2]; dsimp only; rw [e1']
      congr 1 <;> omega
/-! ## Lemmas on a field taken with other flags -/

/-- A completed frame taken without `CALCULATE_CRC_FLAG`: always VALID, and the running CRC
is carried over all bytes of the frame. -/
theorem receiveData_unchecked {W : Type} (s : Session W) (frame : List Nat) (len flags : Nat)
    (hf : flags &&& CALCULATE_CRC_FLAG = 0) (hc : FrameCompleted s frame) :
    receiveData len flags s
      = (RECEIVED_DATA_TYPE.VALID_RECEIVED_DATA_TYPE,
        frameTaken s
          (crcFold (if flags &&& INIT_CRC_FLAG ≠ 0 then 0 else s.receivedDataCRC) frame)) := by
  obtain ⟨rest, h4⟩ := frameCompleted_buffer s frame hc
  obtain ⟨h1, h2, h3, _⟩ := hc
  have hcrc : ∀ c, crcOverBuffer s.transmitBuffer s.expectedDataLength c = crcFold c frame := by
    intro c
    rw [h3, h4, crcOverBuffer_frame frame rest _ frame.length (Nat.le_refl _), List.take_length]
  unfold receiveData
  rw [h1]
  dsimp only
  rw [if_pos h2, if_neg (fun h => h hf), hcrc]
  rfl

/-- A completed frame `payload ++ [hi, lo]` taken with `CALCULATE_CRC_FLAG`: the running CRC
is carried over the payload and compared with the trailer. -/
theorem receiveData_checked {W : Type} (s : Session W) (payload : List Nat)
    (hi lo len flags : Nat) (hf : flags &&& CALCULATE_CRC_FLAG ≠ 0) (hhi : hi < 256)
    (hlo : lo < 256) (hc : FrameCompleted s (payload ++ [hi, lo])) :
    receiveData len flags s
      = (if crcFold (if flags &&& INIT_CRC_FLAG ≠ 0 then 0 else s.receivedDataCRC) payload
            ≠ hi * 256 + lo
          then RECEIVED_DATA_TYPE.INVALID_RECEIVED_DATA_TYPE
          else RECEIVED_DATA_TYPE.VALID_RECEIVED_DATA_TYPE,
        frameTaken s
          (crcFold (if flags &&& INIT_CRC_FLAG ≠ 0 then 0 else s.receivedDataCRC) payload)) := by
  obtain ⟨rest, h4⟩ := frameCompleted_buffer s _ hc
  obtain ⟨h1, h2, h3, _⟩ := hc
  obtain ⟨t1, t2, t3, t4⟩ := frame_with_trailer payload hi lo
  have hlen : 2 ≤ (payload ++ [hi, lo]).length := by simp
  have hmod : (hi * 256 + lo) % 65536 = hi * 256 + lo := Nat.mod_eq_of_lt (by omega)
  have hcrc : ∀ c, crcOverBuffer s.transmitBuffer (s.expectedDataLength - CRC_LENGTH) c
      = crcFold c payload := by
    intro c
    rw [h3, h4, crcOverBuffer_frame _ rest _ _ (show (payload ++ [hi, lo]).length - CRC_LENGTH
      ≤ (payload ++ [hi, lo]).length from Nat.sub_le _ _)]
    rw [show (payload ++ [hi, lo]).length - CRC_LENGTH = (payload ++ [hi, lo]).length - 2
      from rfl, t2]
  have htrail : (s.transmitBuffer.getD (s.expectedDataLength - 2) 0 * 256
      + s.transmitBuffer.getD (s.expectedDataLength - 1) 0) % 65536 = hi * 256 + lo := by
    rw [h3, h4, getD_frame _ rest _ (by omega), getD_frame _ rest _ (by omega), t3, t4, hmod]
  unfold receiveData
  rw [h1]
  dsimp only
  rw [if_pos h2, if_pos hf, hcrc, htrail]
  rfl
/-! ## Lemmas on a field received between two polls -/

theorem sameCommand_refl {W : Type} (u : Session W) : SameCommand u u :=
  ⟨rfl, rfl, rfl, rfl, rfl, rfl, rfl, rfl, rfl, rfl, rfl⟩

theorem sameCommand_trans {W : Type} (u v w : Session W) (h1 : SameCommand u v)
    (h2 : SameCommand v w) : SameCommand u w := by
  obtain ⟨a1, a2, a3, a4, a5, a6, a7, a8, a9, a10, a11⟩ := h1
  obtain ⟨b1, b2, b3, b4, b5, b6, b7, b8, b9, b10, b11⟩ := h2
  exact ⟨b1.trans a1, b2.trans a2, b3.trans a3, b4.trans a4, b5.trans a5, b6.trans a6,
    b7.trans a7, b8.trans a8, b9.trans a9, b10.trans a10, b11.trans a11⟩

theorem transmitted_armed (t : List Event) :
    transmitted (t ++ [Event.receiveArm]) = transmitted t := by
  rw [transmitted_append]; simp [transmitted]

theorem flashCalls_armed (t : List Event) :
    flashCalls (t ++ [Event.receiveArm]) = flashCalls t := by
  rw [flashCalls_append]; simp [flashCalls]

theorem callback_sameCommand {W : Type} (c : Nat) (u : Session W) :
    SameCommand u (bootloaderRxCompletedCallback c u)
    ∧ (bootloaderRxCompletedCallback c u).bootloaderExitTimeout = BOOTLOADER_TIMEOUT_MS := by
  unfold bootloaderRxCompletedCallback
  dsimp only
  split_ifs <;>
    first
    | exact ⟨⟨rfl, rfl, rfl, rfl, rfl, rfl, rfl, rfl, List.length_set _ _ _, rfl, rfl⟩, rfl⟩
    | exact ⟨⟨rfl, rfl, rfl, rfl, rfl, rfl, rfl, rfl, List.length_set _ _ _,
        transmitted_armed _, flashCalls_armed _⟩, rfl⟩

theorem deliver_cons {W : Type} (c : Nat) (rest : List Nat) (u : Session W) :
    deliver (c :: rest) u = deliver rest (bootloaderRxCompletedCallback c u) := rfl

theorem deliver_sameCommand {W : Type} (bytes : List Nat) :
    ∀ u : Session W, SameCommand u (deliver bytes u)
      ∧ (bytes ≠ [] → (deliver bytes u).bootloaderExitTimeout = BOOTLOADER_TIMEOUT_MS) := by
  induction bytes with
  | nil => intro u; exact ⟨sameCommand_refl u, fun h => absurd rfl h⟩
  | cons c rest ih =>
    intro u
    obtain ⟨k1, k2⟩ := callback_sameCommand c u
    obtain ⟨i1, i2⟩ := ih (bootloaderRxCompletedCallback c u)
    rw [deliver_cons]
    refine ⟨sameCommand_trans _ _ _ k1 i1, fun _ => ?_⟩
    cases rest with
    | nil => exact k2
    | cons d rest' => exact i2 (List.cons_ne_nil d rest')

/-- The poll that starts the receive of a field: only the receive engine is touched. -/
theorem poll_arms {W : Type} (env : Board W) (s : Session W) (len flags : Nat) (ce : Bool)
    (body : Session W → Session W) (hs : AwaitingField s)
    (hsw : protocolSwitch env s = onField (receiveData len flags s) ce body) :
    bootloaderHandler env s = (receiveData len flags s).2
    ∧ SameCommand s (receiveData len flags s).2 := by
  obtain ⟨h1, h2, h3, h4, h5⟩ := hs
  have hstart : receiveData len flags s
      = (RECEIVED_DATA_TYPE.NO_RECEIVED_DATA_TYPE,
        { s with
          expectedDataLength := len
          rxFrameTimeout := RX_TIMEOUT_MS
          receiveState := RECEIVE_STATE.WAIT_FOR_DATA_RECEIVE_STATE
          rxDataReady := false
          rxArmed := true
          trace := s.trace ++ [Event.receiveArm] }) := by
    unfold receiveData
    rw [h2]
  have hfst : (receiveData len flags s).1 = RECEIVED_DATA_TYPE.NO_RECEIVED_DATA_TYPE := by
    rw [hstart]
  have hrun : (receiveData len flags s).2.running = true := by
    rw [hstart]; exact h1
  have hexit : (receiveData len flags s).2.bootloaderExitTimeout ≠ 0 := by
    rw [hstart]; exact h5
  have hne : (receiveData len flags s).1 ≠ RECEIVED_DATA_TYPE.VALID_RECEIVED_DATA_TYPE := by
    rw [hfst]; decide
  rw [onField_skipped _ ce body hne] at hsw
  rw [bootloaderHandler_of_other env s (receiveData len flags s).2 ce
    (receiveData len flags s).1 hne hrun hsw, hfst, idleExit_eq]
  constructor
  · rw [if_neg]
    · rfl
    · intro hc
      exact hexit hc.1
  · rw [hstart]
    exact ⟨rfl, rfl, rfl, rfl, rfl, rfl, rfl, rfl, rfl, transmitted_armed _,
      flashCalls_armed _⟩

/-- A field of `len` bytes received right after the poll that starts its receive: the next
poll finds it as a completed frame, with the command in progress untouched. -/
theorem pollFrame_arrives {W : Type} (env : Board W) (s : Session W) (frame : List Nat)
    (flags : Nat) (ce : Bool) (body : Session W → Session W) (hs : AwaitingField s)
    (hsw : protocolSwitch env s = onField (receiveData frame.length flags s) ce body)
    (hlo : 1 ≤ frame.length) (hhi : frame.length ≤ RX_BUFFER_SIZE) :
    ∃ u : Session W, pollFrame env frame s = bootloaderHandler env u
      ∧ FrameCompleted u frame ∧ SameCommand s u
      ∧ u.bootloaderExitTimeout = BOOTLOADER_TIMEOUT_MS := by
  obtain ⟨p1, p2⟩ := poll_arms env s frame.length flags ce body hs hsw
  obtain ⟨d1, d2⟩ := deliver_sameCommand frame (receiveData frame.length flags s).2
  refine ⟨deliver frame (receiveData frame.length flags s).2, ?_,
    deliver_completes s frame flags hs.2.1 hs.2.2.1 hs.2.2.2.1 hlo hhi,
    sameCommand_trans _ _ _ p2 d1, d2 ?_⟩
  · unfold pollFrame
    rw [p1]
  · intro h
    rw [h] at hlo
    exact absurd hlo (by decide)
/-- A poll that takes a valid field while the idle-exit counter has not run out is the body
of the `case`. -/
theorem poll_takes {W : Type} (env : Board W) (u t : Session W) (ce : Bool)
    (hsw : protocolSwitch env u = ⟨RECEIVED_DATA_TYPE.VALID_RECEIVED_DATA_TYPE, ce, t⟩)
    (hexit : t.bootloaderExitTimeout ≠ 0) : bootloaderHandler env u = t := by
  rw [bootloaderHandler_of_valid env u t ce hsw]
  by_cases hrun : t.running = true
  · rw [if_pos hrun, idleExit_eq, if_neg (fun hc => hexit hc.1)]
  · rw [if_neg hrun]

theorem halfwordOfBuffer_frame (hi lo : Nat) (rest : List Nat) (hhi : hi < 256)
    (hlo : lo < 256) : halfwordOfBuffer ([hi, lo] ++ rest) = hi * 256 + lo := by
  unfold halfwordOfBuffer
  show ((hi * 256) % 65536 + lo) % 65536 = _
  omega

theorem eraseModeReceived_engine {W : Type} (t : Session W) :
    (eraseModeReceived t).receiveState = t.receiveState
    ∧ (eraseModeReceived t).rxPointer = t.rxPointer
    ∧ (eraseModeReceived t).transmitBuffer = t.transmitBuffer
    ∧ (eraseModeReceived t).bootloaderExitTimeout = t.bootloaderExitTimeout
    ∧ (eraseModeReceived t).receivedDataCRC = t.receivedDataCRC := by
  unfold eraseModeReceived
  dsimp only
  split_ifs <;> exact ⟨rfl, rfl, rfl, rfl, rfl⟩

/-- The mode field of an EXTENDED_ERASE, received and taken. -/
theorem erase_mode_step {W : Type} (env : Board W) (s : Session W) (mh ml : Nat)
    (hs : AwaitingField s)
    (hst : s.protocolState = PROTOCOL_STATE.ERASE_COMMAND_RECEIVE_MODE_PROTOCOL_STATE)
    (hmh : mh < 256) (hml : ml < 256) :
    AwaitingField (pollFrame env [mh, ml] s)
    ∧ (pollFrame env [mh, ml] s).protocolState
        = (if mh * 256 + ml < 0xFFF0 then PROTOCOL_STATE.ERASE_COMMAND_RECEIVE_PAGES_NUMBERS
            else PROTOCOL_STATE.ERASE_COMMAND_RECEIVE_CRC)
    ∧ (pollFrame env [mh, ml] s).externalEraseMode = mh * 256 + ml
    ∧ (pollFrame env [mh, ml] s).receivedDataCRC = crcFold 0 [mh, ml]
    ∧ (pollFrame env [mh, ml] s).hostAuthorized = s.hostAuthorized
    ∧ (pollFrame env [mh, ml] s).world = s.world
    ∧ transmitted (pollFrame env [mh, ml] s).trace = transmitted s.trace
    ∧ flashCalls (pollFrame env [mh, ml] s).trace = flashCalls s.trace := by
  obtain ⟨u, hu, hc, ⟨c1, c2, c3, c4, c5, c6, c7, c8, c9, c10, c11⟩, hx⟩ :=
    pollFrame_arrives env s [mh, ml] INIT_CRC_FLAG false eraseModeReceived hs
      (switch_eraseMode env s hst) (show 1 ≤ 2 by decide) (show 2 ≤ RX_BUFFER_SIZE by decide)
  obtain ⟨rest, hbuf⟩ := frameCompleted_buffer u _ hc
  have hsw : protocolSwitch env u
      = ⟨RECEIVED_DATA_TYPE.VALID_RECEIVED_DATA_TYPE, false,
          eraseModeReceived (frameTaken u (crcFold 0 [mh, ml]))⟩ := by
    rw [switch_eraseMode env u (c1.trans hst)]
    unfold caseEraseReceiveMode
    rw [receiveData_unchecked u [mh, ml] _ INIT_CRC_FLAG (by decide) hc]
    exact onField_valid _ _ _ rfl
  obtain ⟨e1, e2, e3, e4, e5⟩ := eraseModeReceived_engine (frameTaken u (crcFold 0 [mh, ml]))
  obtain ⟨f1, f2, f3, f4, f5, f6⟩ := eraseModeReceived_fields (frameTaken u (crcFold 0 [mh, ml]))
  have hhalf : halfwordOfBuffer (frameTaken u (crcFold 0 [mh, ml])).transmitBuffer
      = mh * 256 + ml := by
    show halfwordOfBuffer u.transmitBuffer = _
    rw [hbuf]
    exact halfwordOfBuffer_frame mh ml rest hmh hml
  have hexit : (eraseModeReceived (frameTaken u (crcFold 0 [mh, ml]))).bootloaderExitTimeout
      ≠ 0 := by
    rw [e4]
    show u.bootloaderExitTimeout ≠ 0
    rw [hx]
    decide
  rw [hu, poll_takes env u _ false hsw hexit]
  refine ⟨⟨f6.trans (c6.trans hs.1), e1, e2, ?_, hexit⟩, ?_, ?_, e5, f4.trans c2,
    f5.trans c3, ?_, ?_⟩
  · rw [e3]; exact c9.trans hs.2.2.2.1
  · rw [f1, hhalf]
  · rw [f3, hhalf]
  · rw [f2]; exact c10
  · rw [f2]; exact c11
/-- The page-number field of an EXTENDED_ERASE, received and taken. -/
theorem erase_pages_step {W : Type} (env : Board W) (s : Session W) (ph pl : Nat)
    (hs : AwaitingField s)
    (hst : s.protocolState = PROTOCOL_STATE.ERASE_COMMAND_RECEIVE_PAGES_NUMBERS) :
    AwaitingField (pollFrame env [ph, pl] s)
    ∧ (pollFrame env [ph, pl] s).protocolState = PROTOCOL_STATE.ERASE_COMMAND_RECEIVE_CRC
    ∧ (pollFrame env [ph, pl] s).externalEraseMode = s.externalEraseMode
    ∧ (pollFrame env [ph, pl] s).receivedDataCRC = crcFold s.receivedDataCRC [ph, pl]
    ∧ (pollFrame env [ph, pl] s).hostAuthorized = s.hostAuthorized
    ∧ (pollFrame env [ph, pl] s).world = s.world
    ∧ transmitted (pollFrame env [ph, pl] s).trace = transmitted s.trace
    ∧ flashCalls (pollFrame env [ph, pl] s).trace = flashCalls s.trace := by
  obtain ⟨u, hu, hc, ⟨c1, c2, c3, c4, c5, c6, c7, c8, c9, c10, c11⟩, hx⟩ :=
    pollFrame_arrives env s [ph, pl] 0 false erasePagesReceived hs
      (switch_erasePages env s hst) (show 1 ≤ 2 by decide) (show 2 ≤ RX_BUFFER_SIZE by decide)
  have hsw : protocolSwitch env u
      = ⟨RECEIVED_DATA_TYPE.VALID_RECEIVED_DATA_TYPE, false,
          erasePagesReceived (frameTaken u (crcFold u.receivedDataCRC [ph, pl]))⟩ := by
    rw [switch_erasePages env u (c1.trans hst)]
    unfold caseEraseReceivePages
    rw [receiveData_unchecked u [ph, pl] _ 0 (by decide) hc]
    exact onField_valid _ _ _ rfl
  have hexit : (erasePagesReceived
      (frameTaken u (crcFold u.receivedDataCRC [ph, pl]))).bootloaderExitTimeout ≠ 0 := by
    show u.bootloaderExitTimeout ≠ 0
    rw [hx]
    decide
  rw [hu, poll_takes env u _ false hsw hexit]
  refine ⟨⟨c6.trans hs.1, rfl, rfl, c9.trans hs.2.2.2.1, hexit⟩, rfl, c4, ?_, c2, c3, c10, c11⟩
  show crcFold u.receivedDataCRC [ph, pl] = _
  rw [c5]

/-- The CRC field of an EXTENDED_ERASE that matches the running CRC, received and taken. -/
theorem erase_crc_step {W : Type} (env : Board W) (s : Session W) (ch cl : Nat)
    (hs : AwaitingField s) (hst : s.protocolState = PROTOCOL_STATE.ERASE_COMMAND_RECEIVE_CRC)
    (hmode : s.externalEraseMode < 65536) (hch : ch < 256) (hcl : cl < 256)
    (hcrc : ch * 256 + cl = s.receivedDataCRC) :
    (pollFrame env [ch, cl] s).protocolState = PROTOCOL_STATE.WAIT_FOR_COMMAND_PROTOCOL_STATE
    ∧ transmitted (pollFrame env [ch, cl] s).trace
        = transmitted s.trace
          ++ [[if s.hostAuthorized = true ∧ s.externalEraseMode = 0xFFFF
                  ∧ (env.flash_erase s.world FLASH_APP_START_ADDRESS).1 = FLASH_STATUS_OK
                then ACK else NACK]]
    ∧ flashCalls (pollFrame env [ch, cl] s).trace
        = flashCalls s.trace
          ++ (if s.hostAuthorized = true ∧ s.externalEraseMode = 0xFFFF
              then [Event.flashErase FLASH_APP_START_ADDRESS] else []) := by
  obtain ⟨u, hu, hc, ⟨c1, c2, c3, c4, c5, c6, c7, c8, c9, c10, c11⟩, hx⟩ :=
    pollFrame_arrives env s [ch, cl] CALCULATE_CRC_FLAG false (eraseCrcReceived env) hs
      (switch_eraseCrc env s hst) (show 1 ≤ 2 by decide) (show 2 ≤ RX_BUFFER_SIZE by decide)
  have hsw : protocolSwitch env u
      = ⟨RECEIVED_DATA_TYPE.VALID_RECEIVED_DATA_TYPE, false,
          eraseCrcReceived env (frameTaken u u.receivedDataCRC)⟩ := by
    rw [switch_eraseCrc env u (c1.trans hst)]
    unfold caseEraseReceiveCrc
    rw [receiveData_checked u [] ch cl _ CALCULATE_CRC_FLAG (by decide) hch hcl hc]
    have hv : crcFold (if CALCULATE_CRC_FLAG &&& INIT_CRC_FLAG ≠ 0 then 0
        else u.receivedDataCRC) [] = u.receivedDataCRC := rfl
    rw [hv, if_neg (fun h => h (by rw [c5]; exact hcrc.symm))]
    exact onField_valid _ _ _ rfl
  obtain ⟨a1, a2, a3, -⟩ := afterValid_fields env
    (eraseCrcReceived env (frameTaken u u.receivedDataCRC))
  obtain ⟨g1, g2, -⟩ := eraseCrcReceived_fields env (frameTaken u u.receivedDataCRC)
    (show u.externalEraseMode < 65536 by rw [c4]; exact hmode)
    (show 2 ≤ u.transmitBuffer.length by rw [c9, hs.2.2.2.1]; decide)
  have hA : (frameTaken u u.receivedDataCRC).hostAuthorized = s.hostAuthorized := c2
  have hM : (frameTaken u u.receivedDataCRC).externalEraseMode = s.externalEraseMode := c4
  have hW : (frameTaken u u.receivedDataCRC).world = s.world := c3
  have hT : (frameTaken u u.receivedDataCRC).trace = u.trace := rfl
  rw [hu, bootloaderHandler_of_valid env u _ false hsw, a1, a2, a3, g1, g2, hA, hM, hW, hT]
  refine ⟨rfl, ?_, ?_⟩
  · by_cases ha : s.hostAuthorized = true ∧ s.externalEraseMode = 0xFFFF
    · rw [if_pos ha, transmitted_append, c10]
      by_cases hok : (env.flash_erase s.world FLASH_APP_START_ADDRESS).1 = FLASH_STATUS_OK
      · rw [if_pos hok, if_pos (And.intro ha.1 (And.intro ha.2 hok))]; rfl
      · rw [if_neg hok, if_neg (fun h : s.hostAuthorized = true ∧ s.externalEraseMode = 0xFFFF
          ∧ (env.flash_erase s.world FLASH_APP_START_ADDRESS).1 = FLASH_STATUS_OK => hok h.2.2)]
        rfl
    · rw [if_neg ha, transmitted_append, c10,
        if_neg (fun h : s.hostAuthorized = true ∧ s.externalEraseMode = 0xFFFF
          ∧ (env.flash_erase s.world FLASH_APP_START_ADDRESS).1 = FLASH_STATUS_OK =>
            ha (And.intro h.1 h.2.1))]
      rfl
  · by_cases ha : s.hostAuthorized = true ∧ s.externalEraseMode = 0xFFFF
    · rw [if_pos ha, if_pos ha, flashCalls_append, c11]; rfl
    · rw [if_neg ha, if_neg ha, flashCalls_append, c11]; rfl
theorem dispatchCommand_exterase {W : Type} (env : Board W) (t : Session W)
    (h : t.transmitBuffer.getD 0 0 = EXTERASE_BOOTLOADER_COMMAND) :
    dispatchCommand env t
      = { sendConfirmation ACK t with
          protocolState := PROTOCOL_STATE.ERASE_COMMAND_RECEIVE_MODE_PROTOCOL_STATE } := by
  unfold dispatchCommand
  dsimp only
  rw [h, if_neg (by decide), if_neg (by decide), if_neg (by decide), if_neg (by decide),
    if_pos rfl]

/-- The command frame `44 33 00` of an EXTENDED_ERASE, received and taken. -/
theorem erase_command_step {W : Type} (env : Board W) (s : Session W) (hs : AwaitingField s)
    (hst : s.protocolState = PROTOCOL_STATE.WAIT_FOR_COMMAND_PROTOCOL_STATE) :
    AwaitingField (pollFrame env [0x44, 0x33, 0x00] s)
    ∧ (pollFrame env [0x44, 0x33, 0x00] s).protocolState
        = PROTOCOL_STATE.ERASE_COMMAND_RECEIVE_MODE_PROTOCOL_STATE
    ∧ (pollFrame env [0x44, 0x33, 0x00] s).hostAuthorized = s.hostAuthorized
    ∧ (pollFrame env [0x44, 0x33, 0x00] s).world = s.world
    ∧ transmitted (pollFrame env [0x44, 0x33, 0x00] s).trace = transmitted s.trace ++ [[ACK]]
    ∧ flashCalls (pollFrame env [0x44, 0x33, 0x00] s).trace = flashCalls s.trace := by
  obtain ⟨u, hu, hc, ⟨c1, c2, c3, c4, c5, c6, c7, c8, c9, c10, c11⟩, hx⟩ :=
    pollFrame_arrives env s [0x44, 0x33, 0x00] (INIT_CRC_FLAG ||| CALCULATE_CRC_FLAG) true
      (dispatchCommand env) hs (switch_waitForCommand env s hst) (show 1 ≤ 3 by decide)
      (show 3 ≤ RX_BUFFER_SIZE by decide)
  obtain ⟨rest, hbuf⟩ := frameCompleted_buffer u _ hc
  have hsw := protocolSwitch_valid_field env u [0x44] 0x33 0x00 _ true (dispatchCommand env)
    (switch_waitForCommand env u (c1.trans hst)) (by decide) (by decide) (by decide) hc
    (by decide)
  have hcmd : (frameTaken u (crc16ArcReference [0x44])).transmitBuffer.getD 0 0
      = EXTERASE_BOOTLOADER_COMMAND := by
    show u.transmitBuffer.getD 0 0 = _
    rw [hbuf]
    rfl
  rw [dispatchCommand_exterase env _ hcmd] at hsw
  have hexit : ({ sendConfirmation ACK (frameTaken u (crc16ArcReference [0x44])) with
      protocolState := PROTOCOL_STATE.ERASE_COMMAND_RECEIVE_MODE_PROTOCOL_STATE }
        : Session W).bootloaderExitTimeout ≠ 0 := by
    show u.bootloaderExitTimeout ≠ 0
    rw [hx]
    decide
  rw [hu, poll_takes env u _ true hsw hexit]
  refine ⟨⟨c6.trans hs.1, rfl, rfl, c9.trans hs.2.2.2.1, hexit⟩, rfl, c2, c3, ?_, ?_⟩
  · show transmitted (u.trace ++ [Event.transmit [ACK]]) = _
    rw [transmitted_append, c10]
    rfl
  · show flashCalls (u.trace ++ [Event.transmit [ACK]]) = _
    rw [flashCalls_append, c11]
    simp [flashCalls]

theorem afterFields_nil {W : Type} (env : Board W) (s : Session W) :
    afterFields env [] s = s := rfl

theorem afterFields_cons {W : Type} (env : Board W) (frame : List Nat)
    (frames : List (List Nat)) (s : Session W) :
    afterFields env (frame :: frames) s = afterFields env frames (pollFrame env frame s) := rfl
/-- The three field states of an EXTENDED_ERASE, poll by poll, for fields received as
VALID: the mode state stores the mode and goes on to the page state for a mode below 0xFFF0
and to the CRC state otherwise, the page state keeps the mode and goes on to the CRC state,
neither of them calling the flash driver; in the CRC state the reply is ACK if and only if
the host is authorized, the mode is 0xFFFF and `flash_erase` at 0x08003200 returns
`FLASH_STATUS_OK`, and NACK otherwise; for every mode other than 0xFFFF no flash call is
made and the reply is NACK; the erase, when made, is the only flash call; and the protocol
state returns to `WAIT_FOR_COMMAND_PROTOCOL_STATE`. -/
theorem erase_states_valid {W : Type} (env : Board W) (s : Session W)
    (hbuf : s.transmitBuffer.length = RX_BUFFER_SIZE)
    (hvalid : (protocolSwitch env s).receiveResult
      = RECEIVED_DATA_TYPE.VALID_RECEIVED_DATA_TYPE) :
    (s.protocolState = PROTOCOL_STATE.ERASE_COMMAND_RECEIVE_MODE_PROTOCOL_STATE →
      (bootloaderHandler env s).externalEraseMode = halfwordOfBuffer s.transmitBuffer
      ∧ (bootloaderHandler env s).protocolState
          = (if halfwordOfBuffer s.transmitBuffer < 0xFFF0
              then PROTOCOL_STATE.ERASE_COMMAND_RECEIVE_PAGES_NUMBERS
              else PROTOCOL_STATE.ERASE_COMMAND_RECEIVE_CRC)
      ∧ flashCalls (bootloaderHandler env s).trace = flashCalls s.trace)
    ∧ (s.protocolState = PROTOCOL_STATE.ERASE_COMMAND_RECEIVE_PAGES_NUMBERS →
      (bootloaderHandler env s).externalEraseMode = s.externalEraseMode
      ∧ (bootloaderHandler env s).protocolState = PROTOCOL_STATE.ERASE_COMMAND_RECEIVE_CRC
      ∧ flashCalls (bootloaderHandler env s).trace = flashCalls s.trace)
    ∧ (s.protocolState = PROTOCOL_STATE.ERASE_COMMAND_RECEIVE_CRC →
      s.externalEraseMode < 65536 →
      (transmitted (bootloaderHandler env s).trace = transmitted s.trace ++ [[ACK]]
        ↔ (s.hostAuthorized = true ∧ s.externalEraseMode = 0xFFFF
            ∧ (env.flash_erase s.world 0x08003200).1 = FLASH_STATUS_OK))
      ∧ (¬ (s.hostAuthorized = true ∧ s.externalEraseMode = 0xFFFF
            ∧ (env.flash_erase s.world 0x08003200).1 = FLASH_STATUS_OK)
          → transmitted (bootloaderHandler env s).trace = transmitted s.trace ++ [[NACK]])
      ∧ (s.externalEraseMode ≠ 0xFFFF →
          flashCalls (bootloaderHandler env s).trace = flashCalls s.trace
          ∧ transmitted (bootloaderHandler env s).trace = transmitted s.trace ++ [[NACK]])
      ∧ (s.hostAuthorized = true → s.externalEraseMode = 0xFFFF →
          flashCalls (bootloaderHandler env s).trace
            = flashCalls s.trace ++ [Event.flashErase 0x08003200])
      ∧ (bootloaderHandler env s).protocolState
          = PROTOCOL_STATE.WAIT_FOR_COMMAND_PROTOCOL_STATE) := by
  refine ⟨fun hst => ?_, fun hst => ?_, fun hst hm => ?_⟩
  · obtain ⟨crc, h⟩ := poll_valid env s _ _ _ _ (switch_eraseMode env s hst) hvalid
    obtain ⟨h1, -, h3, -⟩ := afterValid_fields env (eraseModeReceived (frameTaken s crc))
    obtain ⟨g1, g2, g3, -⟩ := eraseModeReceived_fields (frameTaken s crc)
    rw [h, h1, h3, g1, g2]
    refine ⟨?_, rfl, rfl⟩
    rcases afterValid_cases env (eraseModeReceived (frameTaken s crc)) with e | e
    · rw [e, g3]; rfl
    · rw [e]; exact g3
  · obtain ⟨crc, h⟩ := poll_valid env s _ _ _ _ (switch_erasePages env s hst) hvalid
    obtain ⟨h1, -, h3, -⟩ := afterValid_fields env (erasePagesReceived (frameTaken s crc))
    rw [h, h1, h3]
    refine ⟨?_, rfl, rfl⟩
    rcases afterValid_cases env (erasePagesReceived (frameTaken s crc)) with e | e
    · rw [e]; rfl
    · rw [e]; rfl
  · obtain ⟨crc, h⟩ := poll_valid env s _ _ _ _ (switch_eraseCrc env s hst) hvalid
    obtain ⟨h1, h2, h3, -⟩ := afterValid_fields env (eraseCrcReceived env (frameTaken s crc))
    obtain ⟨g1, g2, -⟩ := eraseCrcReceived_fields env (frameTaken s crc) hm
      (by show 2 ≤ s.transmitBuffer.length; rw [hbuf]; decide)
    have hA : (frameTaken s crc).hostAuthorized = s.hostAuthorized := rfl
    have hM : (frameTaken s crc).externalEraseMode = s.externalEraseMode := rfl
    have hW : (frameTaken s crc).world = s.world := rfl
    have hT : (frameTaken s crc).trace = s.trace := rfl
    have hS : FLASH_APP_START_ADDRESS = 0x08003200 := rfl
    rw [h, h1, h2, h3, g1, g2, hA, hM, hW, hT, hS]
    by_cases ha : s.hostAuthorized = true ∧ s.externalEraseMode = 0xFFFF
    · rw [if_pos ha]
      by_cases hok : (env.flash_erase s.world 0x08003200).1 = FLASH_STATUS_OK
      · rw [if_pos hok, transmitted_append, flashCalls_append]
        refine ⟨⟨fun _ => ⟨ha.1, ha.2, hok⟩, fun _ => rfl⟩, fun hn => absurd ⟨ha.1, ha.2, hok⟩ hn,
          fun hne => absurd ha.2 hne, fun _ _ => rfl, rfl⟩
      · rw [if_neg hok, transmitted_append, flashCalls_append]
        refine ⟨⟨fun hc => ?_, fun hc => absurd hc.2.2 hok⟩, fun _ => rfl,
          fun hne => absurd ha.2 hne, fun _ _ => rfl, rfl⟩
        have hc2 : [[NACK]] = [[ACK]] := List.append_cancel_left hc
        exact absurd hc2 (by decide)
    · rw [if_neg ha, transmitted_append, flashCalls_append]
      refine ⟨⟨fun hc => ?_, fun hc => absurd ⟨hc.1, hc.2.1⟩ ha⟩, fun _ => rfl,
        fun _ => ⟨by simp [flashCalls], rfl⟩, fun h1 h2 => absurd ⟨h1, h2⟩ ha, rfl⟩
      have hc2 : [[NACK]] = [[ACK]] := List.append_cancel_left hc
      exact absurd hc2 (by decide)

/-! ## Lemmas on a WRITE received field by field -/

theorem dispatchCommand_write {W : Type} (env : Board W) (t : Session W)
    (h : t.transmitBuffer.getD 0 0 = WRITE_BOOTLOADER_COMMAND) :
    dispatchCommand env t
      = { sendConfirmation ACK t with
          protocolState := PROTOCOL_STATE.WRITE_COMMAND_RECEIVE_ADDRESS_PROTOCOL_STATE } := by
  unfold dispatchCommand
  dsimp only
  rw [h, if_pos rfl]

/-- The command frame `31 D4 C1` of a WRITE, received and taken. -/
theorem write_command_step {W : Type} (env : Board W) (s : Session W) (hs : AwaitingField s)
    (hst : s.protocolState = PROTOCOL_STATE.WAIT_FOR_COMMAND_PROTOCOL_STATE) :
    AwaitingField (pollFrame env [0x31, 0xD4, 0xC1] s)
    ∧ (pollFrame env [0x31, 0xD4, 0xC1] s).protocolState
        = PROTOCOL_STATE.WRITE_COMMAND_RECEIVE_ADDRESS_PROTOCOL_STATE
    ∧ (pollFrame env [0x31, 0xD4, 0xC1] s).hostAuthorized = s.hostAuthorized
    ∧ (pollFrame env [0x31, 0xD4, 0xC1] s).world = s.world
    ∧ transmitted (pollFrame env [0x31, 0xD4, 0xC1] s).trace = transmitted s.trace ++ [[ACK]]
    ∧ flashCalls (pollFrame env [0x31, 0xD4, 0xC1] s).trace = flashCalls s.trace := by
  obtain ⟨u, hu, hc, ⟨c1, c2, c3, c4, c5, c6, c7, c8, c9, c10, c11⟩, hx⟩ :=
    pollFrame_arrives env s [0x31, 0xD4, 0xC1] (INIT_CRC_FLAG ||| CALCULATE_CRC_FLAG) true
      (dispatchCommand env) hs (switch_waitForCommand env s hst) (show 1 ≤ 3 by decide)
      (show 3 ≤ RX_BUFFER_SIZE by decide)
  obtain ⟨rest, hbuf⟩ := frameCompleted_buffer u _ hc
  have hsw := protocolSwitch_valid_field env u [0x31] 0xD4 0xC1 _ true (dispatchCommand env)
    (switch_waitForCommand env u (c1.trans hst)) (by decide) (by decide) (by decide) hc
    (by decide)
  have hcmd : (frameTaken u (crc16ArcReference [0x31])).transmitBuffer.getD 0 0
      = WRITE_BOOTLOADER_COMMAND := by
    show u.transmitBuffer.getD 0 0 = _
    rw [hbuf]
    rfl
  rw [dispatchCommand_write env _ hcmd] at hsw
  have hexit : ({ sendConfirmation ACK (frameTaken u (crc16ArcReference [0x31])) with
      protocolState := PROTOCOL_STATE.WRITE_COMMAND_RECEIVE_ADDRESS_PROTOCOL_STATE }
        : Session W).bootloaderExitTimeout ≠ 0 := by
    show u.bootloaderExitTimeout ≠ 0
    rw [hx]
    decide
  rw [hu, poll_takes env u _ true hsw hexit]
  refine ⟨⟨c6.trans hs.1, rfl, rfl, c9.trans hs.2.2.2.1, hexit⟩, rfl, c2, c3, ?_, ?_⟩
  · show transmitted (u.trace ++ [Event.transmit [ACK]]) = _
    rw [transmitted_append, c10]
    rfl
  · show flashCalls (u.trace ++ [Event.transmit [ACK]]) = _
    rw [flashCalls_append, c11]
    simp [flashCalls]

/-- The address field of a WRITE with a correct CRC, received and taken. -/
theorem write_address_step {W : Type} (env : Board W) (s : Session W)
    (a3 a2 a1 a0 hi lo : Nat) (hs : AwaitingField s)
    (hst : s.protocolState = PROTOCOL_STATE.WRITE_COMMAND_RECEIVE_ADDRESS_PROTOCOL_STATE)
    (h3 : a3 < 256) (h2 : a2 < 256) (h1 : a1 < 256) (h0 : a0 < 256) (hhi : hi < 256)
    (hlo : lo < 256) (hcrc : hi * 256 + lo = crc16ArcReference [a3, a2, a1, a0]) :
    AwaitingField (pollFrame env [a3, a2, a1, a0, hi, lo] s)
    ∧ (pollFrame env [a3, a2, a1, a0, hi, lo] s).protocolState
        = PROTOCOL_STATE.WRITE_COMMAND_RECEIVE_LENGTH_PROTOCOL_STATE
    ∧ (pollFrame env [a3, a2, a1, a0, hi, lo] s).memoryAddress
        = a3 * 16777216 + a2 * 65536 + a1 * 256 + a0
    ∧ (pollFrame env [a3, a2, a1, a0, hi, lo] s).hostAuthorized = s.hostAuthorized
    ∧ (pollFrame env [a3, a2, a1, a0, hi, lo] s).world = s.world
    ∧ transmitted (pollFrame env [a3, a2, a1, a0, hi, lo] s).trace
        = transmitted s.trace ++ [[ACK]]
    ∧ flashCalls (pollFrame env [a3, a2, a1, a0, hi, lo] s).trace = flashCalls s.trace := by
  obtain ⟨u, hu, hc, ⟨c1, c2, c3, c4, c5, c6, c7, c8, c9, c10, c11⟩, hx⟩ :=
    pollFrame_arrives env s [a3, a2, a1, a0, hi, lo] (INIT_CRC_FLAG ||| CALCULATE_CRC_FLAG)
      true writeAddressReceived hs (switch_writeAddress env s hst) (show 1 ≤ 6 by decide)
      (show 6 ≤ RX_BUFFER_SIZE by decide)
  obtain ⟨rest, hbuf⟩ := frameCompleted_buffer u _ hc
  have hbytes : ∀ b ∈ [a3, a2, a1, a0], b < 256 := by
    intro b hb
    simp only [List.mem_cons, List.mem_singleton, List.not_mem_nil, or_false] at hb
    rcases hb with h | h | h | h <;> rw [h] <;> assumption
  have hsw := protocolSwitch_valid_field env u [a3, a2, a1, a0] hi lo _ true
    writeAddressReceived (switch_writeAddress env u (c1.trans hst)) hbytes hhi hlo hc hcrc
  have hexit : (writeAddressReceived
      (frameTaken u (crc16ArcReference [a3, a2, a1, a0]))).bootloaderExitTimeout ≠ 0 := by
    show u.bootloaderExitTimeout ≠ 0
    rw [hx]
    decide
  rw [hu, poll_takes env u _ true hsw hexit]
  refine ⟨⟨c6.trans hs.1, rfl, rfl, c9.trans hs.2.2.2.1, hexit⟩, rfl, ?_, c2, c3, ?_, ?_⟩
  · show memoryAddressFromTransmitBuffer (frameTaken u _) = _
    unfold memoryAddressFromTransmitBuffer
    show (u.transmitBuffer.getD 0 0 * 16777216 + u.transmitBuffer.getD 1 0 * 65536
      + u.transmitBuffer.getD 2 0 * 256 + u.transmitBuffer.getD 3 0) % 4294967296 = _
    rw [hbuf]
    show (a3 * 16777216 + a2 * 65536 + a1 * 256 + a0) % 4294967296 = _
    omega
  · show transmitted (u.trace ++ [Event.transmit [ACK]]) = _
    rw [transmitted_append, c10]
    rfl
  · show flashCalls (u.trace ++ [Event.transmit [ACK]]) = _
    rw [flashCalls_append, c11]
    simp [flashCalls]
/-- The length byte of a WRITE, received and taken. -/
theorem write_length_step {W : Type} (env : Board W) (s : Session W) (N : Nat)
    (hs : AwaitingField s)
    (hst : s.protocolState = PROTOCOL_STATE.WRITE_COMMAND_RECEIVE_LENGTH_PROTOCOL_STATE) :
    AwaitingField (pollFrame env [N] s)
    ∧ (pollFrame env [N] s).protocolState
        = PROTOCOL_STATE.WRITE_COMMAND_RECEIVE_DATA_PROTOCOL_STATE
    ∧ (pollFrame env [N] s).segmentDataLength = N + 1
    ∧ (pollFrame env [N] s).receivedDataCRC = crcFold 0 [N]
    ∧ (pollFrame env [N] s).memoryAddress = s.memoryAddress
    ∧ (pollFrame env [N] s).hostAuthorized = s.hostAuthorized
    ∧ (pollFrame env [N] s).world = s.world
    ∧ transmitted (pollFrame env [N] s).trace = transmitted s.trace
    ∧ flashCalls (pollFrame env [N] s).trace = flashCalls s.trace := by
  obtain ⟨u, hu, hc, ⟨c1, c2, c3, c4, c5, c6, c7, c8, c9, c10, c11⟩, hx⟩ :=
    pollFrame_arrives env s [N] INIT_CRC_FLAG false writeLengthReceived hs
      (switch_writeLength env s hst) (show 1 ≤ 1 by decide) (show 1 ≤ RX_BUFFER_SIZE by decide)
  obtain ⟨rest, hbuf⟩ := frameCompleted_buffer u _ hc
  have hsw : protocolSwitch env u
      = ⟨RECEIVED_DATA_TYPE.VALID_RECEIVED_DATA_TYPE, false,
          writeLengthReceived (frameTaken u (crcFold 0 [N]))⟩ := by
    rw [switch_writeLength env u (c1.trans hst)]
    unfold caseWriteReceiveLength
    rw [receiveData_unchecked u [N] _ INIT_CRC_FLAG (by decide) hc]
    exact onField_valid _ _ _ rfl
  have hexit : (writeLengthReceived (frameTaken u (crcFold 0 [N]))).bootloaderExitTimeout
      ≠ 0 := by
    show u.bootloaderExitTimeout ≠ 0
    rw [hx]
    decide
  rw [hu, poll_takes env u _ false hsw hexit]
  refine ⟨⟨c6.trans hs.1, rfl, rfl, c9.trans hs.2.2.2.1, hexit⟩, rfl, ?_, rfl, c7, c2, c3,
    c10, c11⟩
  show u.transmitBuffer.getD 0 0 + 1 = _
  rw [hbuf]
  rfl

/-- The data field of an authorized WRITE whose CRC trailer matches the running CRC,
received and taken: one flash call, on the buffer that starts with the field, then ACK. -/
theorem write_data_step {W : Type} (env : Board W) (s : Session W) (data : List Nat)
    (dh dl N : Nat) (hs : AwaitingField s)
    (hst : s.protocolState = PROTOCOL_STATE.WRITE_COMMAND_RECEIVE_DATA_PROTOCOL_STATE)
    (hauth : s.hostAuthorized = true) (hseg : s.segmentDataLength = N + 1) (hN : N < 256)
    (hlen : data.length = N + 1) (hdh : dh < 256) (hdl : dl < 256)
    (hcrc : dh * 256 + dl = crcFold s.receivedDataCRC data) :
    (pollFrame env (data ++ [dh, dl]) s).protocolState
        = PROTOCOL_STATE.WAIT_FOR_COMMAND_PROTOCOL_STATE
    ∧ transmitted (pollFrame env (data ++ [dh, dl]) s).trace = transmitted s.trace ++ [[ACK]]
    ∧ ∃ rest : List Nat, (data ++ [dh, dl] ++ rest).length = RX_BUFFER_SIZE
        ∧ flashCalls (pollFrame env (data ++ [dh, dl]) s).trace
          = flashCalls s.trace
            ++ [if s.memoryAddress = UINT32_MAX - 1
                  then Event.flashErase (sub32 env.FLASH_END env.FLASH_PAGE_SIZE)
                  else Event.flashWrite
                    (if s.memoryAddress = UINT32_MAX
                      then add32 (sub32 (FLASH_APP_END_ADDRESS env) 4) 1 else s.memoryAddress)
                    (data ++ [dh, dl] ++ rest) ((N + 1) / 4)] := by
  have hL : (s.segmentDataLength + CRC_LENGTH) % 65536 = (data ++ [dh, dl]).length := by
    rw [hseg, List.length_append, hlen]
    show (N + 1 + 2) % 65536 = N + 1 + 2
    omega
  have hsw0 : protocolSwitch env s
      = onField (receiveData (data ++ [dh, dl]).length CALCULATE_CRC_FLAG s) true
          (writeDataReceived env) := by
    rw [switch_writeData env s hst]
    unfold caseWriteReceiveData
    rw [hL]
  obtain ⟨u, hu, hc, ⟨c1, c2, c3, c4, c5, c6, c7, c8, c9, c10, c11⟩, hx⟩ :=
    pollFrame_arrives env s (data ++ [dh, dl]) CALCULATE_CRC_FLAG true (writeDataReceived env)
      hs hsw0 (by rw [List.length_append, hlen]; simp)
      (by rw [List.length_append, hlen]; show N + 1 + 2 ≤ 280; omega)
  obtain ⟨rest, hbuf⟩ := frameCompleted_buffer u _ hc
  have hv : (if CALCULATE_CRC_FLAG &&& INIT_CRC_FLAG ≠ 0 then 0 else u.receivedDataCRC)
      = u.receivedDataCRC := rfl
  have hsw : protocolSwitch env u
      = ⟨RECEIVED_DATA_TYPE.VALID_RECEIVED_DATA_TYPE, true,
          writeDataReceived env (frameTaken u (crcFold u.receivedDataCRC data))⟩ := by
    rw [switch_writeData env u (c1.trans hst)]
    unfold caseWriteReceiveData
    rw [receiveData_checked u data dh dl _ CALCULATE_CRC_FLAG (by decide) hdh hdl hc, hv,
      if_neg (fun h => h (by rw [c5]; exact hcrc.symm))]
    exact onField_valid _ _ _ rfl
  obtain ⟨a1, a2, a3, -⟩ := afterValid_fields env
    (writeDataReceived env (frameTaken u (crcFold u.receivedDataCRC data)))
  obtain ⟨g1, g2, -⟩ := writeDataReceived_authorized env
    (frameTaken u (crcFold u.receivedDataCRC data)) (c2.trans hauth)
  have hAddr : (frameTaken u (crcFold u.receivedDataCRC data)).memoryAddress
      = s.memoryAddress := c7
  have hSeg : (frameTaken u (crcFold u.receivedDataCRC data)).segmentDataLength = N + 1 :=
    c8.trans hseg
  have hBuf : (frameTaken u (crcFold u.receivedDataCRC data)).transmitBuffer
      = data ++ [dh, dl] ++ rest := hbuf
  have hT : (frameTaken u (crcFold u.receivedDataCRC data)).trace = u.trace := rfl
  rw [hu, bootloaderHandler_of_valid env u _ true hsw, a1, a2, a3, g1, g2, hAddr, hSeg, hBuf,
    hT, transmitted_append, flashCalls_append, c10, c11]
  refine ⟨rfl, ?_, rest, ?_, ?_⟩
  · by_cases ha : s.memoryAddress = UINT32_MAX - 1
    · rw [if_pos ha]; rfl
    · rw [if_neg ha]; rfl
  · rw [← hbuf, c9]
    exact hs.2.2.2.1
  · by_cases ha : s.memoryAddress = UINT32_MAX - 1
    · rw [if_pos ha]; rfl
    · rw [if_neg ha]; rfl
/-- An authorized WRITE received field by field from the command state, every field with a
correct CRC: command, address and data are each answered with ACK, and the data field
triggers one flash call: the erase at `FLASH_END - FLASH_PAGE_SIZE` for the address
0xFFFFFFFE, and otherwise a write of `(N + 1) / 4` words from the buffer, at the marker
address for the address 0xFFFFFFFF and at the address received otherwise. -/
theorem write_sequence {W : Type} (env : Board W) (s : Session W)
    (a3 a2 a1 a0 ah al N : Nat) (data : List Nat) (dh dl : Nat) (hs : AwaitingField s)
    (hst : s.protocolState = PROTOCOL_STATE.WAIT_FOR_COMMAND_PROTOCOL_STATE)
    (hauth : s.hostAuthorized = true)
    (h3 : a3 < 256) (h2 : a2 < 256) (h1 : a1 < 256) (h0 : a0 < 256) (hah : ah < 256)
    (hal : al < 256) (hN : N < 256) (hdata : ∀ b ∈ data, b < 256) (hdh : dh < 256)
    (hdl : dl < 256) (hlen : data.length = N + 1)
    (hcrcA : ah * 256 + al = crc16ArcReference [a3, a2, a1, a0])
    (hcrcD : dh * 256 + dl = crc16ArcReference (N :: data)) :
    (afterFields env [[0x31, 0xD4, 0xC1], [a3, a2, a1, a0, ah, al], [N], data ++ [dh, dl]]
        s).protocolState = PROTOCOL_STATE.WAIT_FOR_COMMAND_PROTOCOL_STATE
    ∧ transmitted (afterFields env
        [[0x31, 0xD4, 0xC1], [a3, a2, a1, a0, ah, al], [N], data ++ [dh, dl]] s).trace
        = transmitted s.trace ++ [[ACK], [ACK], [ACK]]
    ∧ ∃ rest : List Nat, (data ++ [dh, dl] ++ rest).length = RX_BUFFER_SIZE
        ∧ flashCalls (afterFields env
            [[0x31, 0xD4, 0xC1], [a3, a2, a1, a0, ah, al], [N], data ++ [dh, dl]] s).trace
          = flashCalls s.trace
            ++ [if a3 * 16777216 + a2 * 65536 + a1 * 256 + a0 = UINT32_MAX - 1
                  then Event.flashErase (sub32 env.FLASH_END env.FLASH_PAGE_SIZE)
                  else Event.flashWrite
                    (if a3 * 16777216 + a2 * 65536 + a1 * 256 + a0 = UINT32_MAX
                      then add32 (sub32 (FLASH_APP_END_ADDRESS env) 4) 1
                      else a3 * 16777216 + a2 * 65536 + a1 * 256 + a0)
                    (data ++ [dh, dl] ++ rest) ((N + 1) / 4)] := by
  obtain ⟨k0, k1, k2, k3, k4, k5⟩ := write_command_step env s hs hst
  obtain ⟨m0, m1, m2, m3, m4, m5, m6⟩ :=
    write_address_step env (pollFrame env [0x31, 0xD4, 0xC1] s) a3 a2 a1 a0 ah al k0 k1
      h3 h2 h1 h0 hah hal hcrcA
  obtain ⟨n0, n1, n2, n3, n4, n5, n6, n7, n8⟩ :=
    write_length_step env
      (pollFrame env [a3, a2, a1, a0, ah, al] (pollFrame env [0x31, 0xD4, 0xC1] s)) N m0 m1
  have hbytes : ∀ b ∈ N :: data, b < 256 := by
    intro b hb
    rcases List.mem_cons.mp hb with h | h
    · rw [h]; exact hN
    · exact hdata b h
  have hrun : dh * 256 + dl
      = crcFold (pollFrame env [N] (pollFrame env [a3, a2, a1, a0, ah, al]
          (pollFrame env [0x31, 0xD4, 0xC1] s))).receivedDataCRC data := by
    rw [n3, hcrcD]
    unfold crc16ArcReference
    rw [← crcFold_eq_reference (N :: data) hbytes 0]
    rfl
  obtain ⟨r1, r2, rest, r3, r4⟩ := write_data_step env _ data dh dl N n0 n1
    (n5.trans (m3.trans (k2.trans hauth))) n2 hN hlen hdh hdl hrun
  rw [afterFields_cons, afterFields_cons, afterFields_cons, afterFields_cons,
    afterFields_nil]
  refine ⟨r1, ?_, rest, r3, ?_⟩
  · rw [r2, n7, m5, k4, List.append_assoc, List.append_assoc]
    rfl
  · rw [r4, n4, m2, n8, m6, k5]
/-! ## Lemmas on the bounds of the receive engine -/

theorem frameBytes_set (buffer : List Nat) (i v : Nat) (h : FrameBytes buffer) (hv : v < 256) :
    FrameBytes (buffer.set i v) := by
  refine ⟨by rw [List.length_set]; exact h.1, fun b hb => ?_⟩
  rcases List.mem_or_eq_of_mem_set hb with hb | hb
  · exact h.2 b hb
  · rw [hb]; exact hv

theorem frameBytes_getD (buffer : List Nat) (i : Nat) (h : FrameBytes buffer) :
    buffer.getD i 0 < 256 := by
  rw [List.getD_eq_getElem?_getD]
  cases hi : buffer[i]? with
  | none => exact (by decide : (0 : Nat) < 256)
  | some b => exact h.2 b (List.getElem?_mem hi)

theorem encryptLoop_bytes (source : List Nat) (n e : Int) (todo i : Nat)
    (destination : List Nat) (h : FrameBytes destination) :
    FrameBytes (encryptLoop source n e todo i destination) := by
  induction todo generalizing i destination with
  | zero => exact h
  | succ k ih =>
    unfold encryptLoop
    exact ih _ _ (frameBytes_set _ _ _ (frameBytes_set _ _ _ h (lowHalfBytes_lt _).1)
      (lowHalfBytes_lt _).2)

theorem fieldLength_congr {W : Type} (u v : Session W)
    (h1 : v.protocolState = u.protocolState) (h2 : v.segmentDataLength = u.segmentDataLength) :
    fieldLength v = fieldLength u := by
  unfold fieldLength
  rw [h1, h2]

theorem fieldLength_bounds {W : Type} (s : Session W) (h : s.segmentDataLength ≤ 256) :
    1 ≤ fieldLength s ∧ fieldLength s ≤ 258
      ∧ (fieldFlags s.protocolState &&& CALCULATE_CRC_FLAG ≠ 0 → 2 ≤ fieldLength s) := by
  unfold fieldLength
  cases s.protocolState <;> dsimp only [fieldFlags] <;>
    first
    | decide
    | (unfold CRC_LENGTH; omega)

theorem protocolSwitch_field {W : Type} (env : Board W) (s : Session W) :
    ∃ (ce : Bool) (body : Session W → Session W),
      protocolSwitch env s
        = onField (receiveData (fieldLength s) (fieldFlags s.protocolState) s) ce body := by
  unfold protocolSwitch fieldLength
  cases s.protocolState <;> exact ⟨_, _, rfl⟩
theorem engineKept_refl {W : Type} (s : Session W) : EngineKept s s :=
  ⟨rfl, rfl, rfl, rfl, fun h => h⟩

theorem engineKept_trans {W : Type} (a b c : Session W) (h1 : EngineKept a b)
    (h2 : EngineKept b c) : EngineKept a c :=
  ⟨h2.1.trans h1.1, h2.2.1.trans h1.2.1, h2.2.2.1.trans h1.2.2.1,
    h2.2.2.2.1.trans h1.2.2.2.1, fun h => h2.2.2.2.2 (h1.2.2.2.2 h)⟩

theorem ite_elim {α β : Type} (f : α → β) (P : β → Prop) (c : Prop) [Decidable c]
    (x y : α) (hx : P (f x)) (hy : P (f y)) : P (f (if c then x else y)) := by
  by_cases hc : c
  · rw [if_pos hc]; exact hx
  · rw [if_neg hc]; exact hy

/-- Whatever `executeCommand` does to the session, it only touches the flash, the trace, the
random values, the authorization flag, the boot tag and `running`. -/
theorem executeCommand_session {W : Type} (env : Board W) (code : Nat) (data : List Nat)
    (a l : Nat) (s : Session W) (P : Session W → Prop)
    (h : ∀ (w : W) (tr : List Event) (rv rrv : Nat) (ha : Bool) (tag : Nat) (run : Bool),
      P { s with world := w, trace := tr, randomValue := rv, receivedRandomValue := rrv,
                 hostAuthorized := ha, bootloaderTag := tag, running := run }) :
    P (executeCommand env code data a l s).session := by
  unfold executeCommand
  dsimp only
  repeat' first
    | apply ite_elim Executed.session P
    | exact h _ _ _ _ _ _ _

theorem executeCommand_engine {W : Type} (env : Board W) (code : Nat) (data : List Nat)
    (a l : Nat) (s : Session W) :
    (executeCommand env code data a l s).session.receiveState = s.receiveState
    ∧ (executeCommand env code data a l s).session.rxPointer = s.rxPointer
    ∧ (executeCommand env code data a l s).session.rxArmed = s.rxArmed
    ∧ (executeCommand env code data a l s).session.expectedDataLength = s.expectedDataLength
    ∧ (executeCommand env code data a l s).session.segmentDataLength = s.segmentDataLength :=
  executeCommand_session env code data a l s
    (fun t => t.receiveState = s.receiveState ∧ t.rxPointer = s.rxPointer
      ∧ t.rxArmed = s.rxArmed ∧ t.expectedDataLength = s.expectedDataLength
      ∧ t.segmentDataLength = s.segmentDataLength)
    (fun _ _ _ _ _ _ _ => ⟨rfl, rfl, rfl, rfl, rfl⟩)

theorem executeCommand_bytes {W : Type} (env : Board W) (hread : ReadsBytes env) (code : Nat)
    (data : List Nat) (a l : Nat) (s : Session W) (h : FrameBytes data) :
    FrameBytes (executeCommand env code data a l s).data := by
  have hset : ∀ (b : List Nat) (i v : Nat), v < 256 → FrameBytes b → FrameBytes (b.set i v) :=
    fun b i v hv hb => frameBytes_set b i v hb hv
  unfold executeCommand
  dsimp only
  repeat' first
    | apply ite_elim Executed.data FrameBytes
    | exact h
    | exact hread _ _ _ _ h
    | exact encryptLoop_bytes _ _ _ _ _ _ h
    | apply hset _ _ _ (by decide)

theorem executed_kept {W : Type} (env : Board W) (hread : ReadsBytes env) (code a l : Nat)
    (s : Session W) :
    EngineKept s
      { (executeCommand env code s.transmitBuffer a l s).session with
        transmitBuffer := (executeCommand env code s.transmitBuffer a l s).data } :=
  have h := executeCommand_engine env code s.transmitBuffer a l s
  ⟨h.1, h.2.1, h.2.2.1, h.2.2.2.1, fun hb =>
    ⟨executeCommand_bytes env hread code _ a l s hb.1, h.2.2.2.2.symm ▸ hb.2⟩⟩

theorem sendData_kept {W : Type} (data : List Nat) (n : Nat) (s : Session W) :
    EngineKept s (sendData data n s) :=
  ⟨rfl, rfl, rfl, rfl, fun h => h⟩
theorem ite_keeps {α : Type} (P : α → Prop) (c : Prop) [Decidable c] (x y : α)
    (hx : P x) (hy : P y) : P (if c then x else y) := by
  by_cases hc : c
  · rw [if_pos hc]; exact hx
  · rw [if_neg hc]; exact hy

theorem engineKept_sent {W : Type} (a : Session W) (data : List Nat) (n : Nat)
    (s : Session W) (h : EngineKept a s) : EngineKept a (sendData data n s) :=
  engineKept_trans _ _ _ h (sendData_kept data n s)

theorem engineKept_executed {W : Type} (a : Session W) (env : Board W)
    (hread : ReadsBytes env) (code x l : Nat) (s : Session W) (h : EngineKept a s) :
    EngineKept a
      { (executeCommand env code s.transmitBuffer x l s).session with
        transmitBuffer := (executeCommand env code s.transmitBuffer x l s).data } :=
  engineKept_trans _ _ _ h (executed_kept env hread code x l s)

theorem engineKept_state {W : Type} (a s : Session W) (p : PROTOCOL_STATE)
    (h : EngineKept a s) : EngineKept a { s with protocolState := p } :=
  engineKept_trans _ _ _ h ⟨rfl, rfl, rfl, rfl, fun hb => hb⟩

theorem handleProtocolError_kept {W : Type} (r : RECEIVED_DATA_TYPE) (ce : Bool)
    (s : Session W) : EngineKept s (handleProtocolError r ce s) := by
  cases r
  · exact engineKept_refl s
  · exact engineKept_refl s
  · cases ce
    · exact engineKept_refl s
    · exact ⟨rfl, rfl, rfl, rfl, fun hb =>
        ⟨frameBytes_set _ 0 NACK hb.1 (by decide), hb.2⟩⟩
  · exact ⟨rfl, rfl, rfl, rfl, fun hb => hb⟩

theorem idleExit_kept {W : Type} (env : Board W) (hread : ReadsBytes env) (s : Session W) :
    EngineKept s (idleExit env s) := by
  unfold idleExit
  exact ite_keeps (EngineKept s) _ _ _ (executed_kept env hread _ _ _ s) (engineKept_refl s)

theorem dispatchCommand_kept {W : Type} (env : Board W) (hread : ReadsBytes env)
    (s : Session W) : EngineKept s (dispatchCommand env s) := by
  have hs : EngineKept s (sendConfirmation ACK s) := sendData_kept _ _ s
  unfold dispatchCommand
  dsimp only
  repeat' apply ite_keeps (EngineKept s)
  · exact engineKept_state _ _ _ hs
  · exact engineKept_state _ _ _ hs
  · exact engineKept_sent _ _ _ _ (engineKept_executed _ env hread _ _ _ _ hs)
  · exact engineKept_sent _ _ _ _ (engineKept_executed _ env hread _ _ _ _ hs)
  · exact engineKept_state _ _ _ hs
  · exact engineKept_state _ _ _ hs
  · exact engineKept_state _ _ _
      (engineKept_sent _ _ _ _ (engineKept_executed _ env hread _ _ _ _ hs))
  · exact sendData_kept _ _ s
theorem writeAddressReceived_kept {W : Type} (s : Session W) :
    EngineKept s (writeAddressReceived s) :=
  ⟨rfl, rfl, rfl, rfl, fun hb => hb⟩

theorem writeLengthReceived_kept {W : Type} (s : Session W) :
    EngineKept s (writeLengthReceived s) :=
  ⟨rfl, rfl, rfl, rfl, fun hb => ⟨hb.1, Nat.succ_le_of_lt (frameBytes_getD _ 0 hb.1)⟩⟩

theorem writeDataReceived_kept {W : Type} (env : Board W) (hread : ReadsBytes env)
    (s : Session W) : EngineKept s (writeDataReceived env s) :=
  engineKept_state _ _ _
    (engineKept_sent _ [ACK] 1 _ (executed_kept env hread WRITE_BOOTLOADER_COMMAND _ _ s))

theorem readAddressReceived_kept {W : Type} (s : Session W) :
    EngineKept s (readAddressReceived s) :=
  ⟨rfl, rfl, rfl, rfl, fun hb => hb⟩

theorem readLengthReceived_kept {W : Type} (env : Board W) (hread : ReadsBytes env)
    (s : Session W) : EngineKept s (readLengthReceived env s) :=
  have h1 : EngineKept s { s with segmentDataLength := s.transmitBuffer.getD 0 0 + 1 } :=
    ⟨rfl, rfl, rfl, rfl, fun hb => ⟨hb.1, Nat.succ_le_of_lt (frameBytes_getD _ 0 hb.1)⟩⟩
  engineKept_state _ _ _
    (engineKept_sent _ _ _ _ (engineKept_sent _ [ACK] 1 _
      (engineKept_executed _ env hread READ_BOOTLOADER_COMMAND _ _ _ h1)))

theorem eraseModeReceived_kept {W : Type} (s : Session W) :
    EngineKept s (eraseModeReceived s) := by
  unfold eraseModeReceived
  exact ite_keeps (EngineKept s) _ _ _ ⟨rfl, rfl, rfl, rfl, fun hb => hb⟩
    ⟨rfl, rfl, rfl, rfl, fun hb => hb⟩

theorem erasePagesReceived_kept {W : Type} (s : Session W) :
    EngineKept s (erasePagesReceived s) :=
  ⟨rfl, rfl, rfl, rfl, fun hb => hb⟩

theorem eraseCrcReceived_kept {W : Type} (env : Board W) (hread : ReadsBytes env)
    (s : Session W) : EngineKept s (eraseCrcReceived env s) := by
  have h1 : EngineKept s
      { s with transmitBuffer :=
        (List.set (List.set (List.set (List.set s.transmitBuffer 0
          ((s.externalEraseMode >>> 8) % 256)) 1 (s.externalEraseMode &&& 0x00FF)) 2
          ((s.externalErasePageNumber >>> 8) % 256)) 3
          (s.externalErasePageNumber &&& 0x00FF)) } :=
    ⟨rfl, rfl, rfl, rfl, fun hb =>
      ⟨frameBytes_set _ _ _ (frameBytes_set _ _ _ (frameBytes_set _ _ _
        (frameBytes_set _ _ _ hb.1 (Nat.mod_lt _ (by decide)))
        (Nat.lt_succ_of_le Nat.and_le_right)) (Nat.mod_lt _ (by decide)))
        (Nat.lt_succ_of_le Nat.and_le_right), hb.2⟩⟩
  unfold eraseCrcReceived
  exact engineKept_state _ _ _
    (engineKept_sent _ _ 1 _ (engineKept_executed _ env hread EXTERASE_BOOTLOADER_COMMAND 0 0 _ h1))

theorem goAddressReceived_kept {W : Type} (env : Board W) (hread : ReadsBytes env)
    (s : Session W) : EngineKept s (goAddressReceived env s) := by
  have h1 : EngineKept s
      (sendConfirmation
        (if env.load32 s.world s.validApplicationTag = VALID_FIRMWARE_VALUE then ACK else NACK)
        { s with memoryAddress := memoryAddressFromTransmitBuffer s }) :=
    ⟨rfl, rfl, rfl, rfl, fun hb => hb⟩
  have h2 := engineKept_executed _ env hread GO_BOOTLOADER_COMMAND
    (memoryAddressFromTransmitBuffer s) 0 _ h1
  unfold goAddressReceived
  exact ite_keeps (EngineKept s) _ _ _ (engineKept_state _ _ _ h2) h2

theorem randomizeResponseReceived_kept {W : Type} (env : Board W) (hread : ReadsBytes env)
    (s : Session W) : EngineKept s (randomizeResponseReceived env s) := by
  unfold randomizeResponseReceived
  exact engineKept_state _ _ _
    (engineKept_sent _ _ 1 _ (executed_kept env hread AUTHORIZE_HOST_COMMAND 0 _ s))

/-- Every `case` of the `switch` of `bootloaderHandler` calls `receiveData` with the length and
the flags of its state, and its body leaves the receive engine alone. -/
theorem protocolSwitch_kept {W : Type} (env : Board W) (hread : ReadsBytes env)
    (s : Session W) :
    ∃ (ce : Bool) (body : Session W → Session W),
      protocolSwitch env s
        = onField (receiveData (fieldLength s) (fieldFlags s.protocolState) s) ce body
      ∧ ∀ t, EngineKept t (body t) := by
  unfold protocolSwitch fieldLength
  cases s.protocolState
  · exact ⟨_, _, rfl, dispatchCommand_kept env hread⟩
  · exact ⟨_, _, rfl, writeAddressReceived_kept⟩
  · exact ⟨_, _, rfl, writeLengthReceived_kept⟩
  · exact ⟨_, _, rfl, writeDataReceived_kept env hread⟩
  · exact ⟨_, _, rfl, readAddressReceived_kept⟩
  · exact ⟨_, _, rfl, readLengthReceived_kept env hread⟩
  · exact ⟨_, _, rfl, eraseModeReceived_kept⟩
  · exact ⟨_, _, rfl, erasePagesReceived_kept⟩
  · exact ⟨_, _, rfl, eraseCrcReceived_kept env hread⟩
  · exact ⟨_, _, rfl, goAddressReceived_kept env hread⟩
  · exact ⟨_, _, rfl, randomizeResponseReceived_kept env hread⟩
/-- What a call of `receiveData` does to the receive engine: it starts a receive, or changes
nothing, or ends the receive with the pointer back at 0. -/
theorem receiveData_engine {W : Type} (len flags : Nat) (s : Session W) :
    (receiveData len flags s).2.transmitBuffer = s.transmitBuffer
    ∧ (receiveData len flags s).2.segmentDataLength = s.segmentDataLength
    ∧ (receiveData len flags s).2.protocolState = s.protocolState
    ∧ ((s.receiveState = RECEIVE_STATE.INIT_RECEIVE_STATE
          ∧ (receiveData len flags s).1 = RECEIVED_DATA_TYPE.NO_RECEIVED_DATA_TYPE
          ∧ (receiveData len flags s).2.receiveState
              = RECEIVE_STATE.WAIT_FOR_DATA_RECEIVE_STATE
          ∧ (receiveData len flags s).2.expectedDataLength = len
          ∧ (receiveData len flags s).2.rxArmed = true
          ∧ (receiveData len flags s).2.rxPointer = s.rxPointer)
      ∨ ((receiveData len flags s).1 = RECEIVED_DATA_TYPE.NO_RECEIVED_DATA_TYPE
          ∧ (receiveData len flags s).2 = s)
      ∨ ((receiveData len flags s).2.receiveState = RECEIVE_STATE.INIT_RECEIVE_STATE
          ∧ (receiveData len flags s).2.rxPointer = 0
          ∧ (receiveData len flags s).2.expectedDataLength = s.expectedDataLength
          ∧ (receiveData len flags s).2.rxArmed = s.rxArmed)) := by
  unfold receiveData
  split
  · next h => exact ⟨rfl, rfl, rfl, Or.inl ⟨h, rfl, rfl, rfl, rfl, rfl⟩⟩
  · split_ifs <;>
      first
      | exact ⟨rfl, rfl, rfl, Or.inr (Or.inr ⟨rfl, rfl, rfl, rfl⟩)⟩
      | exact ⟨rfl, rfl, rfl, Or.inr (Or.inl ⟨rfl, rfl⟩)⟩

theorem onField_kept {W : Type} (r : RECEIVED_DATA_TYPE × Session W) (ce : Bool)
    (body : Session W → Session W) (hbody : ∀ t, EngineKept t (body t)) :
    EngineKept r.2 (onField r ce body).session := by
  unfold onField
  exact ite_elim Polled.session (EngineKept r.2) _ _ _ (hbody r.2) (engineKept_refl r.2)

/-- After the `switch`, `bootloaderHandler` leaves the receive engine alone. -/
theorem afterSwitch_kept {W : Type} (env : Board W) (hread : ReadsBytes env) (a s : Session W)
    (h : EngineKept a (protocolSwitch env s).session) :
    EngineKept a (bootloaderHandler env s) := by
  unfold bootloaderHandler
  dsimp only
  refine ite_keeps (EngineKept a) _ _ _ ?_ h
  refine engineKept_trans _ _ _ ?_ (idleExit_kept env hread _)
  exact ite_keeps (EngineKept a) _ _ _
    (engineKept_trans _ _ _ h (handleProtocolError_kept _ _ _)) h

/-- A poll: the receive engine is as the call of `receiveData` with the length and the flags
of the state leaves it, and a poll that got no data keeps the state and the segment
length. -/
theorem poll_engine {W : Type} (env : Board W) (hread : ReadsBytes env) (s : Session W) :
    EngineKept (receiveData (fieldLength s) (fieldFlags s.protocolState) s).2
      (bootloaderHandler env s)
    ∧ ((receiveData (fieldLength s) (fieldFlags s.protocolState) s).1
          = RECEIVED_DATA_TYPE.NO_RECEIVED_DATA_TYPE
        → (bootloaderHandler env s).protocolState = s.protocolState
          ∧ (bootloaderHandler env s).segmentDataLength = s.segmentDataLength) := by
  obtain ⟨ce, body, hsw, hbody⟩ := protocolSwitch_kept env hread s
  have hr := receiveData_engine (fieldLength s) (fieldFlags s.protocolState) s
  constructor
  · apply afterSwitch_kept env hread
    rw [hsw]
    exact onField_kept _ ce body hbody
  · intro hno
    have hne : (receiveData (fieldLength s) (fieldFlags s.protocolState) s).1
        ≠ RECEIVED_DATA_TYPE.VALID_RECEIVED_DATA_TYPE := by
      rw [hno]; decide
    rw [onField_skipped _ ce body hne] at hsw
    by_cases hrun : (receiveData (fieldLength s) (fieldFlags s.protocolState) s).2.running = true
    · rw [bootloaderHandler_of_other env s _ ce _ hne hrun hsw, hno]
      have hi := idleExit_fields env
        (receiveData (fieldLength s) (fieldFlags s.protocolState) s).2
      exact ⟨hi.1.trans hr.2.2.1, hi.2.2.2.2.2.1.trans hr.2.1⟩
    · have hh : bootloaderHandler env s
          = (receiveData (fieldLength s) (fieldFlags s.protocolState) s).2 := by
        unfold bootloaderHandler
        rw [hsw]
        dsimp only
        rw [if_neg hrun]
      rw [hh]
      exact ⟨hr.2.2.1, hr.2.1⟩
theorem bootloaderTimer_engine {W : Type} (s : Session W) :
    EngineKept s (bootloaderTimer s)
    ∧ (bootloaderTimer s).protocolState = s.protocolState
    ∧ (bootloaderTimer s).segmentDataLength = s.segmentDataLength := by
  unfold bootloaderTimer
  dsimp only
  split_ifs <;> exact ⟨⟨rfl, rfl, rfl, rfl, fun hb => hb⟩, rfl, rfl⟩

/-- The receive-completed interrupt with the pointer at 258 at most: the byte is stored at
the pointer, the pointer moves on by one without wrapping, and a further receive is only
started below the expected length. -/
theorem callback_engine {W : Type} (c : Nat) (s : Session W) (hp : s.rxPointer ≤ 258) :
    (bootloaderRxCompletedCallback c s).receiveState = s.receiveState
    ∧ (bootloaderRxCompletedCallback c s).expectedDataLength = s.expectedDataLength
    ∧ (bootloaderRxCompletedCallback c s).protocolState = s.protocolState
    ∧ (bootloaderRxCompletedCallback c s).segmentDataLength = s.segmentDataLength
    ∧ (bootloaderRxCompletedCallback c s).transmitBuffer = s.transmitBuffer.set s.rxPointer c
    ∧ (bootloaderRxCompletedCallback c s).rxPointer = s.rxPointer + 1
    ∧ ((bootloaderRxCompletedCallback c s).rxArmed = true
        → s.rxPointer + 1 < s.expectedDataLength) := by
  have hmod : (s.rxPointer + 1) % 65536 = s.rxPointer + 1 := Nat.mod_eq_of_lt (by omega)
  have hle : ¬ s.rxPointer + 1 > RX_BUFFER_SIZE := by unfold RX_BUFFER_SIZE; omega
  unfold bootloaderRxCompletedCallback
  dsimp only
  rw [hmod, if_neg hle]
  dsimp only
  by_cases hmore : s.rxPointer + 1 < s.expectedDataLength
  · rw [if_pos hmore]
    exact ⟨rfl, rfl, rfl, rfl, rfl, rfl, fun _ => hmore⟩
  · rw [if_neg hmore]
    exact ⟨rfl, rfl, rfl, rfl, rfl, rfl, fun h => Bool.noConfusion h⟩

theorem bootloaderHandler_safe {W : Type} (env : Board W) (hread : ReadsBytes env)
    (s : Session W) (h : EngineSafe s) : EngineSafe (bootloaderHandler env s) := by
  obtain ⟨hb, h4, h5, h6, h7⟩ := h
  obtain ⟨⟨k1, k2, k3, k4, k5⟩, hno⟩ := poll_engine env hread s
  obtain ⟨e1, e2, _, hcase⟩ :=
    receiveData_engine (fieldLength s) (fieldFlags s.protocolState) s
  have hbuf : ByteBuffer (bootloaderHandler env s) :=
    k5 ⟨e1.symm ▸ hb.1, e2.symm ▸ hb.2⟩
  unfold EngineSafe
  rw [k1, k2, k3, k4]
  rcases hcase with ⟨hi, r1, r2, r3, r4, r5⟩ | ⟨r1, r2⟩ | ⟨r2, r3, r4, r5⟩
  · rw [r2, r3, r4, r5]
    exact ⟨hbuf, fun _ => (fieldLength_congr _ _ (hno r1).1 (hno r1).2).symm,
      (fieldLength_bounds s hb.2).2.1, fun _ => (h7 hi).1,
      fun hw => RECEIVE_STATE.noConfusion hw⟩
  · rw [r2]
    exact ⟨hbuf, fun hw => (h4 hw).trans (fieldLength_congr _ _ (hno r1).1 (hno r1).2).symm,
      h5, h6, h7⟩
  · rw [r2, r3, r4, r5]
    exact ⟨hbuf, fun hw => RECEIVE_STATE.noConfusion hw, h5, fun _ => Nat.zero_le _,
      fun _ => ⟨Nat.zero_le _, fun _ => Nat.zero_le _⟩⟩

theorem bootloaderTimer_safe {W : Type} (s : Session W) (h : EngineSafe s) :
    EngineSafe (bootloaderTimer s) := by
  obtain ⟨hb, h4, h5, h6, h7⟩ := h
  obtain ⟨⟨k1, k2, k3, k4, k5⟩, p1, p2⟩ := bootloaderTimer_engine s
  unfold EngineSafe
  rw [k1, k2, k3, k4, fieldLength_congr _ _ p1 p2]
  exact ⟨k5 hb, h4, h5, h6, h7⟩

theorem bootloaderRxCompletedCallback_safe {W : Type} (c : Nat) (s : Session W)
    (hc : c < 256) (harm : s.rxArmed = true) (h : EngineSafe s) :
    EngineSafe (bootloaderRxCompletedCallback c s) := by
  obtain ⟨hb, h4, h5, h6, h7⟩ := h
  obtain ⟨c1, c2, c3, c4, c5, c6, c7⟩ := callback_engine c s (h6 harm)
  unfold EngineSafe ByteBuffer
  rw [c1, c2, c4, c5, c6, fieldLength_congr _ _ c3 c4]
  refine ⟨⟨frameBytes_set _ _ _ hb.1 hc, hb.2⟩, h4, h5, fun ha => ?_, fun hi => ?_⟩
  · have := c7 ha
    omega
  · have := (h7 hi).2 harm
    exact ⟨by omega, fun ha => by have := c7 ha; omega⟩

theorem bootloaderInit_safe {W : Type} (env : Board W) (w : W) (tag : Nat) :
    EngineSafe (bootloaderInit env (initialSession w tag)) := by
  have hzero : FrameBytes (List.replicate RX_BUFFER_SIZE 0) :=
    ⟨List.length_replicate _ _, fun b hb => by
      rw [(List.mem_replicate.mp hb).2]; decide⟩
  have key : ∀ t : Session W, t.transmitBuffer = List.replicate RX_BUFFER_SIZE 0 →
      t.segmentDataLength = 0 → t.receiveState = RECEIVE_STATE.INIT_RECEIVE_STATE →
      t.expectedDataLength = 0 → t.rxPointer = 0 → EngineSafe t := by
    intro t t1 t2 t3 t4 t5
    unfold EngineSafe ByteBuffer
    rw [t1, t2, t3, t4, t5]
    exact ⟨⟨hzero, Nat.zero_le _⟩, fun hw => RECEIVE_STATE.noConfusion hw, Nat.zero_le _,
      fun _ => Nat.zero_le _, fun _ => ⟨Nat.zero_le _, fun _ => Nat.zero_le _⟩⟩
  unfold bootloaderInit
  dsimp only
  exact ite_keeps EngineSafe _ _ _ (key _ rfl rfl rfl rfl rfl) (key _ rfl rfl rfl rfl rfl)

theorem step_safe {W : Type} (env : Board W) (hread : ReadsBytes env) (s t : Session W)
    (hstep : Step env s t) (h : EngineSafe s) : EngineSafe t := by
  cases hstep with
  | poll _ => exact bootloaderHandler_safe env hread s h
  | tick _ => exact bootloaderTimer_safe s h
  | received c _ harm hc => exact bootloaderRxCompletedCallback_safe c s hc harm h
  | transmitted _ => exact h

/-- Every session the bootloader can reach after `bootloaderInit` satisfies the invariant of
the receive engine. -/
theorem run_safe {W : Type} (env : Board W) (hread : ReadsBytes env) (w : W) (tag : Nat)
    (t : Session W)
    (hreach : Relation.ReflTransGen (Step env) (bootloaderInit env (initialSession w tag)) t) :
    EngineSafe t := by
  induction hreach with
  | refl => exact bootloaderInit_safe env w tag
  | tail _ hstep ih => exact step_safe env hread _ _ hstep ih
theorem callback_arms {W : Type} (c : Nat) (s : Session W) (hp : s.rxPointer ≤ 258) :
    (bootloaderRxCompletedCallback c s).running = s.running
    ∧ (s.rxPointer + 1 < s.expectedDataLength
        → (bootloaderRxCompletedCallback c s).rxArmed = true) := by
  have hmod : (s.rxPointer + 1) % 65536 = s.rxPointer + 1 := Nat.mod_eq_of_lt (by omega)
  have hle : ¬ s.rxPointer + 1 > RX_BUFFER_SIZE := by unfold RX_BUFFER_SIZE; omega
  unfold bootloaderRxCompletedCallback
  dsimp only
  rw [hmod, if_neg hle]
  dsimp only
  by_cases hmore : s.rxPointer + 1 < s.expectedDataLength
  · rw [if_pos hmore]
    exact ⟨rfl, fun _ => rfl⟩
  · rw [if_neg hmore]
    exact ⟨rfl, fun h => absurd h hmore⟩

theorem receiveData_arms {W : Type} (len flags : Nat) (s : Session W)
    (h : s.receiveState = RECEIVE_STATE.INIT_RECEIVE_STATE) :
    (receiveData len flags s).2.rxArmed = true
    ∧ (receiveData len flags s).2.expectedDataLength = len
    ∧ (receiveData len flags s).2.rxPointer = s.rxPointer
    ∧ (receiveData len flags s).2.running = s.running
    ∧ (receiveData len flags s).2.receiveState = RECEIVE_STATE.WAIT_FOR_DATA_RECEIVE_STATE := by
  unfold receiveData
  rw [h]
  exact ⟨rfl, rfl, rfl, rfl, rfl⟩

/-- The bytes of a field arriving one by one, each while a one-byte receive is pending, are a
run of the bootloader. -/
theorem reach_deliver {W : Type} (env : Board W) (bytes : List Nat) :
    ∀ u : Session W, u.running = true → (bytes ≠ [] → u.rxArmed = true) →
      (∀ b ∈ bytes, b < 256) → u.rxPointer + bytes.length ≤ u.expectedDataLength →
      u.expectedDataLength ≤ 259 →
      Relation.ReflTransGen (Step env) u (deliver bytes u) := by
  induction bytes with
  | nil => intro u _ _ _ _ _; exact Relation.ReflTransGen.refl
  | cons c rest ih =>
    intro u hrun harm hb hlen hexp
    rw [List.length_cons] at hlen
    have hp : u.rxPointer ≤ 258 := by omega
    obtain ⟨_, c2, _, _, _, c6, _⟩ := callback_engine c u hp
    obtain ⟨a1, a2⟩ := callback_arms c u hp
    rw [deliver_cons]
    refine Relation.ReflTransGen.head
      (Step.received u c hrun (harm (List.cons_ne_nil c rest)) (hb c (List.mem_cons_self c rest)))
      (ih _ (a1.trans hrun) (fun hne => a2 ?_)
        (fun b hmem => hb b (List.mem_cons_of_mem c hmem)) ?_ (c2.symm ▸ hexp))
    · have : 1 ≤ rest.length := List.length_pos.mpr hne
      omega
    · rw [c2, c6]
      omega
/-- One whole field, received while the bootloader waits for it (the poll that starts the
receive, the bytes one by one, the poll that takes the field), is a run of the bootloader. -/
theorem reach_pollFrame {W : Type} (env : Board W) (s : Session W) (frame : List Nat)
    (hs : AwaitingField s) (hlen : frame.length = fieldLength s)
    (hb : ∀ b ∈ frame, b < 256) (hle : frame.length ≤ 258) :
    Relation.ReflTransGen (Step env) s (pollFrame env frame s) := by
  obtain ⟨ce, body, hsw⟩ := protocolSwitch_field env s
  obtain ⟨hp, _⟩ := poll_arms env s _ _ ce body hs hsw
  obtain ⟨r1, r2, r3, r4, _⟩ :=
    receiveData_arms (fieldLength s) (fieldFlags s.protocolState) s hs.2.1
  have hrun1 : (bootloaderHandler env s).running = true := by rw [hp, r4]; exact hs.1
  have hd := reach_deliver env frame (bootloaderHandler env s) hrun1
    (fun _ => by rw [hp]; exact r1) hb (by rw [hp, r3, r2, hs.2.2.1, ← hlen]; omega)
    (by rw [hp, r2, ← hlen]; omega)
  have hrun2 : (deliver frame (bootloaderHandler env s)).running = true :=
    ((deliver_sameCommand frame (bootloaderHandler env s)).1.2.2.2.2.2.1).trans hrun1
  exact Relation.ReflTransGen.tail (Relation.ReflTransGen.head (Step.poll s hs.1) hd)
    (Step.poll _ hrun2)
/-- The example session `writeDataPending` is the end of a run of the bootloader from
reset. -/
theorem writeDataPending_reached :
    Relation.ReflTransGen (Step (exampleBoard 0xFFFFFFFF))
      (bootloaderInit (exampleBoard 0xFFFFFFFF) (initialSession () 0)) writeDataPending := by
  have h1 := reach_pollFrame (exampleBoard 0xFFFFFFFF) residentSession [0x31, 0xD4, 0xC1]
    (by decide!) (by decide!) (by decide) (by decide)
  have h2 := reach_pollFrame (exampleBoard 0xFFFFFFFF)
    (pollFrame (exampleBoard 0xFFFFFFFF) [0x31, 0xD4, 0xC1] residentSession)
    [0x08, 0x00, 0x32, 0x00, 0x00, 0x17] (by decide!) (by decide!) (by decide) (by decide)
  have h3 := reach_pollFrame (exampleBoard 0xFFFFFFFF)
    (pollFrame (exampleBoard 0xFFFFFFFF) [0x08, 0x00, 0x32, 0x00, 0x00, 0x17]
      (pollFrame (exampleBoard 0xFFFFFFFF) [0x31, 0xD4, 0xC1] residentSession))
    [0xFF] (by decide!) (by decide!) (by decide) (by decide)
  unfold writeDataPending
  rw [afterFields_cons, afterFields_cons, afterFields_cons, afterFields_nil]
  exact Relation.ReflTransGen.tail (h1.trans (h2.trans h3)) (Step.poll _ (by decide!))
/-! ## Lemmas on the executions of GO -/

/-- The session `beforeIdleExit env s` is the one the last statement of `bootloaderHandler`
runs in. -/
theorem bootloaderHandler_beforeIdleExit {W : Type} (env : Board W) (s : Session W) :
    bootloaderHandler env s
      = if (protocolSwitch env s).session.running = true then
          idleExit env (beforeIdleExit env s)
        else (protocolSwitch env s).session := rfl

/-- A poll with no completed frame waiting executes GO exactly when the idle-exit counter
is zero, and then once. -/
theorem goExecutions_quiet {W : Type} (env : Board W) (s : Session W)
    (hrun : s.running = true) (hquiet : s.rxDataReady = false) :
    goExecutions env s = if s.bootloaderExitTimeout = 0 then 1 else 0 := by
  obtain ⟨len, flags, ce, body, hsw⟩ := protocolSwitch_shape env s
  obtain ⟨q1, q2, _, q4, _, _, _⟩ := receiveData_quiet len flags s hquiet
  have hne : (receiveData len flags s).1 ≠ RECEIVED_DATA_TYPE.VALID_RECEIVED_DATA_TYPE := by
    rcases q1 with h | h <;> rw [h] <;> decide
  rw [onField_skipped _ _ _ hne] at hsw
  obtain ⟨_, _, e3, _, _, _⟩ :=
    handleProtocolError_quiet (receiveData len flags s).1 ce (receiveData len flags s).2 q1
  unfold goExecutions beforeIdleExit
  rw [hsw]
  dsimp only
  rw [if_neg (fun h => hne h.2), if_pos hne, e3, q4, q2, Nat.zero_add]
  by_cases hz : s.bootloaderExitTimeout = 0
  · rw [if_pos hz, if_pos (And.intro hrun hz)]
  · rw [if_neg hz, if_neg (fun h => hz h.2)]

theorem goExecutionsIn_stopped {W : Type} (env : Board W) (n : Nat) (s : Session W)
    (h : s.running = false) : goExecutionsIn env n s = 0 := by
  cases n with
  | zero => rfl
  | succ n =>
    show (if s.running = true then
      goExecutions env s + goExecutionsIn env n (bootloaderHandler env s) else 0) = 0
    rw [if_neg (by rw [h]; decide)]

theorem goExecutionsIn_succ {W : Type} (env : Board W) (n : Nat) (s : Session W)
    (h : s.running = true) :
    goExecutionsIn env (n + 1) s
      = goExecutions env s + goExecutionsIn env n (bootloaderHandler env s) := by
  show (if s.running = true then
    goExecutions env s + goExecutionsIn env n (bootloaderHandler env s) else 0) = _
  rw [if_pos h]

/-- With the counter at zero and a marker that is not valid, every poll executes GO again. -/
theorem goExecutionsIn_idle_invalid {W : Type} (env : Board W) (n : Nat) :
    ∀ s : Session W, s.running = true → s.bootloaderExitTimeout = 0 → s.rxDataReady = false →
      env.load32 s.world s.validApplicationTag ≠ VALID_FIRMWARE_VALUE →
      goExecutionsIn env n s = n := by
  induction n with
  | zero => intro s _ _ _ _; rfl
  | succ n ih =>
    intro s hrun hzero hquiet hm
    obtain ⟨p1, p2, p3, p4, -, p6⟩ := poll_idle env s hrun hzero hquiet
    obtain ⟨-, q2⟩ := p6 hm
    rw [goExecutionsIn_succ env n s hrun, goExecutions_quiet env s hrun hquiet, if_pos hzero,
      ih _ q2 p2 p1 (by rw [p3, p4]; exact hm)]
    omega

/-- With the counter at zero, a valid marker and a jump that comes back, every poll executes
GO again. -/
theorem goExecutionsIn_idle_returning {W : Type} (env : Board W) (n : Nat) :
    ∀ s : Session W, s.running = true → s.bootloaderExitTimeout = 0 → s.rxDataReady = false →
      env.load32 s.world s.validApplicationTag = VALID_FIRMWARE_VALUE →
      env.jumpReturns s.world = true →
      goExecutionsIn env n s = n := by
  induction n with
  | zero => intro s _ _ _ _ _; rfl
  | succ n ih =>
    intro s hrun hzero hquiet hm hret
    obtain ⟨p1, p2, p3, p4, p5, -⟩ := poll_idle env s hrun hzero hquiet
    obtain ⟨-, q2⟩ := p5 hm
    rw [goExecutionsIn_succ env n s hrun, goExecutions_quiet env s hrun hquiet, if_pos hzero,
      ih _ (q2.trans hret) p2 p1 (by rw [p3, p4]; exact hm) (by rw [p3]; exact hret)]
    omega

/-- With the counter at zero, a valid marker and a jump that does not come back, the first
poll executes GO and no later poll runs. -/
theorem goExecutionsIn_idle_valid {W : Type} (env : Board W) (n : Nat) (s : Session W)
    (hrun : s.running = true) (hzero : s.bootloaderExitTimeout = 0)
    (hquiet : s.rxDataReady = false)
    (hm : env.load32 s.world s.validApplicationTag = VALID_FIRMWARE_VALUE)
    (hret : env.jumpReturns s.world = false) :
    goExecutionsIn env (n + 1) s = 1 := by
  obtain ⟨-, -, -, -, p5, -⟩ := poll_idle env s hrun hzero hquiet
  obtain ⟨-, q2⟩ := p5 hm
  rw [goExecutionsIn_succ env n s hrun, goExecutions_quiet env s hrun hquiet, if_pos hzero,
    goExecutionsIn_stopped env n _ (q2.trans hret)]
/-- With the counter at zero and a marker that is not valid, the bootloader is still running
after any number of polls. -/
theorem polls_idle_running {W : Type} (env : Board W) (n : Nat) :
    ∀ s : Session W, s.running = true → s.bootloaderExitTimeout = 0 → s.rxDataReady = false →
      env.load32 s.world s.validApplicationTag ≠ VALID_FIRMWARE_VALUE →
      (polls env n s).running = true := by
  induction n with
  | zero => intro s hrun _ _ _; exact hrun
  | succ n ih =>
    intro s hrun hzero hquiet hm
    obtain ⟨p1, p2, p3, p4, -, p6⟩ := poll_idle env s hrun hzero hquiet
    obtain ⟨-, q2⟩ := p6 hm
    rw [polls_succ env n s hrun]
    exact ih _ q2 p2 p1 (by rw [p3, p4]; exact hm)

/-- A poll with no completed frame waiting reaches the last statement of
`bootloaderHandler`. -/
theorem switch_quiet_running {W : Type} (env : Board W) (s : Session W)
    (hrun : s.running = true) (hquiet : s.rxDataReady = false) :
    (protocolSwitch env s).session.running = true := by
  obtain ⟨len, flags, ce, body, hsw⟩ := protocolSwitch_shape env s
  obtain ⟨q1, q2, _, _, _, _, _⟩ := receiveData_quiet len flags s hquiet
  have hne : (receiveData len flags s).1 ≠ RECEIVED_DATA_TYPE.VALID_RECEIVED_DATA_TYPE := by
    rcases q1 with h | h <;> rw [h] <;> decide
  rw [hsw, onField_skipped _ _ _ hne]
  exact q2.trans hrun
/-! ## C1 -/

/-- C1: for every data buffer, start address and length, `executeCommand` for READ, WRITE or
EXTENDED_ERASE while `hostAuthorized` is false returns failure and leaves the data buffer
and the whole session as they were: the trace gains no flash erase, write or read, the flash
is untouched and `hostAuthorized` stays false. -/
theorem C1_unauthorized_command_is_inert {W : Type} (env : Board W) (commandCode : Nat)
    (data : List Nat) (startAddress dataLength : Nat) (s : Session W)
    (hauth : s.hostAuthorized = false)
    (hcode : commandCode = READ_BOOTLOADER_COMMAND ∨ commandCode = WRITE_BOOTLOADER_COMMAND
      ∨ commandCode = EXTERASE_BOOTLOADER_COMMAND) :
    (executeCommand env commandCode data startAddress dataLength s).result = false
    ∧ (executeCommand env commandCode data startAddress dataLength s).data = data
    ∧ (executeCommand env commandCode data startAddress dataLength s).session = s
    ∧ (executeCommand env commandCode data startAddress dataLength s).session.trace = s.trace
    ∧ (executeCommand env commandCode data startAddress dataLength s).session.world = s.world
    ∧ (executeCommand env commandCode data startAddress dataLength s).session.hostAuthorized
      = false := by
  have key : executeCommand env commandCode data startAddress dataLength s = ⟨false, data, s⟩ := by
    rcases hcode with h | h | h <;> subst h
    · rw [executeCommand_read, if_neg (by simp [hauth])]
    · rw [executeCommand_write, if_neg (by simp [hauth])]
    · rw [executeCommand_exterase, if_neg (by simp [hauth])]
  rw [key]
  exact ⟨rfl, rfl, rfl, rfl, rfl, hauth⟩

/-- C1 at a READ of four bytes in the resident example session, which is not authorized. -/
theorem C1_unauthorized_read_example :
    residentSession.hostAuthorized = false
    ∧ (READ_BOOTLOADER_COMMAND = READ_BOOTLOADER_COMMAND
      ∨ READ_BOOTLOADER_COMMAND = WRITE_BOOTLOADER_COMMAND
      ∨ READ_BOOTLOADER_COMMAND = EXTERASE_BOOTLOADER_COMMAND)
    ∧ (executeCommand (exampleBoard 0xFFFFFFFF) READ_BOOTLOADER_COMMAND [1, 2, 3, 4] 0x08003200 4
        residentSession).result = false
    ∧ (executeCommand (exampleBoard 0xFFFFFFFF) READ_BOOTLOADER_COMMAND [1, 2, 3, 4] 0x08003200 4
        residentSession).session.trace = residentSession.trace :=
  ⟨by decide!, Or.inl rfl,
    (C1_unauthorized_command_is_inert (exampleBoard 0xFFFFFFFF) READ_BOOTLOADER_COMMAND
      [1, 2, 3, 4] 0x08003200 4 residentSession (by decide!) (Or.inl rfl)).1,
    (C1_unauthorized_command_is_inert (exampleBoard 0xFFFFFFFF) READ_BOOTLOADER_COMMAND
      [1, 2, 3, 4] 0x08003200 4 residentSession (by decide!) (Or.inl rfl)).2.2.2.1⟩

/-! ## C2 -/

/-- C2 (the code departs from the claim): on the example board, never authorized, every field
of a WRITE and of a READ sequence is CRC-valid, and the byte sent in reply to the final field
is ACK (0x79), not NACK, although no flash call is made; for READ the device then also sends
four bytes of its frame buffer.  Only EXTENDED_ERASE is answered with NACK. -/
theorem C2_unauthorized_write_and_read_are_acknowledged :
    residentSession.hostAuthorized = false
    ∧ unauthorizedWrite.hostAuthorized = false
    ∧ transmitted unauthorizedWrite.trace = [[ACK], [ACK], [ACK]]
    ∧ unauthorizedWrite.protocolState = PROTOCOL_STATE.WAIT_FOR_COMMAND_PROTOCOL_STATE
    ∧ flashCalls unauthorizedWrite.trace = []
    ∧ unauthorizedRead.hostAuthorized = false
    ∧ transmitted unauthorizedRead.trace = [[ACK], [ACK], [ACK], [0x03, 0x01, 0x40, 0x00]]
    ∧ unauthorizedRead.protocolState = PROTOCOL_STATE.WAIT_FOR_COMMAND_PROTOCOL_STATE
    ∧ flashCalls unauthorizedRead.trace = []
    ∧ transmitted unauthorizedErase.trace = [[ACK], [NACK]]
    ∧ flashCalls unauthorizedErase.trace = [] := by
  refine ⟨?_, ?_, ?_, ?_, ?_, ?_, ?_, ?_, ?_, ?_, ?_⟩ <;> decide!

/-! ## C3 -/

/-- C3: take the challenge that RANDOMIZE issues (any board, seed and session) and the
8-byte ciphertext it leaves in the buffer.  Let the host decrypt the ciphertext with
(n=2651, d=2743) and answer with the recovered bytes encrypted with (n=1243, e=3).  When that
answer, followed by its CRC, is the completed field of the RANDOMIZE follow-up state while the
challenge is outstanding, AUTHORIZE recovers exactly the challenge, returns success and sets
`hostAuthorized`; the poll transmits the single byte ACK, leaves the session authorized and
returns to WAIT_FOR_COMMAND. -/
theorem C3_correct_response_authorizes {W : Type} (env : Board W) (s0 s : Session W)
    (data0 : List Nat) (seed len0 hi lo : Nat) (hd : 8 ≤ data0.length)
    (hchallenge : s.randomValue
      = (executeCommand env RANDOMIZE_BOOTLOADER_COMMAND data0 seed len0 s0).session.randomValue)
    (hstate : s.protocolState
      = PROTOCOL_STATE.RANDOMIZE_COMMAND_RECEIVE_ENCRYPTED_RANDOM_VALUE_STATE)
    (hhi : hi < 256) (hlo : lo < 256)
    (hframe : FrameCompleted s
      (hostResponse
        ((executeCommand env RANDOMIZE_BOOTLOADER_COMMAND data0 seed len0 s0).data.take 8)
        ++ [hi, lo]))
    (hcrc : hi * 256 + lo = crc16ArcReference (hostResponse
      ((executeCommand env RANDOMIZE_BOOTLOADER_COMMAND data0 seed len0 s0).data.take 8))) :
    (executeCommand env AUTHORIZE_HOST_COMMAND s.transmitBuffer 0
        ENCRYPTED_RANDOM_VALUE_LENGTH s).result = true
    ∧ (executeCommand env AUTHORIZE_HOST_COMMAND s.transmitBuffer 0
        ENCRYPTED_RANDOM_VALUE_LENGTH s).session.receivedRandomValue = s.randomValue
    ∧ (executeCommand env AUTHORIZE_HOST_COMMAND s.transmitBuffer 0
        ENCRYPTED_RANDOM_VALUE_LENGTH s).session.hostAuthorized = true
    ∧ transmitted (bootloaderHandler env s).trace = transmitted s.trace ++ [[ACK]]
    ∧ (bootloaderHandler env s).hostAuthorized = true
    ∧ (bootloaderHandler env s).protocolState
      = PROTOCOL_STATE.WAIT_FOR_COMMAND_PROTOCOL_STATE := by
  rw [executeCommand_randomize] at hchallenge hframe hcrc
  dsimp only at hchallenge hframe hcrc
  have hc : (env.rand (seed % 65536) 0 + (env.rand (seed % 65536) 1 % 4294967296) * 65536 + 1)
      % 4294967296 < 4294967296 := Nat.mod_lt _ (by norm_num)
  obtain ⟨rest, hbuf⟩ := frameCompleted_buffer _ _ hframe
  have hdec : wordOfBytes (decrypt s.transmitBuffer (bytesOfWord s.receivedRandomValue) 4
      cryptoKeyHostN cryptoKeyHostD) = s.randomValue := by
    rw [hbuf, List.append_assoc, decrypt_hostResponse _ hc data0 hd, hchallenge]
  have hsw := protocolSwitch_valid_field env s _ hi lo _ true (randomizeResponseReceived env)
    (switch_randomize env s hstate) (hostResponse_lt _ data0 hd) hhi hlo hframe hcrc
  rw [← hcrc] at hsw
  have hfields := bootloaderHandler_valid_fields env s _ true hsw
  have hbody := randomizeResponseReceived_match env (frameTaken s (hi * 256 + lo)) hdec
  rw [executeCommand_authorize, if_pos hdec]
  refine ⟨rfl, hdec, rfl, ?_, ?_, ?_⟩
  · rw [hfields.2.2.2, hbody.2.2, transmitted_append]
    rfl
  · rw [hfields.1, hbody.1]
  · rw [hfields.2.1, hbody.2.1]

/-- C3 on the example board: the challenge 809119802 issued by RANDOMIZE, the response
`AC FF A8 FB AC FF A8 FB` of the host with its CRC `3D D6`, and the ACK of the device. -/
theorem C3_example_exchange :
    8 ≤ residentSession.transmitBuffer.length
    ∧ (responseSession [172, 255, 168, 251, 172, 255, 168, 251, 0x3D, 0xD6]).randomValue
      = (executeCommand (exampleBoard 0xFFFFFFFF) RANDOMIZE_BOOTLOADER_COMMAND
          residentSession.transmitBuffer 0 0 residentSession).session.randomValue
    ∧ hostResponse ((executeCommand (exampleBoard 0xFFFFFFFF) RANDOMIZE_BOOTLOADER_COMMAND
          residentSession.transmitBuffer 0 0 residentSession).data.take 8)
      = [172, 255, 168, 251, 172, 255, 168, 251]
    ∧ transmitted (bootloaderHandler (exampleBoard 0xFFFFFFFF)
        (responseSession [172, 255, 168, 251, 172, 255, 168, 251, 0x3D, 0xD6])).trace
      = transmitted
          (responseSession [172, 255, 168, 251, 172, 255, 168, 251, 0x3D, 0xD6]).trace
        ++ [[ACK]]
    ∧ (bootloaderHandler (exampleBoard 0xFFFFFFFF)
        (responseSession [172, 255, 168, 251, 172, 255, 168, 251, 0x3D, 0xD6])).hostAuthorized
      = true :=
  ⟨by decide!, by decide!, example_hostResponse,
    (C3_correct_response_authorizes (exampleBoard 0xFFFFFFFF) residentSession
      (responseSession [172, 255, 168, 251, 172, 255, 168, 251, 0x3D, 0xD6])
      residentSession.transmitBuffer 0 0 0x3D 0xD6 (by decide!) (by decide!) (by decide!)
      (by decide) (by decide)
      (example_hostResponse ▸ (by decide!))
      (example_hostResponse ▸ (by decide!))).2.2.2.1,
    (C3_correct_response_authorizes (exampleBoard 0xFFFFFFFF) residentSession
      (responseSession [172, 255, 168, 251, 172, 255, 168, 251, 0x3D, 0xD6])
      residentSession.transmitBuffer 0 0 0x3D 0xD6 (by decide!) (by decide!) (by decide!)
      (by decide) (by decide)
      (example_hostResponse ▸ (by decide!))
      (example_hostResponse ▸ (by decide!))).2.2.2.2.1⟩

/-! ## C4 -/

/-- C4: for every outstanding challenge and every 8-byte response whose byte-wise decryption
with (n=1243, d=1867) is not the challenge, when the response, followed by its CRC, is the
completed field of the RANDOMIZE follow-up state, AUTHORIZE returns failure, the poll
transmits the single byte NACK and returns to WAIT_FOR_COMMAND, and `hostAuthorized` keeps
the value it had. -/
theorem C4_wrong_response_is_rejected {W : Type} (env : Board W) (s : Session W)
    (response : List Nat) (hi lo : Nat) (hlen : response.length = 8)
    (hb : ∀ b ∈ response, b < 256) (hhi : hi < 256) (hlo : lo < 256)
    (hstate : s.protocolState
      = PROTOCOL_STATE.RANDOMIZE_COMMAND_RECEIVE_ENCRYPTED_RANDOM_VALUE_STATE)
    (hframe : FrameCompleted s (response ++ [hi, lo]))
    (hcrc : hi * 256 + lo = crc16ArcReference response)
    (hwrong : wordOfBytes (decrypt response [0, 0, 0, 0] 4 cryptoKeyHostN cryptoKeyHostD)
      ≠ s.randomValue) :
    (executeCommand env AUTHORIZE_HOST_COMMAND s.transmitBuffer 0
        ENCRYPTED_RANDOM_VALUE_LENGTH s).result = false
    ∧ (executeCommand env AUTHORIZE_HOST_COMMAND s.transmitBuffer 0
        ENCRYPTED_RANDOM_VALUE_LENGTH s).session.hostAuthorized = s.hostAuthorized
    ∧ transmitted (bootloaderHandler env s).trace = transmitted s.trace ++ [[NACK]]
    ∧ (bootloaderHandler env s).protocolState
      = PROTOCOL_STATE.WAIT_FOR_COMMAND_PROTOCOL_STATE
    ∧ (bootloaderHandler env s).hostAuthorized = s.hostAuthorized := by
  obtain ⟨rest, hbuf⟩ := frameCompleted_buffer _ _ hframe
  have hdec : wordOfBytes (decrypt s.transmitBuffer (bytesOfWord s.receivedRandomValue) 4
      cryptoKeyHostN cryptoKeyHostD) ≠ s.randomValue := by
    rw [hbuf, List.append_assoc,
      decrypt_eight response _ (bytesOfWord s.receivedRandomValue) _ _ hlen rfl]
    exact hwrong
  have hsw := protocolSwitch_valid_field env s response hi lo _ true
    (randomizeResponseReceived env) (switch_randomize env s hstate) hb hhi hlo hframe hcrc
  rw [← hcrc] at hsw
  have hfields := bootloaderHandler_valid_fields env s _ true hsw
  have hbody := randomizeResponseReceived_mismatch env (frameTaken s (hi * 256 + lo)) hdec
  rw [executeCommand_authorize, if_neg hdec]
  refine ⟨rfl, rfl, ?_, ?_, ?_⟩
  · rw [hfields.2.2.2, hbody.2.2, transmitted_append]
    rfl
  · rw [hfields.2.1, hbody.2.1]
  · rw [hfields.1, hbody.1]
    rfl

/-- C4 on the example board: eight zero bytes (CRC `00 00`) are not the answer to the
outstanding challenge 809119802; the device sends NACK and stays unauthorized. -/
theorem C4_example_wrong_response :
    [0, 0, 0, 0, 0, 0, 0, 0].length = 8
    ∧ wordOfBytes (decrypt [0, 0, 0, 0, 0, 0, 0, 0] [0, 0, 0, 0] 4 cryptoKeyHostN cryptoKeyHostD)
      ≠ (responseSession [0, 0, 0, 0, 0, 0, 0, 0, 0, 0]).randomValue
    ∧ (responseSession [0, 0, 0, 0, 0, 0, 0, 0, 0, 0]).hostAuthorized = false
    ∧ transmitted (bootloaderHandler (exampleBoard 0xFFFFFFFF)
        (responseSession [0, 0, 0, 0, 0, 0, 0, 0, 0, 0])).trace
      = transmitted (responseSession [0, 0, 0, 0, 0, 0, 0, 0, 0, 0]).trace ++ [[NACK]]
    ∧ (bootloaderHandler (exampleBoard 0xFFFFFFFF)
        (responseSession [0, 0, 0, 0, 0, 0, 0, 0, 0, 0])).hostAuthorized
      = (responseSession [0, 0, 0, 0, 0, 0, 0, 0, 0, 0]).hostAuthorized :=
  ⟨rfl, example_wrong_decryption ▸ (by decide!), by decide!,
    (C4_wrong_response_is_rejected (exampleBoard 0xFFFFFFFF)
      (responseSession [0, 0, 0, 0, 0, 0, 0, 0, 0, 0]) [0, 0, 0, 0, 0, 0, 0, 0] 0 0 rfl
      (by decide) (by decide) (by decide) (by decide!)
      (by decide!)
      (by decide!) (example_wrong_decryption ▸ (by decide!))).2.2.1,
    (C4_wrong_response_is_rejected (exampleBoard 0xFFFFFFFF)
      (responseSession [0, 0, 0, 0, 0, 0, 0, 0, 0, 0]) [0, 0, 0, 0, 0, 0, 0, 0] 0 0 rfl
      (by decide) (by decide) (by decide) (by decide!)
      (by decide!)
      (by decide!) (example_wrong_decryption ▸ (by decide!))).2.2.2.2⟩

/-! ## C5 -/

/-- C5: `hostAuthorized` is monotone.  From a session in which it is true, it is still true
after a poll of `bootloaderHandler` (whatever the receive engine reports and the buffer
holds), after a timer tick, after a receive-completed callback with any byte, and after a
transmit-completed callback, hence after every step of the session; and no command of
`executeCommand`, in particular a new RANDOMIZE or an AUTHORIZE that fails, clears it. -/
theorem C5_authorized_is_monotone {W : Type} (env : Board W) (s : Session W)
    (h : s.hostAuthorized = true) :
    (bootloaderHandler env s).hostAuthorized = true
    ∧ (bootloaderTimer s).hostAuthorized = true
    ∧ (∀ c : Nat, (bootloaderRxCompletedCallback c s).hostAuthorized = true)
    ∧ (bootloaderTxCompletedCallback s).hostAuthorized = true
    ∧ (∀ t : Session W, Step env s t → t.hostAuthorized = true)
    ∧ (∀ (code : Nat) (data : List Nat) (a l : Nat),
        (executeCommand env code data a l s).session.hostAuthorized = true) := by
  have h1 := bootloaderHandler_keeps_authorized env s h
  have h2 : (bootloaderTimer s).hostAuthorized = true :=
    (bootloaderTimer_hostAuthorized s).trans h
  have h3 : ∀ c : Nat, (bootloaderRxCompletedCallback c s).hostAuthorized = true :=
    fun c => (bootloaderRxCompletedCallback_hostAuthorized c s).trans h
  refine ⟨h1, h2, h3, h, ?_, fun code data a l => executeCommand_keeps_authorized env code data a l s h⟩
  intro t step
  cases step with
  | poll _ => exact h1
  | tick _ => exact h2
  | received c _ _ _ => exact h3 c
  | transmitted _ => exact h

/-- C5 at an authorized copy of the resident example session: a poll keeps it authorized. -/
theorem C5_authorized_example :
    ({ residentSession with hostAuthorized := true } : Session Unit).hostAuthorized = true
    ∧ (bootloaderHandler (exampleBoard 0xFFFFFFFF)
        { residentSession with hostAuthorized := true }).hostAuthorized = true :=
  ⟨rfl, (C5_authorized_is_monotone (exampleBoard 0xFFFFFFFF)
    { residentSession with hostAuthorized := true } rfl).1⟩

/-! ## C6 -/

/-- C6: for every sequence of bytes, folding `crcCalculation` over the bytes one at a time
from the start value 0 gives the reference whole-buffer CRC-16/ARC of the sequence. -/
theorem C6_incremental_crc_matches_reference (bytes : List Nat) (h : ∀ b ∈ bytes, b < 256) :
    bytes.foldl crcCalculation 0 = crc16ArcReference bytes :=
  crcFold_eq_reference bytes h 0

/-- C6 at the ASCII bytes of "123456789": both computations give 0xBB3D. -/
theorem C6_check_value :
    (∀ b ∈ [0x31, 0x32, 0x33, 0x34, 0x35, 0x36, 0x37, 0x38, 0x39], b < 256)
    ∧ [0x31, 0x32, 0x33, 0x34, 0x35, 0x36, 0x37, 0x38, 0x39].foldl crcCalculation 0 = 0xBB3D
    ∧ crc16ArcReference [0x31, 0x32, 0x33, 0x34, 0x35, 0x36, 0x37, 0x38, 0x39] = 0xBB3D :=
  ⟨by decide,
    (C6_incremental_crc_matches_reference [0x31, 0x32, 0x33, 0x34, 0x35, 0x36, 0x37, 0x38, 0x39]
      (by decide)).trans (by decide!),
    by decide!⟩

/-! ## C7 -/

/-- C7: for every frame of L bytes (2 ≤ L ≤ 280): whenever it is the completed frame and
`receiveData` is called with the CRC-reset and the CRC-validate flag, the result is VALID
exactly when `byte[L-2] * 256 + byte[L-1]` is the CRC-16/ARC, from start value 0, of bytes
`0 .. L-3`, and INVALID otherwise, and in both cases the receive state is idle and the fill
pointer 0 afterwards.  The frame is the completed frame once its L bytes have been received
after `receiveData` started the receive from the idle state. -/
theorem C7_receiveData_crc_verdict (W : Type) (frame : List Nat)
    (hlo : 2 ≤ frame.length) (hhi : frame.length ≤ RX_BUFFER_SIZE)
    (hb : ∀ b ∈ frame, b < 256) :
    (∀ (s : Session W) (len : Nat), FrameCompleted s frame →
      ((receiveData len (INIT_CRC_FLAG ||| CALCULATE_CRC_FLAG) s).1
          = RECEIVED_DATA_TYPE.VALID_RECEIVED_DATA_TYPE
        ↔ frame.getD (frame.length - 2) 0 * 256 + frame.getD (frame.length - 1) 0
          = crc16ArcReference (frame.take (frame.length - 2)))
      ∧ (frame.getD (frame.length - 2) 0 * 256 + frame.getD (frame.length - 1) 0
          ≠ crc16ArcReference (frame.take (frame.length - 2))
        → (receiveData len (INIT_CRC_FLAG ||| CALCULATE_CRC_FLAG) s).1
          = RECEIVED_DATA_TYPE.INVALID_RECEIVED_DATA_TYPE)
      ∧ (receiveData len (INIT_CRC_FLAG ||| CALCULATE_CRC_FLAG) s).2.receiveState
          = RECEIVE_STATE.INIT_RECEIVE_STATE
      ∧ (receiveData len (INIT_CRC_FLAG ||| CALCULATE_CRC_FLAG) s).2.rxPointer = 0)
    ∧ (∀ (s0 : Session W) (flags : Nat),
      s0.receiveState = RECEIVE_STATE.INIT_RECEIVE_STATE → s0.rxPointer = 0 →
      s0.transmitBuffer.length = RX_BUFFER_SIZE →
      FrameCompleted (deliver frame (receiveData frame.length flags s0).2) frame) := by
  have hp : ∀ x ∈ frame.take (frame.length - 2), x < 256 :=
    fun x hx => hb x (List.mem_of_mem_take hx)
  have href : crc16ArcReference (frame.take (frame.length - 2))
      = crcFold 0 (frame.take (frame.length - 2)) := (crcFold_eq_reference _ hp 0).symm
  constructor
  · intro s len hc
    rw [receiveData_completed s frame len hlo hb hc, href]
    refine ⟨⟨fun h => ?_, fun h => ?_⟩, fun hne => ?_, rfl, rfl⟩
    · by_contra hne
      rw [if_pos (fun e => hne e.symm)] at h
      exact RECEIVED_DATA_TYPE.noConfusion h
    · rw [if_neg (fun e => e h.symm)]
    · rw [if_pos (fun e => hne e.symm)]
  · intro s0 flags h0 hptr hbuf
    exact deliver_completes s0 frame flags h0 hptr hbuf (by omega) hhi

/-- C7 at the WRITE command frame `31 D4 C1` received by the resident example session: the
trailer is the CRC of the command byte and the verdict is VALID. -/
theorem C7_write_command_frame :
    2 ≤ [0x31, 0xD4, 0xC1].length ∧ [0x31, 0xD4, 0xC1].length ≤ RX_BUFFER_SIZE
    ∧ (∀ b ∈ [0x31, 0xD4, 0xC1], b < 256)
    ∧ FrameCompleted (commandFrameSession [0x31, 0xD4, 0xC1]) [0x31, 0xD4, 0xC1]
    ∧ (receiveData 3 (INIT_CRC_FLAG ||| CALCULATE_CRC_FLAG)
        (commandFrameSession [0x31, 0xD4, 0xC1])).1
      = RECEIVED_DATA_TYPE.VALID_RECEIVED_DATA_TYPE :=
  ⟨by decide, by decide, by decide,
    (by decide!),
    ((C7_receiveData_crc_verdict Unit [0x31, 0xD4, 0xC1] (by decide) (by decide) (by decide)).1
      (commandFrameSession [0x31, 0xD4, 0xC1]) 3
      (by decide!)).1.mpr
      (by decide!)⟩

/-! ## C8 -/

/-- C8: take a frame of L bytes (3 ≤ L ≤ 280) whose last two bytes are the CRC-16/ARC of the
bytes before them, and invert any one bit of it, in the payload or in the two CRC bytes.
When the resulting frame is the completed frame, `receiveData` with CRC reset and validation
reports INVALID. -/
theorem C8_single_bit_flip_is_invalid {W : Type} (s : Session W) (frame : List Nat)
    (len index bit : Nat) (hlo : 3 ≤ frame.length) (_hhi : frame.length ≤ RX_BUFFER_SIZE)
    (hb : ∀ b ∈ frame, b < 256)
    (hcrc : frame.getD (frame.length - 2) 0 * 256 + frame.getD (frame.length - 1) 0
      = crc16ArcReference (frame.take (frame.length - 2)))
    (hi : index < frame.length) (hj : bit < 8)
    (hc : FrameCompleted s (flipBit frame index bit)) :
    (receiveData len (INIT_CRC_FLAG ||| CALCULATE_CRC_FLAG) s).1
      = RECEIVED_DATA_TYPE.INVALID_RECEIVED_DATA_TYPE := by
  have hp : ∀ x ∈ frame.take (frame.length - 2), x < 256 :=
    fun x hx => hb x (List.mem_of_mem_take hx)
  have href : crc16ArcReference (frame.take (frame.length - 2))
      = crcFold 0 (frame.take (frame.length - 2)) := (crcFold_eq_reference _ hp 0).symm
  rw [href] at hcrc
  have hmis := flipBit_mismatch frame index bit hlo hb hcrc hi hj
  rw [receiveData_completed s _ len (by rw [flipBit_length]; omega)
    (flipBit_lt frame index bit hb hj) hc, flipBit_length, if_pos hmis]

/-- C8 at the WRITE command frame `31 D4 C1` with the lowest bit of the command byte
inverted (`30 D4 C1`): the verdict is INVALID. -/
theorem C8_flipped_command_frame :
    3 ≤ [0x31, 0xD4, 0xC1].length
    ∧ flipBit [0x31, 0xD4, 0xC1] 0 0 = [0x30, 0xD4, 0xC1]
    ∧ FrameCompleted (commandFrameSession [0x30, 0xD4, 0xC1]) (flipBit [0x31, 0xD4, 0xC1] 0 0)
    ∧ (receiveData 3 (INIT_CRC_FLAG ||| CALCULATE_CRC_FLAG)
        (commandFrameSession [0x30, 0xD4, 0xC1])).1
      = RECEIVED_DATA_TYPE.INVALID_RECEIVED_DATA_TYPE :=
  ⟨by decide, by decide!,
    (by decide!),
    C8_single_bit_flip_is_invalid (commandFrameSession [0x30, 0xD4, 0xC1]) [0x31, 0xD4, 0xC1] 3 0 0
      (by decide) (by decide) (by decide) (by decide!) (by decide) (by decide)
      (by decide!)⟩

/-! ## C9 -/

/-- C9: for every CRC-valid address frame (any address) that is the completed field of the
state GO_RECEIVE_ADDRESS of a running bootloader: when the validity marker is 0x55555555 the
poll transmits ACK and then clears the boot tag, calls quiesce and jumps to the application;
when the marker has any other value the poll transmits NACK and does nothing else (no
quiesce, no jump), the boot tag keeps its value and the state is WAIT_FOR_COMMAND. -/
theorem C9_go_jumps_iff_marker_valid {W : Type} (env : Board W) (s : Session W)
    (address : List Nat) (hi lo : Nat) (hb : ∀ b ∈ address, b < 256) (hhi : hi < 256)
    (hlo : lo < 256) (hrun : s.running = true)
    (hstate : s.protocolState = PROTOCOL_STATE.GO_COMMAND_RECEIVE_ADDRESS_PROTOCOL_STATE)
    (hframe : FrameCompleted s (address ++ [hi, lo]))
    (hcrc : hi * 256 + lo = crc16ArcReference address) :
    (env.load32 s.world s.validApplicationTag = VALID_FIRMWARE_VALUE →
      ∃ later : List Event, (bootloaderHandler env s).trace
        = s.trace ++ [Event.transmit [ACK], Event.bootTagStore 0, Event.quiesce, Event.jump]
          ++ later)
    ∧ (env.load32 s.world s.validApplicationTag ≠ VALID_FIRMWARE_VALUE →
      (bootloaderHandler env s).trace = s.trace ++ [Event.transmit [NACK]]
      ∧ (bootloaderHandler env s).bootloaderTag = s.bootloaderTag
      ∧ (bootloaderHandler env s).protocolState
        = PROTOCOL_STATE.WAIT_FOR_COMMAND_PROTOCOL_STATE
      ∧ (bootloaderHandler env s).running = true) := by
  have hsw := protocolSwitch_valid_field env s address hi lo _ true (goAddressReceived env)
    (switch_go env s hstate) hb hhi hlo hframe hcrc
  rw [← hcrc] at hsw
  have hpoll := bootloaderHandler_of_valid env s _ true hsw
  constructor
  · intro hvalid
    have hbody := goAddressReceived_valid env (frameTaken s (hi * 256 + lo)) hvalid
    rw [hpoll]
    rcases afterValid_cases env (goAddressReceived env (frameTaken s (hi * 256 + lo)))
      with e | e <;> rw [e]
    · exact ⟨[], by rw [hbody, List.append_nil]; rfl⟩
    · exact ⟨[Event.bootTagStore 0, Event.quiesce, Event.jump], by
        show (goAddressReceived env (frameTaken s (hi * 256 + lo))).trace ++ _ = _
        rw [hbody]; rfl⟩
  · intro hinvalid
    obtain ⟨h1, h2, h3, h4, h5, h6⟩ :=
      goAddressReceived_invalid env (frameTaken s (hi * 256 + lo)) hinvalid hrun
    have hidle : idleExit env (goAddressReceived env (frameTaken s (hi * 256 + lo)))
        = goAddressReceived env (frameTaken s (hi * 256 + lo)) := by
      rw [idleExit_eq, h5, h6, if_neg (fun h => hinvalid h.2)]
    rw [hpoll, if_pos h4, hidle]
    exact ⟨h1, h2, h3, h4⟩

/-- C9 on the example board with the address frame `08 00 32 00 00 17`: with the marker
0x55555555 the device sends ACK and jumps; with the erased marker 0xFFFFFFFF it sends NACK,
and neither quiesce nor jump is recorded. -/
theorem C9_example_go :
    (bootloaderHandler (exampleBoard 0x55555555)
        (goSession 0x55555555 [0x08, 0x00, 0x32, 0x00, 0x00, 0x17])).trace
      = (goSession 0x55555555 [0x08, 0x00, 0x32, 0x00, 0x00, 0x17]).trace
        ++ [Event.transmit [ACK], Event.bootTagStore 0, Event.quiesce, Event.jump]
    ∧ (bootloaderHandler (exampleBoard 0xFFFFFFFF)
        (goSession 0xFFFFFFFF [0x08, 0x00, 0x32, 0x00, 0x00, 0x17])).trace
      = (goSession 0xFFFFFFFF [0x08, 0x00, 0x32, 0x00, 0x00, 0x17]).trace
        ++ [Event.transmit [NACK]]
    ∧ (bootloaderHandler (exampleBoard 0xFFFFFFFF)
        (goSession 0xFFFFFFFF [0x08, 0x00, 0x32, 0x00, 0x00, 0x17])).protocolState
      = PROTOCOL_STATE.WAIT_FOR_COMMAND_PROTOCOL_STATE :=
  ⟨by decide!,
    ((C9_go_jumps_iff_marker_valid (exampleBoard 0xFFFFFFFF)
      (goSession 0xFFFFFFFF [0x08, 0x00, 0x32, 0x00, 0x00, 0x17]) [0x08, 0x00, 0x32, 0x00] 0x00 0x17
      (by decide) (by decide) (by decide) (by decide!) (by decide!)
      (by decide!)
      (by decide!)).2 (by decide!)).1,
    ((C9_go_jumps_iff_marker_valid (exampleBoard 0xFFFFFFFF)
      (goSession 0xFFFFFFFF [0x08, 0x00, 0x32, 0x00, 0x00, 0x17]) [0x08, 0x00, 0x32, 0x00] 0x00 0x17
      (by decide) (by decide) (by decide) (by decide!) (by decide!)
      (by decide!)
      (by decide!)).2 (by decide!)).2.2.1⟩

/-! ## C10 -/

/-- C11, failing input: in the READ length state the frame `03 01 41` (the CRC of `03` is
`01 40`) is reported INVALID, and the poll leaves the protocol state at
`READ_COMMAND_RECEIVE_LENGTH_PROTOCOL_STATE` instead of returning to
`WAIT_FOR_COMMAND_PROTOCOL_STATE`, and sends nothing.  The command is not aborted: the next
frame of the host, the WRITE command `31 D4 C1`, is taken as the length field of the READ,
which sets the segment length to 0x31 + 1 = 50 and is answered with ACK and 50 bytes of the
buffer. -/
theorem C11_bad_read_length_keeps_state :
    (readLengthSession [0x03, 0x01, 0x41]).running = true
    ∧ (protocolSwitch (exampleBoard 0xFFFFFFFF)
        (readLengthSession [0x03, 0x01, 0x41])).receiveResult
        = RECEIVED_DATA_TYPE.INVALID_RECEIVED_DATA_TYPE
    ∧ (bootloaderHandler (exampleBoard 0xFFFFFFFF)
        (readLengthSession [0x03, 0x01, 0x41])).protocolState
        = PROTOCOL_STATE.READ_COMMAND_RECEIVE_LENGTH_PROTOCOL_STATE
    ∧ (bootloaderHandler (exampleBoard 0xFFFFFFFF)
        (readLengthSession [0x03, 0x01, 0x41])).protocolState
        ≠ PROTOCOL_STATE.WAIT_FOR_COMMAND_PROTOCOL_STATE
    ∧ transmitted (bootloaderHandler (exampleBoard 0xFFFFFFFF)
        (readLengthSession [0x03, 0x01, 0x41])).trace
        = transmitted (readLengthSession [0x03, 0x01, 0x41]).trace
    ∧ (pollFrame (exampleBoard 0xFFFFFFFF) [0x31, 0xD4, 0xC1]
        (bootloaderHandler (exampleBoard 0xFFFFFFFF)
          (readLengthSession [0x03, 0x01, 0x41]))).segmentDataLength = 50
    ∧ (transmitted (pollFrame (exampleBoard 0xFFFFFFFF) [0x31, 0xD4, 0xC1]
        (bootloaderHandler (exampleBoard 0xFFFFFFFF)
          (readLengthSession [0x03, 0x01, 0x41]))).trace).map List.length
        = (transmitted (readLengthSession [0x03, 0x01, 0x41]).trace).map List.length
          ++ [1, 50] := by
  decide!

/-- C11: what the code does when the receive engine reports INVALID during a poll of the
running bootloader.  `handleProtocolError` resets the protocol state only together with the
NACK, inside `if (sendNack)`: the state after the poll is `WAIT_FOR_COMMAND_PROTOCOL_STATE`
in the states whose `case` leaves `confirmError` set (command, WRITE address, WRITE data,
READ address, GO address, RANDOMIZE response), but in the READ length state and the ERASE
CRC state, which clear `confirmError`, the poll leaves the protocol state as it was, against
the claim; in the WRITE length, ERASE mode and ERASE pages states INVALID is never
reported. -/
theorem C11_invalid_resets_where_confirmed {W : Type} (env : Board W) (s : Session W)
    (hrun : s.running = true)
    (hinv : (protocolSwitch env s).receiveResult
      = RECEIVED_DATA_TYPE.INVALID_RECEIVED_DATA_TYPE) :
    (s.protocolState ∈
        [PROTOCOL_STATE.WAIT_FOR_COMMAND_PROTOCOL_STATE,
         PROTOCOL_STATE.WRITE_COMMAND_RECEIVE_ADDRESS_PROTOCOL_STATE,
         PROTOCOL_STATE.WRITE_COMMAND_RECEIVE_DATA_PROTOCOL_STATE,
         PROTOCOL_STATE.READ_COMMAND_RECEIVE_ADDRESS_PROTOCOL_STATE,
         PROTOCOL_STATE.GO_COMMAND_RECEIVE_ADDRESS_PROTOCOL_STATE,
         PROTOCOL_STATE.RANDOMIZE_COMMAND_RECEIVE_ENCRYPTED_RANDOM_VALUE_STATE]
      → (bootloaderHandler env s).protocolState
          = PROTOCOL_STATE.WAIT_FOR_COMMAND_PROTOCOL_STATE)
    ∧ (s.protocolState ∈
        [PROTOCOL_STATE.READ_COMMAND_RECEIVE_LENGTH_PROTOCOL_STATE,
         PROTOCOL_STATE.ERASE_COMMAND_RECEIVE_CRC]
      → (bootloaderHandler env s).protocolState = s.protocolState)
    ∧ s.protocolState ∉
        [PROTOCOL_STATE.WRITE_COMMAND_RECEIVE_LENGTH_PROTOCOL_STATE,
         PROTOCOL_STATE.ERASE_COMMAND_RECEIVE_MODE_PROTOCOL_STATE,
         PROTOCOL_STATE.ERASE_COMMAND_RECEIVE_PAGES_NUMBERS] := by
  obtain ⟨len, flags, body, hsw, hflags⟩ := switch_table env s
  obtain ⟨h1, -⟩ := poll_invalid env s len flags _ body hsw hrun hinv
  refine ⟨fun hmem => ?_, fun hmem => ?_, fun hmem => ?_⟩
  · rw [h1, if_pos (decide_eq_true hmem)]
  · rw [h1, if_neg]
    intro hd
    have hd2 := of_decide_eq_true hd
    revert hmem hd2
    generalize s.protocolState = st
    cases st <;> decide
  · rw [hsw, onField_receiveResult] at hinv
    exact receiveData_not_invalid len flags s (hflags hmem) hinv

/-- C11, worked example: at the WRITE data session with the frame `01 02 03 04 0F E4` the
state is reset, and at the READ length session with the frame `03 01 41` the state is
kept. -/
theorem C11_example_write_data_and_read_length :
    (bootloaderHandler (exampleBoard 0xFFFFFFFF)
        (writeDataSession [0x01, 0x02, 0x03, 0x04, 0x0F, 0xE4])).protocolState
        = PROTOCOL_STATE.WAIT_FOR_COMMAND_PROTOCOL_STATE
    ∧ (bootloaderHandler (exampleBoard 0xFFFFFFFF)
        (readLengthSession [0x03, 0x01, 0x41])).protocolState
        = (readLengthSession [0x03, 0x01, 0x41]).protocolState :=
  ⟨(C11_invalid_resets_where_confirmed (exampleBoard 0xFFFFFFFF)
      (writeDataSession [0x01, 0x02, 0x03, 0x04, 0x0F, 0xE4]) (by decide!) (by decide!)).1
      (by decide!),
    (C11_invalid_resets_where_confirmed (exampleBoard 0xFFFFFFFF)
      (readLengthSession [0x03, 0x01, 0x41]) (by decide!) (by decide!)).2.1 (by decide!)⟩

/-! ## C12 -/

/-- C12, what the code does for WRITE: an authorized WRITE received field by field with
correct CRCs makes its flash call when the data field is taken and then answers the data
field with ACK, on every board, that is whatever status the flash driver returns; the
result of `executeCommand` is not looked at. -/
theorem C12_write_reply_ignores_flash_status {W : Type} (env : Board W) (s : Session W)
    (a3 a2 a1 a0 ah al N : Nat) (data : List Nat) (dh dl : Nat) (hs : AwaitingField s)
    (hst : s.protocolState = PROTOCOL_STATE.WAIT_FOR_COMMAND_PROTOCOL_STATE)
    (hauth : s.hostAuthorized = true)
    (h3 : a3 < 256) (h2 : a2 < 256) (h1 : a1 < 256) (h0 : a0 < 256) (hah : ah < 256)
    (hal : al < 256) (hN : N < 256) (hdata : ∀ b ∈ data, b < 256) (hdh : dh < 256)
    (hdl : dl < 256) (hlen : data.length = N + 1)
    (hcrcA : ah * 256 + al = crc16ArcReference [a3, a2, a1, a0])
    (hcrcD : dh * 256 + dl = crc16ArcReference (N :: data)) :
    transmitted (afterFields env
        [[0x31, 0xD4, 0xC1], [a3, a2, a1, a0, ah, al], [N], data ++ [dh, dl]] s).trace
        = transmitted s.trace ++ [[ACK], [ACK], [ACK]]
    ∧ (afterFields env [[0x31, 0xD4, 0xC1], [a3, a2, a1, a0, ah, al], [N], data ++ [dh, dl]]
        s).protocolState = PROTOCOL_STATE.WAIT_FOR_COMMAND_PROTOCOL_STATE
    ∧ ∃ rest : List Nat, (data ++ [dh, dl] ++ rest).length = RX_BUFFER_SIZE
        ∧ flashCalls (afterFields env
            [[0x31, 0xD4, 0xC1], [a3, a2, a1, a0, ah, al], [N], data ++ [dh, dl]] s).trace
          = flashCalls s.trace
            ++ [if a3 * 16777216 + a2 * 65536 + a1 * 256 + a0 = UINT32_MAX - 1
                  then Event.flashErase (sub32 env.FLASH_END env.FLASH_PAGE_SIZE)
                  else Event.flashWrite
                    (if a3 * 16777216 + a2 * 65536 + a1 * 256 + a0 = UINT32_MAX
                      then add32 (sub32 (FLASH_APP_END_ADDRESS env) 4) 1
                      else a3 * 16777216 + a2 * 65536 + a1 * 256 + a0)
                    (data ++ [dh, dl] ++ rest) ((N + 1) / 4)] := by
  obtain ⟨w1, w2, w3⟩ := write_sequence env s a3 a2 a1 a0 ah al N data dh dl hs hst hauth
    h3 h2 h1 h0 hah hal hN hdata hdh hdl hlen hcrcA hcrcD
  exact ⟨w2, w1, w3⟩

/-- C12, failing input: an authorized WRITE of `01 02 03 04` to 0x08003200 on a board whose
`flash_write` reports `FLASH_STATUS_ERROR_WRITE` (0x02).  The fields are command `31 D4 C1`,
address `08 00 32 00 00 17`, length `03`, data and CRC `01 02 03 04 0F E5`.  `flash_write` is
called once and fails, and the reply to the data field is ACK, so the bytes sent are the
three ACKs of command, address and data.  (The global EXTENDED_ERASE on a board whose
`flash_erase` reports `FLASH_STATUS_ERROR` is answered with NACK.) -/
theorem C12_write_flash_error_is_acknowledged :
    transmitted (afterFields (faultyBoard 0x02)
        [[0x31, 0xD4, 0xC1], [0x08, 0x00, 0x32, 0x00, 0x00, 0x17], [0x03],
          [0x01, 0x02, 0x03, 0x04] ++ [0x0F, 0xE5]] authorizedSession).trace
        = transmitted authorizedSession.trace ++ [[ACK], [ACK], [ACK]]
    ∧ ((faultyBoard 0x02).flash_write () 0x08003200
        ([0x01, 0x02, 0x03, 0x04, 0x0F, 0xE5] ++ List.replicate 274 0) 1).1 ≠ FLASH_STATUS_OK
    ∧ flashCalls (afterFields (faultyBoard 0x02)
        [[0x31, 0xD4, 0xC1], [0x08, 0x00, 0x32, 0x00, 0x00, 0x17], [0x03],
          [0x01, 0x02, 0x03, 0x04, 0x0F, 0xE5]] authorizedSession).trace
        = [Event.flashWrite 0x08003200
            ([0x01, 0x02, 0x03, 0x04, 0x0F, 0xE5] ++ List.replicate 274 0) 1]
    ∧ transmitted (afterFields (faultyBoard 0x02)
        [[0x31, 0xD4, 0xC1], [0x08, 0x00, 0x32, 0x00, 0x00, 0x17], [0x03],
          [0x01, 0x02, 0x03, 0x04, 0x0F, 0xE5]] authorizedSession).trace
        = [[ACK], [ACK], [ACK]]
    ∧ transmitted (afterFields (faultyBoard 0xFF)
        [[0x44, 0x33, 0x00], [0xFF, 0xFF], [0xB0, 0x01]] authorizedSession).trace
        = [[ACK], [NACK]] :=
  ⟨(C12_write_reply_ignores_flash_status (faultyBoard 0x02) authorizedSession
      0x08 0x00 0x32 0x00 0x00 0x17 0x03 [0x01, 0x02, 0x03, 0x04] 0x0F 0xE5
      (by decide!) (by decide!) (by decide!) (by decide!) (by decide!) (by decide!) (by decide!)
      (by decide!) (by decide!) (by decide!) (by decide!) (by decide!) (by decide!) (by decide!)
      (by decide!) (by decide!)).1,
    by decide!, by decide!, by decide!, by decide!⟩

/-! ## C13 -/

/-- C13, counterexample: on a device whose validity marker is erased, after 60000 timer
ticks without a received byte the idle-exit counter is zero, and each of the polls that
follow executes GO again: one poll makes one execution, five polls make five, not one in
total.  None of them jumps (the trace holds no call of `flash_jump_to_app`), the counter
stays at zero and the bootloader is still running. -/
theorem C13_invalid_marker_go_on_every_poll :
    (bootloaderTimer^[60000] residentSession).bootloaderExitTimeout = 0
    ∧ (bootloaderTimer^[60000] residentSession).rxDataReady = false
    ∧ (exampleBoard 0xFFFFFFFF).load32 (bootloaderTimer^[60000] residentSession).world
        (bootloaderTimer^[60000] residentSession).validApplicationTag ≠ VALID_FIRMWARE_VALUE
    ∧ goExecutionsIn (exampleBoard 0xFFFFFFFF) 1 (bootloaderTimer^[60000] residentSession) = 1
    ∧ goExecutionsIn (exampleBoard 0xFFFFFFFF) 5 (bootloaderTimer^[60000] residentSession) = 5
    ∧ goExecutionsIn (exampleBoard 0xFFFFFFFF) 5 (bootloaderTimer^[60000] residentSession) ≠ 1
    ∧ jumpCount (polls (exampleBoard 0xFFFFFFFF) 1
        (bootloaderTimer^[60000] residentSession)).trace = 0
    ∧ jumpCount (polls (exampleBoard 0xFFFFFFFF) 5
        (bootloaderTimer^[60000] residentSession)).trace = 0
    ∧ (polls (exampleBoard 0xFFFFFFFF) 5
        (bootloaderTimer^[60000] residentSession)).bootloaderExitTimeout = 0
    ∧ (polls (exampleBoard 0xFFFFFFFF) 5
        (bootloaderTimer^[60000] residentSession)).running = true := by
  rw [bootloaderTimer_iterate 60000 residentSession (by decide!)]
  decide!

/-- C13, amended: with the idle-exit counter at zero and no completed frame waiting, a poll
of the running bootloader executes GO once, and so does every poll that follows while the
bootloader is running: the executions are one per poll.  If the validity marker is
0x55555555 the first execution jumps, and since the jump does not come back no later poll
runs: one execution of GO and one jump in total, however many polls are asked for.  If the
marker has any other value, `n` polls make `n` executions of GO and no jump.  (Were the jump
to come back, `n` polls would make `n` executions and `n` jumps.) -/
theorem C13_idle_exit_executes_go_on_every_poll {W : Type} (env : Board W)
    (s : Session W) (hrun : s.running = true) (hzero : s.bootloaderExitTimeout = 0)
    (hquiet : s.rxDataReady = false) :
    goExecutions env s = 1
    ∧ bootloaderHandler env s = idleExit env (beforeIdleExit env s)
    ∧ (env.load32 s.world s.validApplicationTag = VALID_FIRMWARE_VALUE →
      env.jumpReturns s.world = false →
      ∀ n, goExecutionsIn env (n + 1) s = 1
        ∧ jumpCount (polls env (n + 1) s).trace = jumpCount s.trace + 1)
    ∧ (env.load32 s.world s.validApplicationTag ≠ VALID_FIRMWARE_VALUE →
      ∀ n, goExecutionsIn env n s = n
        ∧ jumpCount (polls env n s).trace = jumpCount s.trace
        ∧ (polls env n s).running = true)
    ∧ (env.load32 s.world s.validApplicationTag = VALID_FIRMWARE_VALUE →
      env.jumpReturns s.world = true →
      ∀ n, goExecutionsIn env n s = n
        ∧ jumpCount (polls env n s).trace = jumpCount s.trace + n) := by
  refine ⟨?_, ?_,
    fun hm hret n => ⟨goExecutionsIn_idle_valid env n s hrun hzero hquiet hm hret, ?_⟩,
    fun hm n => ⟨goExecutionsIn_idle_invalid env n s hrun hzero hquiet hm,
      polls_idle_invalid env n s hrun hzero hquiet hm, ?_⟩,
    fun hm hret n => ⟨goExecutionsIn_idle_returning env n s hrun hzero hquiet hm hret,
      polls_idle_returning env n s hrun hzero hquiet hm hret⟩⟩
  · rw [goExecutions_quiet env s hrun hquiet, if_pos hzero]
  · rw [bootloaderHandler_beforeIdleExit, if_pos (switch_quiet_running env s hrun hquiet)]
  · obtain ⟨-, -, -, -, p5, -⟩ := poll_idle env s hrun hzero hquiet
    obtain ⟨q1, q2⟩ := p5 hm
    rw [polls_succ env n s hrun, polls_stopped env n _ (q2.trans hret), q1]
  · exact polls_idle_running env n s hrun hzero hquiet hm

/-- C13, worked example: on a device with a valid marker whose bootloader was entered from
the application, the polls after 60000 quiet ticks make one execution of GO and one jump in
total; on the device with an erased marker five polls make five executions of GO and no
jump. -/
theorem C13_example_idle_exit_attempts :
    (goExecutionsIn (exampleBoard 0x55555555) (4 + 1)
        (bootloaderTimer^[60000] enteredSession) = 1
      ∧ jumpCount (polls (exampleBoard 0x55555555) (4 + 1)
          (bootloaderTimer^[60000] enteredSession)).trace
        = jumpCount (bootloaderTimer^[60000] enteredSession).trace + 1)
    ∧ (goExecutionsIn (exampleBoard 0xFFFFFFFF) 5
        (bootloaderTimer^[60000] residentSession) = 5
      ∧ jumpCount (polls (exampleBoard 0xFFFFFFFF) 5
          (bootloaderTimer^[60000] residentSession)).trace
        = jumpCount (bootloaderTimer^[60000] residentSession).trace
      ∧ (polls (exampleBoard 0xFFFFFFFF) 5
          (bootloaderTimer^[60000] residentSession)).running = true) :=
  ⟨(C13_idle_exit_executes_go_on_every_poll (exampleBoard 0x55555555)
      (bootloaderTimer^[60000] enteredSession)
      (by rw [bootloaderTimer_iterate 60000 enteredSession (by decide!)]; decide!)
      (by rw [bootloaderTimer_iterate 60000 enteredSession (by decide!)]; decide!)
      (by rw [bootloaderTimer_iterate 60000 enteredSession (by decide!)]; decide!)).2.2.1
      (by rw [bootloaderTimer_iterate 60000 enteredSession (by decide!)]; decide!)
      (by rw [bootloaderTimer_iterate 60000 enteredSession (by decide!)]; decide!) 4,
    (C13_idle_exit_executes_go_on_every_poll (exampleBoard 0xFFFFFFFF)
      (bootloaderTimer^[60000] residentSession)
      (by rw [bootloaderTimer_iterate 60000 residentSession (by decide!)]; decide!)
      (by rw [bootloaderTimer_iterate 60000 residentSession (by decide!)]; decide!)
      (by rw [bootloaderTimer_iterate 60000 residentSession (by decide!)]; decide!)).2.2.2.1
      (by rw [bootloaderTimer_iterate 60000 residentSession (by decide!)]; decide!) 5⟩

/-! ## C14 -/

/-- C14: `bootloaderInit` points `validApplicationTag` at `FLASH_APP_END_ADDRESS - 3` and
reads the validity marker there.  If the boot tag differs from 0xAABBCCDD and the marker is
0x55555555 it clears the boot tag, calls the quiesce callback and jumps to the application;
in every other case it calls neither, leaves the boot tag as it was and stays resident. -/
theorem C14_init_jumps_iff_tag_and_marker {W : Type} (env : Board W) (s : Session W) :
    (bootloaderInit env s).validApplicationTag = add32 (sub32 (FLASH_APP_END_ADDRESS env) 4) 1
    ∧ (bootloaderInit env s).trace
        = s.trace
          ++ (if s.bootloaderTag ≠ 0xAABBCCDD
                ∧ env.load32 s.world (add32 (sub32 (FLASH_APP_END_ADDRESS env) 4) 1)
                  = 0x55555555
              then [Event.bootTagStore 0, Event.quiesce, Event.jump] else [])
    ∧ (bootloaderInit env s).bootloaderTag
        = (if s.bootloaderTag ≠ 0xAABBCCDD
              ∧ env.load32 s.world (add32 (sub32 (FLASH_APP_END_ADDRESS env) 4) 1)
                = 0x55555555
            then 0 else s.bootloaderTag)
    ∧ (bootloaderInit env s).running
        = (if s.bootloaderTag ≠ 0xAABBCCDD
              ∧ env.load32 s.world (add32 (sub32 (FLASH_APP_END_ADDRESS env) 4) 1)
                = 0x55555555
            then env.jumpReturns s.world else s.running)
    ∧ (Event.jump ∈ (bootloaderInit env s).trace.drop s.trace.length
        ↔ (s.bootloaderTag ≠ 0xAABBCCDD
            ∧ env.load32 s.world (add32 (sub32 (FLASH_APP_END_ADDRESS env) 4) 1)
              = 0x55555555))
    ∧ (Event.quiesce ∈ (bootloaderInit env s).trace.drop s.trace.length
        ↔ (s.bootloaderTag ≠ 0xAABBCCDD
            ∧ env.load32 s.world (add32 (sub32 (FLASH_APP_END_ADDRESS env) 4) 1)
              = 0x55555555)) := by
  have hJ : JUMP_FROM_APPLICATION_TAG_VALUE = 0xAABBCCDD := rfl
  have hV : VALID_FIRMWARE_VALUE = 0x55555555 := rfl
  unfold bootloaderInit
  dsimp only
  rw [hJ, hV]
  by_cases hc : s.bootloaderTag ≠ 0xAABBCCDD
      ∧ env.load32 s.world (add32 (sub32 (FLASH_APP_END_ADDRESS env) 4) 1) = 0x55555555
  · rw [if_pos hc, if_pos hc, if_pos hc, if_pos hc]
    refine ⟨rfl, rfl, rfl, rfl, ?_, ?_⟩
    · show Event.jump ∈ (s.trace ++ [Event.bootTagStore 0, Event.quiesce, Event.jump]).drop _ ↔ _
      rw [List.drop_left]
      exact ⟨fun _ => hc, fun _ => by decide⟩
    · show Event.quiesce
        ∈ (s.trace ++ [Event.bootTagStore 0, Event.quiesce, Event.jump]).drop _ ↔ _
      rw [List.drop_left]
      exact ⟨fun _ => hc, fun _ => by decide⟩
  · rw [if_neg hc, if_neg hc, if_neg hc, if_neg hc]
    refine ⟨rfl, (List.append_nil _).symm, rfl, rfl, ?_, ?_⟩
    · show Event.jump ∈ s.trace.drop _ ↔ _
      rw [List.drop_length]
      exact ⟨fun h => absurd h (List.not_mem_nil _), fun h => absurd h hc⟩
    · show Event.quiesce ∈ s.trace.drop _ ↔ _
      rw [List.drop_length]
      exact ⟨fun h => absurd h (List.not_mem_nil _), fun h => absurd h hc⟩

/-- C14, worked example: on the example board, reset with an arbitrary boot tag and a valid
marker leaves through quiesce and jump; with the tag 0xAABBCCDD, or with an erased marker,
the bootloader stays resident and the tag is kept. -/
theorem C14_example_reset :
    (bootloaderInit (exampleBoard 0x55555555) (initialSession () 0x12345678)).trace
        = [Event.bootTagStore 0, Event.quiesce, Event.jump]
    ∧ (bootloaderInit (exampleBoard 0x55555555) (initialSession () 0x12345678)).running = false
    ∧ (bootloaderInit (exampleBoard 0x55555555) (initialSession () 0xAABBCCDD)).trace = []
    ∧ (bootloaderInit (exampleBoard 0x55555555) (initialSession () 0xAABBCCDD)).bootloaderTag
        = 0xAABBCCDD
    ∧ (bootloaderInit (exampleBoard 0x55555555) (initialSession () 0xAABBCCDD)).running = true
    ∧ (bootloaderInit (exampleBoard 0xFFFFFFFF) (initialSession () 0x12345678)).trace = []
    ∧ (bootloaderInit (exampleBoard 0xFFFFFFFF) (initialSession () 0x12345678)).bootloaderTag
        = 0x12345678
    ∧ (bootloaderInit (exampleBoard 0x55555555) (initialSession () 0x12345678)).validApplicationTag
        = 0x0802FFEC :=
  ⟨(C14_init_jumps_iff_tag_and_marker (exampleBoard 0x55555555)
      (initialSession () 0x12345678)).2.1.trans (by decide!),
    by decide!, by decide!, by decide!, by decide!, by decide!, by decide!, by decide!⟩

/-! ## C15 -/

/-- C15, what the code does: an authorized WRITE with the address field `FF FF FF FE`
(CRC `54 C0`), any length byte and any data, received field by field with correct CRCs,
makes exactly one flash call, an erase at `FLASH_END - FLASH_PAGE_SIZE`, and no write, and
`executeCommand` returns True exactly when that erase returns `FLASH_STATUS_OK`.  With
pages of `FLASH_PAGE_SIZE` bytes (at least 0x14) and `FLASH_END` the last byte of the last
page, that address is the last byte of the page before the last one, while the validity
marker at `FLASH_END - 0x13` lies in the last page: the erase address is not in the page
that holds the marker. -/
theorem C15_erase_address_is_in_the_page_before_the_marker {W : Type} (env : Board W)
    (s : Session W) (N : Nat) (data : List Nat) (dh dl : Nat) (hs : AwaitingField s)
    (hst : s.protocolState = PROTOCOL_STATE.WAIT_FOR_COMMAND_PROTOCOL_STATE)
    (hauth : s.hostAuthorized = true) (hN : N < 256) (hdata : ∀ b ∈ data, b < 256)
    (hdh : dh < 256) (hdl : dl < 256) (hlen : data.length = N + 1)
    (hcrcD : dh * 256 + dl = crc16ArcReference (N :: data))
    (hpage : 0x14 ≤ env.FLASH_PAGE_SIZE) (hsize : env.FLASH_PAGE_SIZE ≤ env.FLASH_END)
    (hend : env.FLASH_END < 4294967296)
    (halign : (env.FLASH_END + 1) % env.FLASH_PAGE_SIZE = 0) :
    flashCalls (afterFields env
        [[0x31, 0xD4, 0xC1], [0xFF, 0xFF, 0xFF, 0xFE, 0x54, 0xC0], [N], data ++ [dh, dl]]
        s).trace
        = flashCalls s.trace ++ [Event.flashErase (env.FLASH_END - env.FLASH_PAGE_SIZE)]
    ∧ (∀ (buffer : List Nat) (length : Nat),
        (executeCommand env WRITE_BOOTLOADER_COMMAND buffer 0xFFFFFFFE length s).result
          = decide ((env.flash_erase s.world (env.FLASH_END - env.FLASH_PAGE_SIZE)).1
              = FLASH_STATUS_OK))
    ∧ flashPage env (env.FLASH_END - env.FLASH_PAGE_SIZE) + 1
        = flashPage env (env.FLASH_END - 0x13)
    ∧ flashPage env (env.FLASH_END - 0x13) = flashPage env env.FLASH_END
    ∧ flashPage env (env.FLASH_END - env.FLASH_PAGE_SIZE)
        ≠ flashPage env (env.FLASH_END - 0x13) := by
  obtain ⟨-, -, rest, -, w⟩ := write_sequence env s 0xFF 0xFF 0xFF 0xFE 0x54 0xC0 N data dh dl
    hs hst hauth (by decide!) (by decide!) (by decide!) (by decide!) (by decide!) (by decide!) hN
    hdata hdh hdl hlen (by decide!) hcrcD
  obtain ⟨p1, p2⟩ := erase_address_page env.FLASH_PAGE_SIZE env.FLASH_END hpage hsize halign
  have hsub : sub32 env.FLASH_END env.FLASH_PAGE_SIZE = env.FLASH_END - env.FLASH_PAGE_SIZE := by
    unfold sub32; omega
  refine ⟨?_, fun buffer length => ?_, p1, p2, ?_⟩
  · rw [w, if_pos (by decide!), hsub]
  · rw [executeCommand_write, if_pos hauth, if_pos (by decide!), hsub]
  · unfold flashPage
    omega

/-- C15, failing input: on the example board (FLASH_END 0x0802FFFF, 128-byte pages) the
authorized WRITE with address field `FF FF FF FE 54 C0`, length `03` and data
`01 02 03 04 0F E5` asks for one erase at 0x0802FF7F, which lies in the page
0x0802FF00..0x0802FF7F, while the marker at 0x0802FFEC lies in the page
0x0802FF80..0x0802FFFF. -/
theorem C15_example_erase_address :
    flashCalls (afterFields (exampleBoard 0xFFFFFFFF)
        [[0x31, 0xD4, 0xC1], [0xFF, 0xFF, 0xFF, 0xFE, 0x54, 0xC0], [0x03],
          [0x01, 0x02, 0x03, 0x04, 0x0F, 0xE5]] authorizedSession).trace
      = [Event.flashErase 0x0802FF7F]
    ∧ flashPage (exampleBoard 0xFFFFFFFF) 0x0802FF7F = 0x0802FF00 / 128
    ∧ flashPage (exampleBoard 0xFFFFFFFF) 0x0802FFEC = 0x0802FF80 / 128
    ∧ flashPage (exampleBoard 0xFFFFFFFF)
        ((exampleBoard 0xFFFFFFFF).FLASH_END - (exampleBoard 0xFFFFFFFF).FLASH_PAGE_SIZE)
      ≠ flashPage (exampleBoard 0xFFFFFFFF) ((exampleBoard 0xFFFFFFFF).FLASH_END - 0x13) :=
  ⟨by decide!, by decide!, by decide!,
    (C15_erase_address_is_in_the_page_before_the_marker (exampleBoard 0xFFFFFFFF)
      authorizedSession 0x03 [0x01, 0x02, 0x03, 0x04] 0x0F 0xE5
      (by decide!) (by decide!) (by decide!) (by decide!) (by decide!) (by decide!) (by decide!)
      (by decide!) (by decide!) (by decide!) (by decide!) (by decide!) (by decide!)).2.2.2.2⟩

/-! ## C16 -/

/-- C16, counterexample: an authorized WRITE at the start address 0xFFFFFFFF with the length
byte `07` (eight data bytes `01 .. 08`, CRC `F4 D6`) asks the flash driver for a write of two
words, that is eight bytes, at the marker address 0x0802FFEC, not of four bytes. -/
theorem C16_length_seven_writes_two_words :
    flashCalls (afterFields (exampleBoard 0xFFFFFFFF)
        [[0x31, 0xD4, 0xC1], [0xFF, 0xFF, 0xFF, 0xFF, 0x94, 0x01], [0x07],
          [0x01, 0x02, 0x03, 0x04, 0x05, 0x06, 0x07, 0x08, 0xF4, 0xD6]]
        authorizedSession).trace
      = [Event.flashWrite 0x0802FFEC
          ([0x01, 0x02, 0x03, 0x04, 0x05, 0x06, 0x07, 0x08, 0xF4, 0xD6]
            ++ List.replicate 270 0) 2]
    ∧ transmitted (afterFields (exampleBoard 0xFFFFFFFF)
        [[0x31, 0xD4, 0xC1], [0xFF, 0xFF, 0xFF, 0xFF, 0x94, 0x01], [0x07],
          [0x01, 0x02, 0x03, 0x04, 0x05, 0x06, 0x07, 0x08, 0xF4, 0xD6]]
        authorizedSession).trace = [[ACK], [ACK], [ACK]] := by
  decide!

/-- C16, amended: an authorized WRITE with the address field `FF FF FF FF` (CRC `94 01`),
a length byte `N` and `N + 1` data bytes, received field by field with correct CRCs, makes
exactly one flash call and no erase: a write at the address `bootloaderInit` stores in
`validApplicationTag` (which is `FLASH_END - 0x13`, that is `FLASH_APP_END_ADDRESS - 3`),
from the buffer that starts with the data field, with a length of `(N + 1) / 4` words.  The
write covers exactly one word, the last four bytes of the application region, exactly when
`3 ≤ N ≤ 6`. -/
theorem C16_marker_write_length_follows_length_byte {W : Type} (env : Board W)
    (s : Session W) (N : Nat) (data : List Nat) (dh dl : Nat) (hs : AwaitingField s)
    (hst : s.protocolState = PROTOCOL_STATE.WAIT_FOR_COMMAND_PROTOCOL_STATE)
    (hauth : s.hostAuthorized = true) (hN : N < 256) (hdata : ∀ b ∈ data, b < 256)
    (hdh : dh < 256) (hdl : dl < 256) (hlen : data.length = N + 1)
    (hcrcD : dh * 256 + dl = crc16ArcReference (N :: data)) :
    (∃ rest : List Nat, (data ++ [dh, dl] ++ rest).length = RX_BUFFER_SIZE
      ∧ flashCalls (afterFields env
          [[0x31, 0xD4, 0xC1], [0xFF, 0xFF, 0xFF, 0xFF, 0x94, 0x01], [N], data ++ [dh, dl]]
          s).trace
        = flashCalls s.trace
          ++ [Event.flashWrite (bootloaderInit env s).validApplicationTag
              (data ++ [dh, dl] ++ rest) ((N + 1) / 4)])
    ∧ (0x13 ≤ env.FLASH_END → env.FLASH_END < 4294967296 →
        (bootloaderInit env s).validApplicationTag = env.FLASH_END - 0x13
        ∧ (bootloaderInit env s).validApplicationTag = FLASH_APP_END_ADDRESS env - 3)
    ∧ ((N + 1) / 4 = 1 ↔ 3 ≤ N ∧ N ≤ 6) := by
  obtain ⟨-, -, rest, w0, w⟩ := write_sequence env s 0xFF 0xFF 0xFF 0xFF 0x94 0x01 N data
    dh dl hs hst hauth (by decide!) (by decide!) (by decide!) (by decide!) (by decide!) (by decide!)
    hN hdata hdh hdl hlen (by decide!) hcrcD
  refine ⟨⟨rest, w0, ?_⟩, fun hlo hhi => ?_, by omega⟩
  · rw [w, if_neg (by decide!), if_pos (by decide!), bootloaderInit_pointer]
  · rw [bootloaderInit_pointer]
    unfold FLASH_APP_END_ADDRESS add32 sub32
    omega

/-- C16, worked example: the amended statement for the length byte `03` and the data
`55 55 55 55` (CRC `B3 BA`): one write of one word at 0x0802FFEC and no erase. -/
theorem C16_example_marker_write :
    (∃ rest : List Nat, ([0x55, 0x55, 0x55, 0x55] ++ [0xB3, 0xBA] ++ rest).length
        = RX_BUFFER_SIZE
      ∧ flashCalls (afterFields (exampleBoard 0xFFFFFFFF)
          [[0x31, 0xD4, 0xC1], [0xFF, 0xFF, 0xFF, 0xFF, 0x94, 0x01], [0x03],
            [0x55, 0x55, 0x55, 0x55] ++ [0xB3, 0xBA]] authorizedSession).trace
        = flashCalls authorizedSession.trace
          ++ [Event.flashWrite
              (bootloaderInit (exampleBoard 0xFFFFFFFF) authorizedSession).validApplicationTag
              ([0x55, 0x55, 0x55, 0x55] ++ [0xB3, 0xBA] ++ rest) ((0x03 + 1) / 4)])
    ∧ flashCalls (afterFields (exampleBoard 0xFFFFFFFF)
        [[0x31, 0xD4, 0xC1], [0xFF, 0xFF, 0xFF, 0xFF, 0x94, 0x01], [0x03],
          [0x55, 0x55, 0x55, 0x55, 0xB3, 0xBA]] authorizedSession).trace
      = [Event.flashWrite 0x0802FFEC
          ([0x55, 0x55, 0x55, 0x55, 0xB3, 0xBA] ++ List.replicate 274 0) 1] :=
  ⟨(C16_marker_write_length_follows_length_byte (exampleBoard 0xFFFFFFFF)
      authorizedSession 0x03 [0x55, 0x55, 0x55, 0x55] 0xB3 0xBA
      (by decide!) (by decide!) (by decide!) (by decide!) (by decide!) (by decide!) (by decide!)
      (by decide!) (by decide!)).1,
    by decide!⟩

/-! ## C17 -/

/-- C17: `bootloaderInit`, the GO command and the idle-timeout exit each either leave the
trace as it is or append exactly the store of 0 to the boot tag, one call of the quiesce
callback and the jump, in this order.  Therefore, in the trace of every run of the
bootloader each jump comes directly after one quiesce call, which comes directly after the
boot tag was set to 0, and every quiesce call is directly followed by the jump
(`ExitDiscipline`): this holds after any of the three, after any poll, and after any
sequence of steps, in particular for every session reached from reset. -/
theorem C17_quiesce_directly_before_jump {W : Type} (env : Board W) (s : Session W)
    (data : List Nat) (address length : Nat) (hs : ExitDiscipline s.trace) :
    ((bootloaderInit env s).trace = s.trace
      ∨ (bootloaderInit env s).trace
          = s.trace ++ [Event.bootTagStore 0, Event.quiesce, Event.jump])
    ∧ ((executeCommand env GO_BOOTLOADER_COMMAND data address length s).session.trace
          = s.trace
      ∨ (executeCommand env GO_BOOTLOADER_COMMAND data address length s).session.trace
          = s.trace ++ [Event.bootTagStore 0, Event.quiesce, Event.jump])
    ∧ ((idleExit env s).trace = s.trace
      ∨ (idleExit env s).trace = s.trace ++ [Event.bootTagStore 0, Event.quiesce, Event.jump])
    ∧ ExitDiscipline (bootloaderInit env s).trace
    ∧ ExitDiscipline
        (executeCommand env GO_BOOTLOADER_COMMAND data address length s).session.trace
    ∧ ExitDiscipline (idleExit env s).trace
    ∧ ExitDiscipline (bootloaderHandler env s).trace
    ∧ (∀ t : Session W, Relation.ReflTransGen (Step env) s t → ExitDiscipline t.trace)
    ∧ (∀ (w : W) (tag : Nat) (t : Session W),
        Relation.ReflTransGen (Step env) (bootloaderInit env (initialSession w tag)) t →
        ExitDiscipline t.trace) := by
  refine ⟨?_, ?_, ?_, growsInOrder_discipline _ _ (bootloaderInit_grows env s) hs,
    growsInOrder_discipline _ _ (executeCommand_grows env _ data address length s) hs,
    growsInOrder_discipline _ _ (idleExit_grows env s) hs,
    growsInOrder_discipline _ _ (bootloaderHandler_grows env s) hs,
    fun t ht => growsInOrder_discipline _ _ (run_grows env s t ht) hs,
    fun w tag t ht => ?_⟩
  · unfold bootloaderInit
    dsimp only
    split_ifs
    · exact Or.inr rfl
    · exact Or.inl rfl
  · rw [executeCommand_go]
    split_ifs
    · exact Or.inr rfl
    · exact Or.inl rfl
  · rcases idleExit_cases env s with h | h <;> rw [h]
    · exact Or.inl rfl
    · exact Or.inr rfl
  · refine growsInOrder_discipline _ _ (run_grows env _ t ht)
      (growsInOrder_discipline _ _ (bootloaderInit_grows env (initialSession w tag)) ?_)
    intro i hi
    exact absurd hi (Nat.not_lt_zero i)

/-- C17, worked example: on the example board with a valid marker, the poll that takes the
GO address field sends ACK, clears the boot tag, calls quiesce and jumps, and the trace of
that run obeys the order. -/
theorem C17_example_go :
    (bootloaderHandler (exampleBoard 0x55555555)
        (goSession 0x55555555 [0x08, 0x00, 0x32, 0x00, 0x00, 0x17])).trace
      = (goSession 0x55555555 [0x08, 0x00, 0x32, 0x00, 0x00, 0x17]).trace
        ++ [Event.transmit [ACK], Event.bootTagStore 0, Event.quiesce, Event.jump]
    ∧ ExitDiscipline (bootloaderHandler (exampleBoard 0x55555555)
        (goSession 0x55555555 [0x08, 0x00, 0x32, 0x00, 0x00, 0x17])).trace
    ∧ ¬ ExitDiscipline [Event.quiesce, Event.jump]
    ∧ ¬ ExitDiscipline [Event.bootTagStore 0, Event.jump]
    ∧ ¬ ExitDiscipline [Event.bootTagStore 0, Event.quiesce, Event.quiesce, Event.jump]
    ∧ ¬ ExitDiscipline [Event.bootTagStore 0, Event.quiesce, Event.receiveArm, Event.jump]
    ∧ ¬ ExitDiscipline [Event.bootTagStore 0, Event.quiesce] :=
  ⟨by decide!,
    (C17_quiesce_directly_before_jump (exampleBoard 0x55555555)
      (goSession 0x55555555 [0x08, 0x00, 0x32, 0x00, 0x00, 0x17]) [] 0 0
      (by decide!)).2.2.2.2.2.2.1,
    by decide, by decide, by decide, by decide, by decide⟩

/-! ## C18 -/

/-- C18: an EXTENDED_ERASE received field by field from the command state, with bytes below
256 and a CRC field equal to the CRC-16 of the mode bytes (and of the page-number bytes,
which are expected exactly when the mode is below 0xFFF0).  The command frame is answered
with ACK.  For a mode of 0xFFF0 or more the final reply is ACK if the host is authorized,
the mode is 0xFFFF and `flash_erase` at 0x08003200 returns `FLASH_STATUS_OK`, and NACK
otherwise, that erase being the only flash call and being made only for an authorized host
and mode 0xFFFF; for a mode below 0xFFF0 the final reply is NACK and no flash call is made.
In all cases the protocol state returns to `WAIT_FOR_COMMAND_PROTOCOL_STATE`. -/
theorem C18_erase_only_global_mode {W : Type} (env : Board W) (s : Session W)
    (mh ml ph pl ch cl : Nat) (hs : AwaitingField s)
    (hst : s.protocolState = PROTOCOL_STATE.WAIT_FOR_COMMAND_PROTOCOL_STATE)
    (hmh : mh < 256) (hml : ml < 256) (hph : ph < 256) (hpl : pl < 256) (hch : ch < 256)
    (hcl : cl < 256) :
    (0xFFF0 ≤ mh * 256 + ml → ch * 256 + cl = crc16ArcReference [mh, ml] →
      transmitted (afterFields env [[0x44, 0x33, 0x00], [mh, ml], [ch, cl]] s).trace
          = transmitted s.trace
            ++ [[ACK],
                [if s.hostAuthorized = true ∧ mh * 256 + ml = 0xFFFF
                    ∧ (env.flash_erase s.world 0x08003200).1 = FLASH_STATUS_OK
                  then ACK else NACK]]
      ∧ flashCalls (afterFields env [[0x44, 0x33, 0x00], [mh, ml], [ch, cl]] s).trace
          = flashCalls s.trace
            ++ (if s.hostAuthorized = true ∧ mh * 256 + ml = 0xFFFF
                then [Event.flashErase 0x08003200] else [])
      ∧ (afterFields env [[0x44, 0x33, 0x00], [mh, ml], [ch, cl]] s).protocolState
          = PROTOCOL_STATE.WAIT_FOR_COMMAND_PROTOCOL_STATE)
    ∧ (mh * 256 + ml < 0xFFF0 → ch * 256 + cl = crc16ArcReference [mh, ml, ph, pl] →
      transmitted
          (afterFields env [[0x44, 0x33, 0x00], [mh, ml], [ph, pl], [ch, cl]] s).trace
          = transmitted s.trace ++ [[ACK], [NACK]]
      ∧ flashCalls
          (afterFields env [[0x44, 0x33, 0x00], [mh, ml], [ph, pl], [ch, cl]] s).trace
          = flashCalls s.trace
      ∧ (afterFields env [[0x44, 0x33, 0x00], [mh, ml], [ph, pl], [ch, cl]] s).protocolState
          = PROTOCOL_STATE.WAIT_FOR_COMMAND_PROTOCOL_STATE) := by
  obtain ⟨k0, k1, k2, k3, k4, k5⟩ := erase_command_step env s hs hst
  obtain ⟨m0, m1, m2, m3, m4, m5, m6, m7⟩ :=
    erase_mode_step env (pollFrame env [0x44, 0x33, 0x00] s) mh ml k0 k1 hmh hml
  have hS : FLASH_APP_START_ADDRESS = 0x08003200 := rfl
  have hmode : mh * 256 + ml < 65536 := by omega
  have hbytes : ∀ b ∈ [mh, ml, ph, pl], b < 256 := by
    intro b hb
    simp only [List.mem_cons, List.mem_singleton, List.not_mem_nil, or_false] at hb
    rcases hb with h | h | h | h <;> rw [h] <;> assumption
  have hbytes2 : ∀ b ∈ [mh, ml], b < 256 := fun b hb =>
    hbytes b (by
      simp only [List.mem_cons, List.mem_singleton, List.not_mem_nil, or_false] at hb ⊢
      rcases hb with h | h
      · exact Or.inl h
      · exact Or.inr (Or.inl h))
  constructor
  · intro hge hcrc
    have hstate : (pollFrame env [mh, ml] (pollFrame env [0x44, 0x33, 0x00] s)).protocolState
        = PROTOCOL_STATE.ERASE_COMMAND_RECEIVE_CRC := by
      rw [m1, if_neg (by omega)]
    have hrun : ch * 256 + cl
        = (pollFrame env [mh, ml] (pollFrame env [0x44, 0x33, 0x00] s)).receivedDataCRC := by
      rw [m3, hcrc]
      unfold crc16ArcReference
      rw [← crcFold_eq_reference [mh, ml] hbytes2 0]
    obtain ⟨r1, r2, r3⟩ := erase_crc_step env _ ch cl m0 hstate (by rw [m2]; exact hmode)
      hch hcl hrun
    rw [afterFields_cons, afterFields_cons, afterFields_cons, afterFields_nil]
    rw [r1, r2, r3, m2, m4, m5, m6, m7, k2, k3, k4, k5, hS, List.append_assoc]
    exact ⟨rfl, rfl, rfl⟩
  · intro hlt hcrc
    have hstate : (pollFrame env [mh, ml] (pollFrame env [0x44, 0x33, 0x00] s)).protocolState
        = PROTOCOL_STATE.ERASE_COMMAND_RECEIVE_PAGES_NUMBERS := by
      rw [m1, if_pos hlt]
    obtain ⟨p0, p1, p2, p3, p4, p5, p6, p7⟩ := erase_pages_step env _ ph pl m0 hstate
    have hrun : ch * 256 + cl
        = (pollFrame env [ph, pl] (pollFrame env [mh, ml]
            (pollFrame env [0x44, 0x33, 0x00] s))).receivedDataCRC := by
      rw [p3, m3, hcrc]
      unfold crc16ArcReference
      rw [← crcFold_eq_reference [mh, ml, ph, pl] hbytes 0]
      rfl
    obtain ⟨r1, r2, r3⟩ := erase_crc_step env _ ch cl p0 p1
      (by rw [p2, m2]; exact hmode) hch hcl hrun
    rw [afterFields_cons, afterFields_cons, afterFields_cons, afterFields_cons,
      afterFields_nil]
    have hne : ¬ (s.hostAuthorized = true ∧ mh * 256 + ml = 0xFFFF) := fun h => by omega
    have hne3 : ¬ (s.hostAuthorized = true ∧ mh * 256 + ml = 0xFFFF
        ∧ (env.flash_erase s.world FLASH_APP_START_ADDRESS).1 = FLASH_STATUS_OK) :=
      fun h => by omega
    rw [r1, r2, r3, p2, p4, p5, p6, p7, m2, m4, m5, m6, m7, k2, k3, k4, k5, if_neg hne,
      if_neg hne3, List.append_assoc, List.append_nil]
    exact ⟨rfl, rfl, rfl⟩

/-- C18, worked example: for an authorized host on the example board, the global erase
(mode `FF FF`, CRC `B0 01`) is made at 0x08003200 and answered with ACK; the bank erase
(mode `FF FE`, CRC `70 C0`) and the erase of page 1 (mode `00 01`, page `00 01`, CRC
`00 90`) make no flash call and are answered with NACK; on a board whose `flash_erase`
fails, and for a host that is not authorized, the global erase is answered with NACK. -/
theorem C18_example_global_and_bank_erase :
    (transmitted (afterFields (exampleBoard 0xFFFFFFFF)
        [[0x44, 0x33, 0x00], [0xFF, 0xFF], [0xB0, 0x01]] authorizedSession).trace
      = transmitted authorizedSession.trace
        ++ [[ACK],
            [if authorizedSession.hostAuthorized = true ∧ 0xFF * 256 + 0xFF = 0xFFFF
                ∧ ((exampleBoard 0xFFFFFFFF).flash_erase authorizedSession.world
                    0x08003200).1 = FLASH_STATUS_OK
              then ACK else NACK]]
      ∧ flashCalls (afterFields (exampleBoard 0xFFFFFFFF)
          [[0x44, 0x33, 0x00], [0xFF, 0xFF], [0xB0, 0x01]] authorizedSession).trace
        = flashCalls authorizedSession.trace
          ++ (if authorizedSession.hostAuthorized = true ∧ 0xFF * 256 + 0xFF = 0xFFFF
              then [Event.flashErase 0x08003200] else [])
      ∧ (afterFields (exampleBoard 0xFFFFFFFF)
          [[0x44, 0x33, 0x00], [0xFF, 0xFF], [0xB0, 0x01]] authorizedSession).protocolState
        = PROTOCOL_STATE.WAIT_FOR_COMMAND_PROTOCOL_STATE)
    ∧ transmitted (afterFields (exampleBoard 0xFFFFFFFF)
        [[0x44, 0x33, 0x00], [0xFF, 0xFF], [0xB0, 0x01]] authorizedSession).trace
      = [[ACK], [ACK]]
    ∧ flashCalls (afterFields (exampleBoard 0xFFFFFFFF)
        [[0x44, 0x33, 0x00], [0xFF, 0xFF], [0xB0, 0x01]] authorizedSession).trace
      = [Event.flashErase 0x08003200]
    ∧ transmitted (afterFields (exampleBoard 0xFFFFFFFF)
        [[0x44, 0x33, 0x00], [0xFF, 0xFE], [0x70, 0xC0]] authorizedSession).trace
      = [[ACK], [NACK]]
    ∧ flashCalls (afterFields (exampleBoard 0xFFFFFFFF)
        [[0x44, 0x33, 0x00], [0xFF, 0xFE], [0x70, 0xC0]] authorizedSession).trace = []
    ∧ transmitted (afterFields (exampleBoard 0xFFFFFFFF)
        [[0x44, 0x33, 0x00], [0x00, 0x01], [0x00, 0x01], [0x00, 0x90]]
        authorizedSession).trace = [[ACK], [NACK]]
    ∧ flashCalls (afterFields (exampleBoard 0xFFFFFFFF)
        [[0x44, 0x33, 0x00], [0x00, 0x01], [0x00, 0x01], [0x00, 0x90]]
        authorizedSession).trace = []
    ∧ transmitted (afterFields (faultyBoard 0xFF)
        [[0x44, 0x33, 0x00], [0xFF, 0xFF], [0xB0, 0x01]] authorizedSession).trace
      = [[ACK], [NACK]]
    ∧ transmitted (afterFields (exampleBoard 0xFFFFFFFF)
        [[0x44, 0x33, 0x00], [0xFF, 0xFF], [0xB0, 0x01]] residentSession).trace
      = [[ACK], [NACK]] :=
  ⟨(C18_erase_only_global_mode (exampleBoard 0xFFFFFFFF) authorizedSession
      0xFF 0xFF 0 0 0xB0 0x01 (by decide!) (by decide!) (by decide) (by decide) (by decide)
      (by decide) (by decide) (by decide)).1 (by decide) (by decide!),
    by decide!, by decide!, by decide!, by decide!, by decide!, by decide!, by decide!,
    by decide!⟩

/-! ## C19 -/

/-- C19, counterexample: in the WRITE data state the frame `01 02 03 04 0F E4` (the CRC
carried on from the length byte `03` is `0F E5`) is reported INVALID, and the poll sends the
byte NACK instead of sending nothing. -/
theorem C19_bad_write_data_is_nacked :
    (writeDataSession [0x01, 0x02, 0x03, 0x04, 0x0F, 0xE4]).protocolState
        = PROTOCOL_STATE.WRITE_COMMAND_RECEIVE_DATA_PROTOCOL_STATE
    ∧ (protocolSwitch (exampleBoard 0xFFFFFFFF)
        (writeDataSession [0x01, 0x02, 0x03, 0x04, 0x0F, 0xE4])).receiveResult
        = RECEIVED_DATA_TYPE.INVALID_RECEIVED_DATA_TYPE
    ∧ transmitted (writeDataSession [0x01, 0x02, 0x03, 0x04, 0x0F, 0xE4]).trace
        = [[ACK], [ACK]]
    ∧ transmitted (bootloaderHandler (exampleBoard 0xFFFFFFFF)
        (writeDataSession [0x01, 0x02, 0x03, 0x04, 0x0F, 0xE4])).trace
        = [[ACK], [ACK], [NACK]] := by
  decide!

/-- C19, amended: when the receive engine reports INVALID during a poll of the running
bootloader, the poll sends exactly one byte, NACK, in the command, WRITE address, WRITE
data, READ address, GO address and RANDOMIZE response states, and sends nothing in the
WRITE length, READ length and ERASE CRC states. -/
theorem C19_invalid_is_nacked_where_confirmed {W : Type} (env : Board W) (s : Session W)
    (hrun : s.running = true) (hbuf : s.transmitBuffer.length = RX_BUFFER_SIZE)
    (hinv : (protocolSwitch env s).receiveResult
      = RECEIVED_DATA_TYPE.INVALID_RECEIVED_DATA_TYPE) :
    (s.protocolState ∈
        [PROTOCOL_STATE.WAIT_FOR_COMMAND_PROTOCOL_STATE,
         PROTOCOL_STATE.WRITE_COMMAND_RECEIVE_ADDRESS_PROTOCOL_STATE,
         PROTOCOL_STATE.WRITE_COMMAND_RECEIVE_DATA_PROTOCOL_STATE,
         PROTOCOL_STATE.READ_COMMAND_RECEIVE_ADDRESS_PROTOCOL_STATE,
         PROTOCOL_STATE.GO_COMMAND_RECEIVE_ADDRESS_PROTOCOL_STATE,
         PROTOCOL_STATE.RANDOMIZE_COMMAND_RECEIVE_ENCRYPTED_RANDOM_VALUE_STATE]
      → transmitted (bootloaderHandler env s).trace = transmitted s.trace ++ [[NACK]])
    ∧ (s.protocolState ∈
        [PROTOCOL_STATE.WRITE_COMMAND_RECEIVE_LENGTH_PROTOCOL_STATE,
         PROTOCOL_STATE.READ_COMMAND_RECEIVE_LENGTH_PROTOCOL_STATE,
         PROTOCOL_STATE.ERASE_COMMAND_RECEIVE_CRC]
      → transmitted (bootloaderHandler env s).trace = transmitted s.trace) := by
  obtain ⟨len, flags, body, hsw, -⟩ := switch_table env s
  obtain ⟨-, h2⟩ := poll_invalid env s len flags _ body hsw hrun hinv
  refine ⟨fun hmem => ?_, fun hmem => ?_⟩
  · rw [h2, if_pos (decide_eq_true hmem)]
    cases hb : s.transmitBuffer with
    | nil => rw [hb] at hbuf; exact absurd hbuf (by decide)
    | cons b rest => rfl
  · rw [h2, if_neg]
    intro hd
    have hd2 := of_decide_eq_true hd
    revert hmem hd2
    generalize s.protocolState = st
    cases st <;> decide

/-- C19, worked example: the amended statement at the WRITE data session with the frame
`01 02 03 04 0F E4` (NACK is sent) and at the READ length session with the frame `03 01 41`
(nothing is sent). -/
theorem C19_example_write_data_and_read_length :
    transmitted (bootloaderHandler (exampleBoard 0xFFFFFFFF)
        (writeDataSession [0x01, 0x02, 0x03, 0x04, 0x0F, 0xE4])).trace
        = transmitted (writeDataSession [0x01, 0x02, 0x03, 0x04, 0x0F, 0xE4]).trace
          ++ [[NACK]]
    ∧ transmitted (bootloaderHandler (exampleBoard 0xFFFFFFFF)
        (readLengthSession [0x03, 0x01, 0x41])).trace
        = transmitted (readLengthSession [0x03, 0x01, 0x41]).trace :=
  ⟨(C19_invalid_is_nacked_where_confirmed (exampleBoard 0xFFFFFFFF)
      (writeDataSession [0x01, 0x02, 0x03, 0x04, 0x0F, 0xE4]) (by decide!) (by decide!)
      (by decide!)).1 (by decide!),
    (C19_invalid_is_nacked_where_confirmed (exampleBoard 0xFFFFFFFF)
      (readLengthSession [0x03, 0x01, 0x41]) (by decide!) (by decide!) (by decide!)).2
      (by decide!)⟩

/-! ## C20 -/

/-- C20, counterexample: in the WRITE length state the length byte `03` is received as
VALID and the poll moves to the WRITE data state, but it sends nothing: the bytes sent so far
are still the two ACKs of the command and of the address. -/
theorem C20_write_length_is_not_acknowledged :
    (pendingField (exampleBoard 0xFFFFFFFF)
        [[0x31, 0xD4, 0xC1], [0x08, 0x00, 0x32, 0x00, 0x00, 0x17]] [0x03]
        residentSession).protocolState
        = PROTOCOL_STATE.WRITE_COMMAND_RECEIVE_LENGTH_PROTOCOL_STATE
    ∧ (protocolSwitch (exampleBoard 0xFFFFFFFF)
        (pendingField (exampleBoard 0xFFFFFFFF)
          [[0x31, 0xD4, 0xC1], [0x08, 0x00, 0x32, 0x00, 0x00, 0x17]] [0x03]
          residentSession)).receiveResult
        = RECEIVED_DATA_TYPE.VALID_RECEIVED_DATA_TYPE
    ∧ transmitted (pendingField (exampleBoard 0xFFFFFFFF)
        [[0x31, 0xD4, 0xC1], [0x08, 0x00, 0x32, 0x00, 0x00, 0x17]] [0x03]
        residentSession).trace = [[ACK], [ACK]]
    ∧ transmitted (bootloaderHandler (exampleBoard 0xFFFFFFFF)
        (pendingField (exampleBoard 0xFFFFFFFF)
          [[0x31, 0xD4, 0xC1], [0x08, 0x00, 0x32, 0x00, 0x00, 0x17]] [0x03]
          residentSession)).trace = [[ACK], [ACK]] := by
  decide!

/-- C20, amended: when the field is received as VALID, the WRITE address and READ address
states send exactly one ACK byte and move to the length state of their command; the WRITE
length, ERASE mode and ERASE pages states move to the next state of their command (WRITE
data; ERASE pages for a mode below 0xFFF0 and ERASE CRC otherwise; ERASE CRC) and send
nothing. -/
theorem C20_valid_intermediate_field {W : Type} (env : Board W) (s : Session W)
    (hvalid : (protocolSwitch env s).receiveResult
      = RECEIVED_DATA_TYPE.VALID_RECEIVED_DATA_TYPE) :
    (s.protocolState = PROTOCOL_STATE.WRITE_COMMAND_RECEIVE_ADDRESS_PROTOCOL_STATE
      → transmitted (bootloaderHandler env s).trace = transmitted s.trace ++ [[ACK]]
        ∧ (bootloaderHandler env s).protocolState
            = PROTOCOL_STATE.WRITE_COMMAND_RECEIVE_LENGTH_PROTOCOL_STATE)
    ∧ (s.protocolState = PROTOCOL_STATE.READ_COMMAND_RECEIVE_ADDRESS_PROTOCOL_STATE
      → transmitted (bootloaderHandler env s).trace = transmitted s.trace ++ [[ACK]]
        ∧ (bootloaderHandler env s).protocolState
            = PROTOCOL_STATE.READ_COMMAND_RECEIVE_LENGTH_PROTOCOL_STATE)
    ∧ (s.protocolState = PROTOCOL_STATE.WRITE_COMMAND_RECEIVE_LENGTH_PROTOCOL_STATE
      → transmitted (bootloaderHandler env s).trace = transmitted s.trace
        ∧ (bootloaderHandler env s).protocolState
            = PROTOCOL_STATE.WRITE_COMMAND_RECEIVE_DATA_PROTOCOL_STATE)
    ∧ (s.protocolState = PROTOCOL_STATE.ERASE_COMMAND_RECEIVE_MODE_PROTOCOL_STATE
      → transmitted (bootloaderHandler env s).trace = transmitted s.trace
        ∧ (bootloaderHandler env s).protocolState
            = (if halfwordOfBuffer s.transmitBuffer < 0xFFF0
                then PROTOCOL_STATE.ERASE_COMMAND_RECEIVE_PAGES_NUMBERS
                else PROTOCOL_STATE.ERASE_COMMAND_RECEIVE_CRC))
    ∧ (s.protocolState = PROTOCOL_STATE.ERASE_COMMAND_RECEIVE_PAGES_NUMBERS
      → transmitted (bootloaderHandler env s).trace = transmitted s.trace
        ∧ (bootloaderHandler env s).protocolState
            = PROTOCOL_STATE.ERASE_COMMAND_RECEIVE_CRC) := by
  refine ⟨fun hst => ?_, fun hst => ?_, fun hst => ?_, fun hst => ?_, fun hst => ?_⟩
  · obtain ⟨crc, h⟩ := poll_valid env s _ _ _ _ (switch_writeAddress env s hst) hvalid
    obtain ⟨h1, h2, -⟩ := afterValid_fields env (writeAddressReceived (frameTaken s crc))
    rw [h, h1, h2]
    refine ⟨?_, rfl⟩
    show transmitted (s.trace ++ [Event.transmit [ACK]]) = _
    rw [transmitted_append]; rfl
  · obtain ⟨crc, h⟩ := poll_valid env s _ _ _ _ (switch_readAddress env s hst) hvalid
    obtain ⟨h1, h2, -⟩ := afterValid_fields env (readAddressReceived (frameTaken s crc))
    rw [h, h1, h2]
    refine ⟨?_, rfl⟩
    show transmitted (s.trace ++ [Event.transmit [ACK]]) = _
    rw [transmitted_append]; rfl
  · obtain ⟨crc, h⟩ := poll_valid env s _ _ _ _ (switch_writeLength env s hst) hvalid
    obtain ⟨h1, h2, -⟩ := afterValid_fields env (writeLengthReceived (frameTaken s crc))
    rw [h, h1, h2]
    exact ⟨rfl, rfl⟩
  · obtain ⟨crc, h⟩ := poll_valid env s _ _ _ _ (switch_eraseMode env s hst) hvalid
    obtain ⟨h1, h2, -⟩ := afterValid_fields env (eraseModeReceived (frameTaken s crc))
    obtain ⟨g1, g2, -⟩ := eraseModeReceived_fields (frameTaken s crc)
    rw [h, h1, h2, g1, g2]
    exact ⟨rfl, rfl⟩
  · obtain ⟨crc, h⟩ := poll_valid env s _ _ _ _ (switch_erasePages env s hst) hvalid
    obtain ⟨h1, h2, -⟩ := afterValid_fields env (erasePagesReceived (frameTaken s crc))
    rw [h, h1, h2]
    exact ⟨rfl, rfl⟩

/-- C20, worked example: the amended statement at the WRITE address field
`08 00 32 00 00 17` (one ACK, on to the length state) and at the WRITE length byte `03`
(nothing sent, on to the data state). -/
theorem C20_example_write_address_and_length :
    (transmitted (bootloaderHandler (exampleBoard 0xFFFFFFFF)
        (pendingField (exampleBoard 0xFFFFFFFF) [[0x31, 0xD4, 0xC1]]
          [0x08, 0x00, 0x32, 0x00, 0x00, 0x17] residentSession)).trace
        = transmitted (pendingField (exampleBoard 0xFFFFFFFF) [[0x31, 0xD4, 0xC1]]
          [0x08, 0x00, 0x32, 0x00, 0x00, 0x17] residentSession).trace ++ [[ACK]]
      ∧ (bootloaderHandler (exampleBoard 0xFFFFFFFF)
        (pendingField (exampleBoard 0xFFFFFFFF) [[0x31, 0xD4, 0xC1]]
          [0x08, 0x00, 0x32, 0x00, 0x00, 0x17] residentSession)).protocolState
        = PROTOCOL_STATE.WRITE_COMMAND_RECEIVE_LENGTH_PROTOCOL_STATE)
    ∧ (transmitted (bootloaderHandler (exampleBoard 0xFFFFFFFF)
        (pendingField (exampleBoard 0xFFFFFFFF)
          [[0x31, 0xD4, 0xC1], [0x08, 0x00, 0x32, 0x00, 0x00, 0x17]] [0x03]
          residentSession)).trace
        = transmitted (pendingField (exampleBoard 0xFFFFFFFF)
          [[0x31, 0xD4, 0xC1], [0x08, 0x00, 0x32, 0x00, 0x00, 0x17]] [0x03]
          residentSession).trace
      ∧ (bootloaderHandler (exampleBoard 0xFFFFFFFF)
        (pendingField (exampleBoard 0xFFFFFFFF)
          [[0x31, 0xD4, 0xC1], [0x08, 0x00, 0x32, 0x00, 0x00, 0x17]] [0x03]
          residentSession)).protocolState
        = PROTOCOL_STATE.WRITE_COMMAND_RECEIVE_DATA_PROTOCOL_STATE) :=
  ⟨(C20_valid_intermediate_field (exampleBoard 0xFFFFFFFF)
      (pendingField (exampleBoard 0xFFFFFFFF) [[0x31, 0xD4, 0xC1]]
        [0x08, 0x00, 0x32, 0x00, 0x00, 0x17] residentSession) (by decide!)).1 (by decide!),
    (C20_valid_intermediate_field (exampleBoard 0xFFFFFFFF)
      (pendingField (exampleBoard 0xFFFFFFFF)
        [[0x31, 0xD4, 0xC1], [0x08, 0x00, 0x32, 0x00, 0x00, 0x17]] [0x03]
        residentSession) (by decide!)).2.2.1 (by decide!)⟩

/-! ## C21 -/

/-- C21: in every session `t` the bootloader can reach from reset, on a board whose
`flash_read` stores bytes in the byte array it is handed: the `switch` of `bootloaderHandler`
calls `receiveData` with the length `fieldLength t` and the flags of the state; that length
is between 1 and 258, and at least 2 when the flags ask for the CRC check; the frame buffer
has its 280 elements; whenever a one-byte receive is pending, which is the only time the
receive-completed callback runs, the callback stores its byte at `rxPointer` and that index
is below 280; while a field is waited for, `expectedDataLength` is the length of the state,
and when the flags ask for the CRC check the two trailer indexes `expectedDataLength - 2` and
`expectedDataLength - 1` that `receiveData` reads do not wrap and are below 280. -/
theorem C21_receive_indexes_stay_in_buffer {W : Type} (env : Board W)
    (hread : ReadsBytes env) (w : W) (tag : Nat) (t : Session W)
    (hreach : Relation.ReflTransGen (Step env) (bootloaderInit env (initialSession w tag)) t) :
    (∃ (ce : Bool) (body : Session W → Session W),
        protocolSwitch env t
          = onField (receiveData (fieldLength t) (fieldFlags t.protocolState) t) ce body)
    ∧ 1 ≤ fieldLength t ∧ fieldLength t ≤ 258
    ∧ (fieldFlags t.protocolState &&& CALCULATE_CRC_FLAG ≠ 0 → 2 ≤ fieldLength t)
    ∧ t.transmitBuffer.length = RX_BUFFER_SIZE
    ∧ (t.rxArmed = true →
        t.rxPointer < RX_BUFFER_SIZE
        ∧ ∀ c : Nat, (bootloaderRxCompletedCallback c t).transmitBuffer
            = t.transmitBuffer.set t.rxPointer c)
    ∧ (t.receiveState = RECEIVE_STATE.WAIT_FOR_DATA_RECEIVE_STATE →
        t.expectedDataLength = fieldLength t)
    ∧ (t.receiveState = RECEIVE_STATE.WAIT_FOR_DATA_RECEIVE_STATE →
        fieldFlags t.protocolState &&& CALCULATE_CRC_FLAG ≠ 0 →
        2 ≤ t.expectedDataLength ∧ t.expectedDataLength - 2 < RX_BUFFER_SIZE
          ∧ t.expectedDataLength - 1 < RX_BUFFER_SIZE) := by
  obtain ⟨hb, h4, h5, h6, _⟩ := run_safe env hread w tag t hreach
  obtain ⟨b1, b2, b3⟩ := fieldLength_bounds t hb.2
  refine ⟨protocolSwitch_field env t, b1, b2, b3, hb.1.1, fun harm => ⟨?_, fun c => ?_⟩, h4,
    fun hw hf => ?_⟩
  · have := h6 harm
    unfold RX_BUFFER_SIZE
    omega
  · exact (callback_engine c t (h6 harm)).2.2.2.2.1
  · have h2 := b3 hf
    rw [← h4 hw] at h2
    unfold RX_BUFFER_SIZE
    omega

/-- C21, worked example: the longest field.  After the WRITE command, its address and the
length byte `FF`, the poll that starts the receive of the data field asks for 258 bytes; the
session is the end of a run from reset, a one-byte receive is pending with `rxPointer` below
280, `expectedDataLength` is the 258 of the state, and the trailer indexes 256 and 257 are
below 280. -/
theorem C21_example_longest_field :
    ReadsBytes (exampleBoard 0xFFFFFFFF)
    ∧ Relation.ReflTransGen (Step (exampleBoard 0xFFFFFFFF))
        (bootloaderInit (exampleBoard 0xFFFFFFFF) (initialSession () 0)) writeDataPending
    ∧ fieldLength writeDataPending = 258
    ∧ writeDataPending.rxArmed = true
    ∧ writeDataPending.rxPointer < RX_BUFFER_SIZE
    ∧ writeDataPending.expectedDataLength = fieldLength writeDataPending
    ∧ (2 ≤ writeDataPending.expectedDataLength
        ∧ writeDataPending.expectedDataLength - 2 < RX_BUFFER_SIZE
        ∧ writeDataPending.expectedDataLength - 1 < RX_BUFFER_SIZE) :=
  ⟨fun _ _ _ _ h => h, writeDataPending_reached, by decide!, by decide!,
    ((C21_receive_indexes_stay_in_buffer (exampleBoard 0xFFFFFFFF) (fun _ _ _ _ h => h) () 0
      writeDataPending writeDataPending_reached).2.2.2.2.2.1 (by decide!)).1,
    (C21_receive_indexes_stay_in_buffer (exampleBoard 0xFFFFFFFF) (fun _ _ _ _ h => h) () 0
      writeDataPending writeDataPending_reached).2.2.2.2.2.2.1 (by decide!),
    (C21_receive_indexes_stay_in_buffer (exampleBoard 0xFFFFFFFF) (fun _ _ _ _ h => h) () 0
      writeDataPending writeDataPending_reached).2.2.2.2.2.2.2 (by decide!) (by decide!)⟩
end Bootloader
